import Mathlib

/-!
# DP Business Portfolio: the data layer of `src/app/main.js` and `src/app/database/db.js`

A shallow embedding of the SQLite tables and of the IPC handlers that read and
write them.

Conventions of the embedding

* A table is the list of its rows in rowid order.  A nullable column is an
  `Option`; a `NOT NULL` column is a plain value.
* `REAL` amounts are exact rationals (`ℚ`): sums and products are the exact
  ones, rounding of IEEE doubles is not modelled.
* `TEXT` values are `String`s, compared the way SQLite's BINARY collation
  compares them: lexicographically, character by character (`textLt`, `textLe`).
* A statement fails when it violates a `NOT NULL` constraint of the schema, or
  when the engine fails for a reason of its own (I/O error, disk full): the
  latter is the `Faults` argument of a handler, indexed by the position of the
  statement in the handler.
* A handler returns the new database and the replies it sent, in order.
* The clock is an argument of a handler.  A day number `today` counts the days
  since 1970-01-01: it is the UTC day where the code renders the date with
  `toISOString()` (mark-invoice-paid), and the local day where the code reads
  `getMonth()` and `getFullYear()` (get-dashboard-stats).  get-compliance-alerts
  moves a local date and renders it in UTC, and takes a `Clock` with the
  offsets of the zone.
-/

namespace DPBusiness

/-! ## Rows (db.js, `CREATE TABLE`) -/

/-- Row of `invoices`. -/
structure Invoice where
  id : Nat
  business_id : Nat
  client_id : Nat
  invoice_number : String
  date : String
  due_date : Option String := none
  status : Option String := some "Draft"
  total_amount : ℚ
  notes : Option String := none
deriving DecidableEq

/-- Row of `invoice_items`. -/
structure InvoiceItem where
  id : Nat
  invoice_id : Nat
  description : String
  quantity : ℚ
  unit_price : ℚ
  amount : ℚ
deriving DecidableEq

/-- Row of `transactions`. -/
structure Transaction where
  id : Nat
  business_id : Nat
  date : String
  description : String
  amount : ℚ
  type : String
  account_id : Option Nat := none
  client_id : Option Nat := none
deriving DecidableEq

/-- Row of `accounts` (with the migrated column `tax_category`). -/
structure Account where
  id : Nat
  business_id : Nat
  name : String
  type : String
  code : Option String := none
  tax_category : Option String := none
deriving DecidableEq

/-- Row of `leads`: every column but `name` is nullable. -/
structure Lead where
  id : Nat
  business_id : Option Nat
  name : String
  email : Option String := none
  phone : Option String := none
  notes : Option String := none
  status : Option String := some "New"
  expected_value : Option ℚ := some 0
  probability : Option ℚ := some 0
deriving DecidableEq

/-- Row of `documents`. -/
structure Document where
  id : Nat
  business_id : Nat
  name : String
  type : String
  notes : Option String := none
  expiry_date : Option String := none
  status : Option String := some "Active"
deriving DecidableEq

/-- Row of `settings` (`key TEXT PRIMARY KEY, value TEXT`). -/
structure Setting where
  key : String
  value : Option String
deriving DecidableEq

/-- Row of `clients`. -/
structure Client where
  id : Nat
  business_id : Nat
  name : String
  email : Option String := none
  phone : Option String := none
  notes : Option String := none
deriving DecidableEq

/-- Row of `client_activities`, the append-only log of a client. -/
structure ClientActivity where
  id : Nat
  client_id : Nat
  action : String
deriving DecidableEq

/-- Row of `products`. -/
structure Product where
  id : Nat
  business_id : Nat
  name : String
  type : Option String := some "Service"
  price : Option ℚ := some 0
  description : Option String := none
deriving DecidableEq

/-- The database: the tables and the `sqlite_sequence` counters of the
AUTOINCREMENT keys the handlers below insert into. -/
structure Db where
  invoices : List Invoice := []
  invoice_items : List InvoiceItem := []
  transactions : List Transaction := []
  accounts : List Account := []
  leads : List Lead := []
  documents : List Document := []
  settings : List Setting := []
  clients : List Client := []
  client_activities : List ClientActivity := []
  products : List Product := []
  seq_invoices : Nat := 0
  seq_invoice_items : Nat := 0
  seq_transactions : Nat := 0
  seq_clients : Nat := 0
  seq_client_activities : Nat := 0
  seq_leads : Nat := 0
  seq_products : Nat := 0
deriving DecidableEq

/-- One row of the get-transactions query: `t.*`, `a.name as account_name`,
`c.name as client_name`. -/
structure TransactionRow where
  t : Transaction
  account_name : Option String
  client_name : Option String
deriving DecidableEq

/-- The responses a handler sends with `event.reply`.  The payload of
product-saved is `{ error: message }` (`some message`) or `{ success: true }`
(`none`). -/
inductive Reply where
  | invoiceSaved
  | invoiceSaveError (message : String)
  | invoiceDeleted
  | invoicePaidSuccess
  | settingsSaved
  | clientSaved
  | leadSaved
  | productSaved (error : Option String)
  | transactionsData (rows : List TransactionRow)
deriving DecidableEq

/-- Engine failures: `faults k = some msg` makes the `k`-th data statement of a
handler fail with `msg` whatever its arguments. -/
abbrev Faults := Nat → Option String

/-- No engine failure: statements fail on constraint violations only. -/
def noFaults : Faults := fun _ => none

/-! ## AUTOINCREMENT -/

/-- Largest id of a table (0 when it is empty). -/
def maxId (ids : List Nat) : Nat := ids.foldr max 0

/-- The rowid an `INTEGER PRIMARY KEY AUTOINCREMENT` column gets: one more than
the largest rowid ever used (`sqlite_sequence`) and than the largest present. -/
def nextId (seq : Nat) (ids : List Nat) : Nat := max seq (maxId ids) + 1

/-! ## TEXT comparison -/

/-- Comparison `a < b` of TEXT values (BINARY collation). -/
def textLt (a b : String) : Prop := a.data < b.data

/-- Comparison `a <= b` of TEXT values (BINARY collation). -/
def textLe (a b : String) : Prop := a.data ≤ b.data

instance (a b : String) : Decidable (textLt a b) := by unfold textLt; infer_instance

instance (a b : String) : Decidable (textLe a b) := by unfold textLe; infer_instance

/-! ## The clock: `new Date().toISOString().split('T')[0]` -/

/-- Leap years of the Gregorian calendar. -/
def isLeap (y : Nat) : Bool := y % 4 = 0 ∧ (y % 100 ≠ 0 ∨ y % 400 = 0)

/-- Day number of January 1st of year `y` (ECMAScript `DayFromYear`), for
`y ≥ 1970`. -/
def dayFromYear (y : Nat) : Nat :=
  365 * (y - 1970) + (y - 1969) / 4 - (y - 1901) / 100 + (y - 1601) / 400

/-- The year a day number falls in (ECMAScript `YearFromTime`): the largest year
that starts on or before it. -/
def yearFromDay (d : Nat) : Nat :=
  Nat.findGreatest (fun y => dayFromYear y ≤ d) (1970 + d / 365)

/-- ECMAScript `InLeapYear`: 1 in a leap year, 0 otherwise. -/
def inLeapYear (y : Nat) : Nat := if isLeap y then 1 else 0

/-- Month (1 to 12) and day of the month of the `n`-th day (from 0) of a year
whose `InLeapYear` is `l` (ECMAScript `MonthFromTime`, `DateFromTime`). -/
def monthDay (l : Nat) (n : Nat) : Nat × Nat :=
  if n < 31 then (1, n + 1)
  else if n < 59 + l then (2, n - 30)
  else if n < 90 + l then (3, n - 58 - l)
  else if n < 120 + l then (4, n - 89 - l)
  else if n < 151 + l then (5, n - 119 - l)
  else if n < 181 + l then (6, n - 150 - l)
  else if n < 212 + l then (7, n - 180 - l)
  else if n < 243 + l then (8, n - 211 - l)
  else if n < 273 + l then (9, n - 242 - l)
  else if n < 304 + l then (10, n - 272 - l)
  else if n < 334 + l then (11, n - 303 - l)
  else (12, n - 333 - l)

/-- Days of the year before month `m` (1 to 12; 13 stands for the next January). -/
def daysBeforeMonth (l : Nat) (m : Nat) : Nat :=
  if m = 1 then 0
  else if m = 2 then 31
  else if m = 3 then 59 + l
  else if m = 4 then 90 + l
  else if m = 5 then 120 + l
  else if m = 6 then 151 + l
  else if m = 7 then 181 + l
  else if m = 8 then 212 + l
  else if m = 9 then 243 + l
  else if m = 10 then 273 + l
  else if m = 11 then 304 + l
  else if m = 12 then 334 + l
  else 365 + l

/-- Calendar date (year, month, day) of a day number. -/
def civil (d : Nat) : Nat × Nat × Nat :=
  let y := yearFromDay d
  let md := monthDay (inLeapYear y) (d - dayFromYear y)
  (y, md.1, md.2)

/-- Two decimal digits, zero padded. -/
def pad2 (n : Nat) : List Char := [Nat.digitChar (n / 10 % 10), Nat.digitChar (n % 10)]

/-- Four decimal digits, zero padded. -/
def pad4 (n : Nat) : List Char :=
  [Nat.digitChar (n / 1000 % 10), Nat.digitChar (n / 100 % 10),
   Nat.digitChar (n / 10 % 10), Nat.digitChar (n % 10)]

/-- The text `YYYY-MM-DD` of a calendar date. -/
def isoOfYMD (y m d : Nat) : String := ⟨pad4 y ++ '-' :: (pad2 m ++ '-' :: pad2 d)⟩

/-- The date part of `toISOString()` for a day number: `YYYY-MM-DD`. -/
def isoDate (d : Nat) : String :=
  isoOfYMD (civil d).1 (civil d).2.1 (civil d).2.2

/-- Day numbers whose year has four digits: 9999-12-31 is day 2932896. -/
def maxDay : Nat := 2932896

/-! ## save-invoice (main.js 545-586) -/

/-- One element of the `items` array of a save-invoice payload. -/
structure ItemPayload where
  description : Option String
  quantity : ℚ
  unit_price : ℚ
deriving DecidableEq

/-- Payload of save-invoice.  The handler destructures `business_id`, `client_id`,
`invoice_number`, `date`, `due_date`, `items` and `notes`; `total_amount` and
`status` stand for what else a caller may put in the object. -/
structure InvoicePayload where
  business_id : Option Nat
  client_id : Option Nat
  invoice_number : Option String
  date : Option String
  due_date : Option String := none
  items : List ItemPayload
  notes : Option String := none
  total_amount : Option ℚ := none
  status : Option String := none
deriving DecidableEq

/-- Line 547: `items.reduce((sum, item) => sum + (item.quantity * item.unit_price), 0)`. -/
def total_amount (items : List ItemPayload) : ℚ :=
  items.foldl (fun sum item => sum + item.quantity * item.unit_price) 0

/-- Id the next inserted invoice gets. -/
def newInvoiceId (db : Db) : Nat := nextId db.seq_invoices (db.invoices.map (·.id))

/-- Lines 552-555: `INSERT INTO invoices (business_id, client_id, invoice_number,
date, due_date, total_amount, notes)`.  Fails on an engine fault and when a
`NOT NULL` column is bound to null, with the message that names the first such
column in the order of the table; `status` takes its default `'Draft'`.
Returns the new database and `this.lastID`. -/
def insertInvoice (fault : Option String) (db : Db) (data : InvoicePayload) (total : ℚ) :
    Except String (Db × Nat) :=
  match fault with
  | some msg => .error msg
  | none =>
    match data.business_id, data.client_id, data.invoice_number, data.date with
    | some b, some c, some n, some d =>
      let id := newInvoiceId db
      let row : Invoice :=
        { id := id, business_id := b, client_id := c, invoice_number := n, date := d,
          due_date := data.due_date, status := some "Draft", total_amount := total,
          notes := data.notes }
      .ok ({ db with invoices := db.invoices ++ [row], seq_invoices := id }, id)
    | none, _, _, _ =>
      .error "SQLITE_CONSTRAINT: NOT NULL constraint failed: invoices.business_id"
    | some _, none, _, _ =>
      .error "SQLITE_CONSTRAINT: NOT NULL constraint failed: invoices.client_id"
    | some _, some _, none, _ =>
      .error "SQLITE_CONSTRAINT: NOT NULL constraint failed: invoices.invoice_number"
    | some _, some _, some _, none =>
      .error "SQLITE_CONSTRAINT: NOT NULL constraint failed: invoices.date"

/-- Line 570: one `stmt.run(invoiceId, item.description, item.quantity,
item.unit_price, item.quantity * item.unit_price)`.  `none` when the insert
fails (engine fault, or `description` null against `NOT NULL`). -/
def insertItem (fault : Option String) (db : Db) (invoiceId : Nat) (item : ItemPayload) :
    Option Db :=
  match fault, item.description with
  | none, some desc =>
    let id := nextId db.seq_invoice_items (db.invoice_items.map (·.id))
    let row : InvoiceItem :=
      { id := id, invoice_id := invoiceId, description := desc, quantity := item.quantity,
        unit_price := item.unit_price, amount := item.quantity * item.unit_price }
    some { db with invoice_items := db.invoice_items ++ [row], seq_invoice_items := id }
  | _, _ => none

/-- Lines 569-571: `items.forEach(item => stmt.run(...))`.  `stmt.run` is given
no callback, so a failed insert is not seen by the handler: the statement has no
effect and the loop goes on.  Item `i` is data statement `k + i` of the handler. -/
def insertItems (faults : Faults) (invoiceId : Nat) : Nat → Db → List ItemPayload → Db
  | _, db, [] => db
  | k, db, item :: rest =>
    match insertItem (faults k) db invoiceId item with
    | some db1 => insertItems faults invoiceId (k + 1) db1 rest
    | none => insertItems faults invoiceId (k + 1) db rest

/-- What becomes of the callback given to `stmt.finalize`: it is not called, or
it is called with the argument `err`. -/
inductive FinalizeCallback where
  | notCalled
  | called (err : Option String)
deriving DecidableEq

/-- How the `BEGIN TRANSACTION` of a handler ends. -/
inductive TransactionEnd where
  | committed
  | rolledBack
  | leftOpen
deriving DecidableEq

/-- Whether the last `stmt.run` of the loop fails: the insert of the last item
(data statement `items.length`), by an engine fault or a null `description`. -/
def lastRunFails (faults : Faults) (items : List ItemPayload) : Bool :=
  match items.getLast? with
  | some item => (faults items.length).isSome || item.description.isNone
  | none => false

/-- The save-invoice handler, with what becomes of the callback of
`stmt.finalize`.  `BEGIN TRANSACTION` takes the snapshot `db`, and `ROLLBACK`
returns to it.  Data statement 0 is the header insert, statement `i + 1` the
insert of item `i`.  When the callback is not called, neither `COMMIT` nor
`ROLLBACK` is run and nothing is replied: the tables returned are then the ones
the connection of the application reads afterwards, inside the transaction left
open. -/
def saveInvoiceWith (finalize : FinalizeCallback) (faults : Faults) (db : Db)
    (data : InvoicePayload) : Db × List Reply :=
  let total := total_amount data.items
  match insertInvoice (faults 0) db data total with
  | .error msg => (db, [.invoiceSaveError msg])
  | .ok (db1, invoiceId) =>
    let db2 := insertItems faults invoiceId 1 db1 data.items
    match finalize with
    | .notCalled => (db2, [])
    | .called (some msg) => (db, [.invoiceSaveError msg])
    | .called none => (db2, [.invoiceSaved])

/-- What node-sqlite3 does with the callback of `Statement#finalize` here.  A
`stmt.run` that fails and has no callback of its own emits the `error` event of
the statement, which has no listener: an exception is raised in the main
process, and the error is not routed to the callback of `finalize`.  The
statement runs its queue in order: after a failed run that is followed by
another run the queue goes on, and the callback of `finalize` is in the end
called without argument; `finalize` queued right after the failed run is
processed in the same turn, while that exception is pending, and its callback is
not called at all. -/
def finalizeCallback (faults : Faults) (items : List ItemPayload) : FinalizeCallback :=
  if lastRunFails faults items then .notCalled else .called none

/-- The save-invoice handler (main.js 545-586). -/
def saveInvoice (faults : Faults) (db : Db) (data : InvoicePayload) : Db × List Reply :=
  saveInvoiceWith (finalizeCallback faults data.items) faults db data

/-- How the transaction of a save-invoice request ends: `ROLLBACK` after a failed
header insert, `COMMIT` in the callback of `stmt.finalize`, and neither when
that callback is not called. -/
def saveInvoiceTransaction (faults : Faults) (db : Db) (data : InvoicePayload) :
    TransactionEnd :=
  match insertInvoice (faults 0) db data (total_amount data.items) with
  | .error _ => .rolledBack
  | .ok _ =>
    match finalizeCallback faults data.items with
    | .notCalled => .leftOpen
    | .called (some _) => .rolledBack
    | .called none => .committed

/-- Whether item `i` of a request fails to insert under `faults`. -/
def itemInsertFails (faults : Faults) (data : InvoicePayload) (i : Nat) : Prop :=
  ∃ item, data.items.get? i = some item ∧
    ((faults (i + 1)).isSome ∨ item.description = none)

/-! ## delete-invoice (main.js 604-622) -/

/-- The delete-invoice handler: `DELETE FROM invoice_items WHERE invoice_id = ?`
(statement 0), then `DELETE FROM invoices WHERE id = ?` (statement 1), inside
`BEGIN TRANSACTION`; a failure rolls back to the snapshot and only logs. -/
def deleteInvoice (faults : Faults) (db : Db) (invoiceId : Nat) : Db × List Reply :=
  match faults 0 with
  | some _ => (db, [])
  | none =>
    let db1 : Db := { db with
      invoice_items := db.invoice_items.filter (fun it => it.invoice_id ≠ invoiceId) }
    match faults 1 with
    | some _ => (db, [])
    | none =>
      ({ db1 with invoices := db1.invoices.filter (fun inv => inv.id ≠ invoiceId) },
       [.invoiceDeleted])

/-! ## mark-invoice-paid (main.js 625-650) -/

/-- The mark-invoice-paid handler.  Statement 0: `UPDATE invoices SET status =
'Paid' WHERE id = ?`; 1: `SELECT * FROM invoices WHERE id = ?`; 2: `SELECT id
FROM accounts WHERE name = 'Sales' AND business_id = ?` (its error is ignored,
the account id is then null); 3: the `INSERT INTO transactions`.  Nothing is
wrapped in a transaction. -/
def markInvoicePaid (faults : Faults) (today : Nat) (db : Db) (invoiceId : Nat) :
    Db × List Reply :=
  match faults 0 with
  | some _ => (db, [])
  | none =>
    let db1 : Db := { db with invoices := db.invoices.map fun (i : Invoice) =>
      if i.id = invoiceId then { i with status := some "Paid" } else i }
    match faults 1, db1.invoices.find? (fun (i : Invoice) => i.id = invoiceId) with
    | some _, _ => (db1, [])
    | none, none => (db1, [])
    | none, some inv =>
      let acc : Option Account :=
        match faults 2 with
        | some _ => none
        | none => db1.accounts.find? (fun (a : Account) =>
            a.name = "Sales" ∧ a.business_id = inv.business_id)
      let accountId : Option Nat := acc.map (·.id)
      match faults 3 with
      | some _ => (db1, [])
      | none =>
        let id := nextId db1.seq_transactions (db1.transactions.map (·.id))
        let row : Transaction :=
          { id := id, business_id := inv.business_id, date := isoDate today,
            description := "Invoice Payment: " ++ inv.invoice_number,
            amount := inv.total_amount, type := "Income", account_id := accountId,
            client_id := some inv.client_id }
        ({ db1 with transactions := db1.transactions ++ [row], seq_transactions := id },
         [.invoicePaidSuccess])

/-! ## get-dashboard-stats: the forecast (main.js 244-277) -/

/-- SQL `SUM` of a column: NULL values are skipped, and the sum of no value at
all is NULL. -/
def sqlSum (vals : List (Option ℚ)) : Option ℚ :=
  match vals.reduceOption with
  | [] => none
  | xs => some xs.sum

/-- SQL `status != 'Converted'`: NULL when `status` is NULL. -/
def sqlNe (a : Option String) (b : String) : Option Bool := a.map (fun s => decide (s ≠ b))

/-- The rows of `... FROM leads WHERE business_id = ? AND status != 'Converted'`:
a `WHERE` keeps the rows on which the condition is true (not false, not NULL). -/
def forecastLeads (leads : List Lead) (businessId : Nat) : List Lead :=
  leads.filter (fun l => l.business_id = some businessId ∧ sqlNe l.status "Converted" = some true)

/-- SQL `expected_value * (probability / 100.0)`: NULL when either is NULL. -/
def weightedValue (l : Lead) : Option ℚ :=
  match l.expected_value, l.probability with
  | some v, some p => some (v * (p / 100))
  | _, _ => none

/-- Query `forecast` (line 251). -/
def forecastQuery (leads : List Lead) (businessId : Nat) : Option ℚ :=
  sqlSum ((forecastLeads leads businessId).map weightedValue)

/-- Line 268: `results[key] = row ? (row.val || 0) : 0` for the key `forecast`. -/
def dashboardForecast (db : Db) (businessId : Nat) : ℚ :=
  match forecastQuery db.leads businessId with
  | some val => val
  | none => 0

/-! ## get-tax-report (main.js 497-519) -/

/-- One row of the tax report. -/
structure TaxRow where
  tax_category : String
  total : ℚ
deriving DecidableEq

/-- The clause `FROM transactions t JOIN accounts a ON t.account_id = a.id WHERE
t.business_id = ? AND t.type = 'Expense' AND a.tax_category IS NOT NULL`: the
joined rows, each with the (non-null) tax category of its account. -/
def taxJoin (db : Db) (businessId : Nat) : List (Transaction × String) :=
  db.transactions.flatMap fun t =>
    db.accounts.filterMap fun a =>
      if t.account_id = some a.id ∧ t.business_id = businessId ∧ t.type = "Expense" then
        a.tax_category.map fun c => (t, c)
      else none

/-- The order of `ORDER BY total DESC`: two rows compared by `total`. -/
def totalDesc (x y : TaxRow) : Prop := y.total ≤ x.total

instance : DecidableRel totalDesc := fun x y => by unfold totalDesc; infer_instance

/-- The get-tax-report query: `GROUP BY a.tax_category` with `SUM(t.amount)`,
`ORDER BY total DESC`. -/
def getTaxReport (db : Db) (businessId : Nat) : List TaxRow :=
  let rows := taxJoin db businessId
  let groups := (rows.map (·.2)).dedup.map fun c =>
    ({ tax_category := c,
       total := ((rows.filter (fun r => r.2 = c)).map (·.1.amount)).sum } : TaxRow)
  groups.insertionSort totalDesc

/-! ## get-compliance-alerts (main.js 468-490) -/

/-- The order of `ORDER BY expiry_date ASC` (NULL first). -/
def expiryAsc (x y : Document) : Prop :=
  match x.expiry_date, y.expiry_date with
  | none, _ => True
  | some _, none => False
  | some a, some b => textLe a b

instance : DecidableRel expiryAsc := fun x y => by
  unfold expiryAsc
  cases x.expiry_date <;> cases y.expiry_date <;> infer_instance

/-- The condition `expiry_date IS NOT NULL AND expiry_date <= ? AND expiry_date >= ?`. -/
def expiryBetween (expiry_date : Option String) (dateStr todayStr : String) : Bool :=
  match expiry_date with
  | none => false
  | some e => textLe e dateStr ∧ textLe todayStr e

/-- The clock and the time zone as get-compliance-alerts reads them.  `now` is
the time of the first `new Date()`, in minutes since 1970-01-01T00:00Z;
`elapsed` the minutes gone by at the second `new Date()`; `offsetNow` the offset
of local time from UTC at `now`, in minutes (local = UTC + offset), and
`offsetThen` the offset in force at the local time 30 days later. -/
structure Clock where
  now : Nat
  elapsed : Nat := 0
  offsetNow : Int := 0
  offsetThen : Int := 0
deriving DecidableEq

/-- The UTC day number of a time in minutes: the day `toISOString()` renders. -/
def utcDay (minutes : Int) : Nat := (minutes / 1440).toNat

/-- Lines 469-470: `thirtyDaysFromNow.setDate(thirtyDaysFromNow.getDate() + 30)`.
`setDate` works on the local time: the local calendar date moves on by 30 days,
the local time of day is kept, and the result is taken back to UTC with the
offset in force at that local time. -/
def thirtyDaysFromNow (c : Clock) : Int :=
  (c.now : Int) + c.offsetNow + 30 * 1440 - c.offsetThen

/-- Line 471: `thirtyDaysFromNow.toISOString().split('T')[0]`. -/
def dateStr (c : Clock) : String := isoDate (utcDay (thirtyDaysFromNow c))

/-- Line 472: `new Date().toISOString().split('T')[0]`. -/
def todayStr (c : Clock) : String := isoDate (utcDay ((c.now : Int) + c.elapsed))

/-- The get-compliance-alerts query, with `dateStr` and `todayStr` bound to its
two date parameters. -/
def getComplianceAlerts (c : Clock) (db : Db) (businessId : Nat) : List Document :=
  let dateStr := dateStr c
  let todayStr := todayStr c
  (db.documents.filter fun d =>
    d.business_id = businessId ∧ expiryBetween d.expiry_date dateStr todayStr).insertionSort
      expiryAsc

/-! ## get-settings, save-settings (main.js 680-695) -/

/-- Statement `INSERT OR REPLACE INTO settings (key, value) VALUES (?, ?)`: `key` is the
primary key, so a row with the same key is deleted before the new row is
inserted. -/
def insertOrReplace (table : List Setting) (key : String) (value : Option String) :
    List Setting :=
  table.filter (fun r => r.key ≠ key) ++ [{ key := key, value := value }]

/-- The save-settings handler: one `stmt.run(key, settings[key])` per key of the
payload, in the order of `Object.keys`. -/
def saveSettings (db : Db) (settings : List (String × Option String)) : Db × List Reply :=
  ({ db with settings := settings.foldl (fun t kv => insertOrReplace t kv.1 kv.2) db.settings },
   [.settingsSaved])

/-- The object `settings` of get-settings while it is built: its own properties
(`none` for a key it does not have), and whether its prototype has become null.
`const settings = {}` has no own property and the prototype `Object.prototype`. -/
structure SettingsObject where
  own : String → Option (Option String) := fun _ => none
  nullPrototype : Bool := false

/-- The assignment `settings[key] = value`.  For every key but `__proto__` it sets
the own property.  `__proto__` is an accessor property of `Object.prototype`:
as long as the object inherits it the assignment calls its setter, which makes
the prototype null for the value null, does nothing for a string, and creates no
own property in either case; once the prototype is null the assignment creates
the own property like any other. -/
def assignProperty (obj : SettingsObject) (key : String) (value : Option String) :
    SettingsObject :=
  if key = "__proto__" ∧ obj.nullPrototype = false then
    match value with
    | none => { obj with nullPrototype := true }
    | some _ => obj
  else { obj with own := Function.update obj.own key (some value) }

/-- Line 683: `rows.forEach(r => settings[r.key] = r.value)`. -/
def buildSettings (rows : List Setting) (obj : SettingsObject) : SettingsObject :=
  rows.foldl (fun obj r => assignProperty obj r.key r.value) obj

/-- The get-settings handler: the object replied as settings-data, as the
function from a key to the value of the own property of that name (`none` when
the object has no such property). -/
def getSettings (db : Db) : String → Option (Option String) :=
  (buildSettings db.settings {}).own

/-! ## The additive migrations (db.js 80-99, 173-199, 294-303) -/

/-- A row of `PRAGMA table_info`. -/
structure Column where
  name : String
  type : String
  dflt_value : Option String := none
deriving DecidableEq

/-- SQLite compares column names without regard to (ASCII) case. -/
def sameColumnName (a b : String) : Bool :=
  a.data.map Char.toLower = b.data.map Char.toLower

/-- The test `rows.some(r => r.name === name)`: an exact, case-sensitive comparison. -/
def hasColumn (rows : List Column) (name : String) : Bool := rows.any fun r => r.name = name

/-- Statement `ALTER TABLE ... ADD COLUMN`: appends the column, and fails with "duplicate
column name" (`none`) when the table has a column of that name; the callers
ignore the failure. -/
def addColumn (cols : List Column) (c : Column) : Option (List Column) :=
  if cols.any (fun r => sameColumnName r.name c.name) then none else some (cols ++ [c])

/-- The state the migrations act on: the column lists of the three tables and
the rows of `accounts` (name and tax category), which the accounts migration
seeds. -/
structure Schema where
  leads : List Column
  accounts : List Column
  content_items : List Column
  accountRows : List (String × Option String) := []
deriving DecidableEq

/-- Column `leads.expected_value`. -/
def colExpectedValue : Column := { name := "expected_value", type := "REAL", dflt_value := some "0" }

/-- Column `leads.probability`. -/
def colProbability : Column := { name := "probability", type := "INTEGER", dflt_value := some "0" }

/-- Column `accounts.tax_category`. -/
def colTaxCategory : Column := { name := "tax_category", type := "TEXT" }

/-- Column `content_items.cta_hook`. -/
def colCtaHook : Column := { name := "cta_hook", type := "TEXT" }

/-- Column `content_items.media_path`. -/
def colMediaPath : Column := { name := "media_path", type := "TEXT" }

/-- Lines 86-98 of db.js: the leads migration. -/
def migrateLeads (rows : List Column) : List Column :=
  let hasValue := hasColumn rows "expected_value"
  let hasProb := hasColumn rows "probability"
  let rows1 := if !hasValue then (addColumn rows colExpectedValue).getD rows else rows
  if !hasProb then (addColumn rows1 colProbability).getD rows1 else rows1

/-- Lines 183-192 of db.js: the tax categories seeded by account name. -/
def taxCategoryUpdates : List (String × String) :=
  [("Advertising", "Advertising"), ("Bank Fees", "Bank charges"),
   ("Office Supplies", "Office expenses"), ("Rent", "Rent or lease"),
   ("Utilities", "Utilities"), ("Travel", "Travel"),
   ("Legal Fees", "Legal and professional services"), ("Software", "Office expenses")]

/-- Statement `UPDATE accounts SET tax_category = ? WHERE name = ?`. -/
def setTaxCategory (rows : List (String × Option String)) (u : String × String) :
    List (String × Option String) :=
  rows.map fun r => if r.1 = u.1 then (r.1, some u.2) else r

/-- Lines 177-198 of db.js: the accounts migration.  When the column is added
every row starts with a NULL `tax_category`, then the seed updates run. -/
def migrateAccounts (rows : List Column) (accountRows : List (String × Option String)) :
    List Column × List (String × Option String) :=
  let hasTax := hasColumn rows "tax_category"
  if !hasTax then
    match addColumn rows colTaxCategory with
    | some rows1 =>
      (rows1, taxCategoryUpdates.foldl setTaxCategory (accountRows.map fun r => (r.1, none)))
    | none => (rows, accountRows)
  else (rows, accountRows)

/-- Lines 298-301 of db.js: the content_items migration. -/
def migrateContentItems (columns : List Column) : List Column :=
  let hasCta := hasColumn columns "cta_hook"
  let hasMedia := hasColumn columns "media_path"
  let columns1 := if !hasCta then (addColumn columns colCtaHook).getD columns else columns
  if !hasMedia then (addColumn columns1 colMediaPath).getD columns1 else columns1

/-- The migration step: the three migrations. -/
def migrate (s : Schema) : Schema :=
  { leads := migrateLeads s.leads,
    accounts := (migrateAccounts s.accounts s.accountRows).1,
    content_items := migrateContentItems s.content_items,
    accountRows := (migrateAccounts s.accounts s.accountRows).2 }

/-- Whether a table already has a column of that name, in SQLite's sense. -/
def columnPresent (cols : List Column) (c : Column) : Bool :=
  cols.any fun r => sameColumnName r.name c.name

/-! ## get-transactions, get-financial-reports: the month window -/

/-- JavaScript `String(n)` of a non-negative integer. -/
def jsString (n : Nat) : List Char := Nat.toDigits 10 n

/-- JavaScript `s.padStart(2, '0')`. -/
def padStart2 (s : List Char) : List Char := List.replicate (2 - s.length) '0' ++ s

/-- The text `year-MM-01` built by the template literal of lines 331 and 370. -/
def firstOfMonth (year month : Nat) : String :=
  ⟨jsString year ++ '-' :: (padStart2 (jsString month) ++ ['-', '0', '1'])⟩

/-- Lines 327-333 and 366-372: `if (month && year)` builds the bounds of the
window, the first day of the month and the first day of the next month.  A
missing (or zero) month or year gives no window. -/
def monthWindow (month year : Option Nat) : Option (String × String) :=
  match month, year with
  | some month, some year =>
    if month ≠ 0 ∧ year ≠ 0 then
      let nextMonth := if month = 12 then 1 else month + 1
      let nextYear := if month = 12 then year + 1 else year
      some (firstOfMonth year month, firstOfMonth nextYear nextMonth)
    else none
  | _, _ => none

/-- The condition `AND date >= ? AND date < ?` when there is a window. -/
def inWindow (w : Option (String × String)) (date : String) : Bool :=
  match w with
  | none => true
  | some (lo, hi) => textLe lo date ∧ textLt date hi

/-- Payload of get-transactions and get-financial-reports. -/
structure ReportRequest where
  businessId : Nat
  month : Option Nat := none
  year : Option Nat := none
deriving DecidableEq

/-! ## get-financial-reports (main.js 355-391) -/

/-- The rows the report query aggregates: `WHERE business_id = ?` and the window. -/
def reportRows (db : Db) (data : ReportRequest) : List Transaction :=
  db.transactions.filter fun t =>
    t.business_id = data.businessId ∧ inWindow (monthWindow data.month data.year) t.date

/-- The object of the financial-reports-data reply. -/
structure FinancialReport where
  income : ℚ
  expenses : ℚ
  netProfit : ℚ
  assets : ℚ
  liabilities : ℚ
  equity : ℚ
deriving DecidableEq

/-- The fallback `row?.total_income || 0`. -/
def orZero (v : Option ℚ) : ℚ :=
  match v with
  | some x => x
  | none => 0

/-- The get-financial-reports handler: the two conditional sums, then the
arithmetic of lines 379-388.  An engine failure of the query (statement 0) is
replied as the error message. -/
def getFinancialReports (faults : Faults) (db : Db) (data : ReportRequest) :
    Except String FinancialReport :=
  match faults 0 with
  | some msg => .error msg
  | none =>
    let rows := reportRows db data
    let total_income := sqlSum (rows.map fun t => some (if t.type = "Income" then t.amount else 0))
    let total_expenses :=
      sqlSum (rows.map fun t => some (if t.type = "Expense" then t.amount else 0))
    let income := orZero total_income
    let expenses := orZero total_expenses
    let netProfit := income - expenses
    let assets := netProfit
    let equity := netProfit
    .ok { income := income, expenses := expenses, netProfit := netProfit,
          assets := assets, liabilities := 0, equity := equity }

/-! ## save-client (main.js 49-73), save-lead (main.js 164-179) -/

/-- Payload of save-client. -/
structure ClientPayload where
  business_id : Option Nat
  name : Option String
  email : Option String := none
  phone : Option String := none
  notes : Option String := none
deriving DecidableEq

/-- Id the next inserted client gets. -/
def newClientId (db : Db) : Nat := nextId db.seq_clients (db.clients.map (·.id))

/-- Lines 63-67: `INSERT INTO client_activities (client_id, action)`, run without
a callback: when it fails nothing is inserted and the handler does not see it. -/
def logClientActivity (fault : Option String) (db : Db) (clientId : Nat) (action : String) :
    Db :=
  match fault with
  | some _ => db
  | none =>
    let id := nextId db.seq_client_activities (db.client_activities.map (·.id))
    let row : ClientActivity := { id := id, client_id := clientId, action := action }
    { db with client_activities := db.client_activities ++ [row], seq_client_activities := id }

/-- The save-client handler.  Statement 0 is the `INSERT INTO clients`
(`business_id` and `name` are `NOT NULL`); on its failure the handler only logs
to the console.  Statement 1 is the insert into the activity log. -/
def saveClient (faults : Faults) (db : Db) (client : ClientPayload) : Db × List Reply :=
  match faults 0, client.business_id, client.name with
  | none, some business_id, some name =>
    let clientId := newClientId db
    let row : Client :=
      { id := clientId, business_id := business_id, name := name, email := client.email,
        phone := client.phone, notes := client.notes }
    let db1 : Db := { db with clients := db.clients ++ [row], seq_clients := clientId }
    (logClientActivity (faults 1) db1 clientId "Client created", [.clientSaved])
  | _, _, _ => (db, [])

/-- Payload of save-lead. -/
structure LeadPayload where
  business_id : Option Nat
  name : Option String
  email : Option String := none
  phone : Option String := none
  notes : Option String := none
  status : Option String := none
  expected_value : Option ℚ := none
  probability : Option ℚ := none
deriving DecidableEq

/-- JavaScript `status || 'New'`: a missing or empty status is replaced. -/
def statusOrNew (status : Option String) : String :=
  match status with
  | some s => if s = "" then "New" else s
  | none => "New"

/-- The save-lead handler: one `INSERT INTO leads` (`name` is `NOT NULL`), with
`status || 'New'`, `expected_value || 0`, `probability || 0`; on failure the
handler only logs to the console.  No other table is written. -/
def saveLead (faults : Faults) (db : Db) (lead : LeadPayload) : Db × List Reply :=
  match faults 0, lead.name with
  | none, some name =>
    let id := nextId db.seq_leads (db.leads.map (·.id))
    let row : Lead :=
      { id := id, business_id := lead.business_id, name := name, email := lead.email,
        phone := lead.phone, notes := lead.notes, status := some (statusOrNew lead.status),
        expected_value := some (lead.expected_value.getD 0),
        probability := some (lead.probability.getD 0) }
    ({ db with leads := db.leads ++ [row], seq_leads := id }, [.leadSaved])
  | _, _ => (db, [])

/-! ## save-product (main.js 663-674) -/

/-- Payload of save-product. -/
structure ProductPayload where
  id : Option Nat := none
  business_id : Option Nat
  name : Option String
  type : Option String := none
  price : Option ℚ := none
  description : Option String := none
deriving DecidableEq

/-- JavaScript `if (prod.id)`: the id is present and not 0. -/
def truthyId (id : Option Nat) : Option Nat :=
  match id with
  | some n => if n = 0 then none else some n
  | none => none

/-- Statement `UPDATE products SET name=?, type=?, price=?, description=? WHERE id=?`.
It fails on an engine fault, and on the `NOT NULL` constraint of `name` when a row
is to be updated with a null name; with no row of that id it succeeds and changes
nothing. -/
def updateProduct (fault : Option String) (products : List Product) (id : Nat)
    (prod : ProductPayload) : Except String (List Product) :=
  match fault with
  | some msg => .error msg
  | none =>
    match prod.name with
    | some name =>
      .ok (products.map fun p =>
        if p.id = id then
          { p with name := name, type := prod.type, price := prod.price,
                   description := prod.description }
        else p)
    | none =>
      if products.any (fun p => p.id = id) then
        .error "SQLITE_CONSTRAINT: NOT NULL constraint failed: products.name"
      else .ok products

/-- Statement `INSERT INTO products (business_id, name, type, price, description)`:
`business_id` and `name` are `NOT NULL`, and the message of the failure names
the first of them that is null. -/
def insertProduct (fault : Option String) (db : Db) (prod : ProductPayload) :
    Except String Db :=
  match fault, prod.business_id, prod.name with
  | some msg, _, _ => .error msg
  | none, some business_id, some name =>
    let id := nextId db.seq_products (db.products.map (·.id))
    let row : Product :=
      { id := id, business_id := business_id, name := name, type := prod.type,
        price := prod.price, description := prod.description }
    .ok { db with products := db.products ++ [row], seq_products := id }
  | none, none, _ =>
    .error "SQLITE_CONSTRAINT: NOT NULL constraint failed: products.business_id"
  | none, some _, none => .error "SQLITE_CONSTRAINT: NOT NULL constraint failed: products.name"

/-- The save-product handler: `UPDATE` when `prod.id` is truthy, `INSERT`
otherwise; the callback replies product-saved with the error or with success. -/
def saveProduct (faults : Faults) (db : Db) (prod : ProductPayload) : Db × List Reply :=
  match truthyId prod.id with
  | some id =>
    match updateProduct (faults 0) db.products id prod with
    | .error msg => (db, [.productSaved (some msg)])
    | .ok products => ({ db with products := products }, [.productSaved none])
  | none =>
    match insertProduct (faults 0) db prod with
    | .error msg => (db, [.productSaved (some msg)])
    | .ok db1 => (db1, [.productSaved none])

/-! ## get-transactions (main.js 316-344) -/

/-- The names a `LEFT JOIN ... ON t.x_id = r.id` attaches to one transaction: the
name of every matching row, or one NULL when no row matches. -/
def leftJoinNames {α : Type} (rows : List α) (isMatch : α → Bool) (name : α → String) :
    List (Option String) :=
  match rows.filter isMatch with
  | [] => [none]
  | ms => ms.map fun r => some (name r)

/-- The clause `FROM transactions t LEFT JOIN accounts a ON t.account_id = a.id
LEFT JOIN clients c ON t.client_id = c.id`. -/
def transactionsJoin (db : Db) : List TransactionRow :=
  db.transactions.flatMap fun t =>
    (leftJoinNames db.accounts (fun a => t.account_id = some a.id) (·.name)).flatMap fun an =>
      (leftJoinNames db.clients (fun c => t.client_id = some c.id) (·.name)).map fun cn =>
        ({ t := t, account_name := an, client_name := cn } : TransactionRow)

/-- The order of `ORDER BY t.date DESC, t.id DESC` on transactions. -/
def newestFirst (x y : Transaction) : Prop :=
  textLt y.date x.date ∨ (x.date = y.date ∧ y.id ≤ x.id)

instance : DecidableRel newestFirst := fun x y => by unfold newestFirst; infer_instance

/-- The order of `ORDER BY t.date DESC, t.id DESC` on the joined rows. -/
def rowNewestFirst (x y : TransactionRow) : Prop := newestFirst x.t y.t

instance : DecidableRel rowNewestFirst := fun x y => by unfold rowNewestFirst; infer_instance

/-- The transactions the query is about: `WHERE t.business_id = ?` and the
month window. -/
def matchesRequest (data : ReportRequest) (t : Transaction) : Bool :=
  t.business_id = data.businessId ∧ inWindow (monthWindow data.month data.year) t.date

/-- The get-transactions query, before `LIMIT`: join, `WHERE`, `ORDER BY`. -/
def transactionsSorted (db : Db) (data : ReportRequest) : List TransactionRow :=
  ((transactionsJoin db).filter fun r => matchesRequest data r.t).insertionSort rowNewestFirst

/-- The get-transactions query: `... ORDER BY t.date DESC, t.id DESC LIMIT 100`. -/
def transactionsQuery (db : Db) (data : ReportRequest) : List TransactionRow :=
  (transactionsSorted db data).take 100

/-- The get-transactions handler: the rows are replied as transactions-data; a
failure of the query is only logged. -/
def getTransactions (faults : Faults) (db : Db) (data : ReportRequest) : List Reply :=
  match faults 0 with
  | some _ => []
  | none => [.transactionsData (transactionsQuery db data)]

/-! ## get-dashboard-stats: revenue and expenses (main.js 244-277) -/

/-- Lines 245-248: `firstDayOfMonth`, the text `year-MM-01` of the month of now.
`getMonth()` and `getFullYear()` read the local time: `today` is here the day
number of the local date, which can differ by one from the day number of the
UTC date that `toISOString()` renders at the same moment. -/
def firstDayOfMonth (today : Nat) : String :=
  firstOfMonth (civil today).1 (civil today).2.1

/-- Queries `revenue` and `expenses` (lines 252-253): `SELECT SUM(amount) as val
FROM transactions WHERE business_id = ? AND type = ? AND date >= ?`. -/
def monthTotalQuery (db : Db) (businessId : Nat) (type : String) (firstDay : String) :
    Option ℚ :=
  sqlSum ((db.transactions.filter fun t =>
    t.business_id = businessId ∧ t.type = type ∧ textLe firstDay t.date).map
      fun t => some t.amount)

/-- Key `revenue` of the dashboard-stats reply (`row.val || 0`); `today` is the
day number of the local date. -/
def dashboardRevenue (today : Nat) (db : Db) (businessId : Nat) : ℚ :=
  orZero (monthTotalQuery db businessId "Income" (firstDayOfMonth today))

/-- Key `expenses` of the dashboard-stats reply (`row.val || 0`); `today` is the
day number of the local date. -/
def dashboardExpenses (today : Nat) (db : Db) (businessId : Nat) : ℚ :=
  orZero (monthTotalQuery db businessId "Expense" (firstDayOfMonth today))

/-- Key `profit` of the dashboard-stats reply (line 272). -/
def dashboardProfit (today : Nat) (db : Db) (businessId : Nat) : ℚ :=
  dashboardRevenue today db businessId - dashboardExpenses today db businessId

/-! ## Example data and order instances used by the theorems -/

/-- A request of two items whose client-side total (999) is wrong. -/
def exampleInvoice : InvoicePayload :=
  { business_id := some 1, client_id := some 7, invoice_number := some "INV-001",
    date := some "2024-03-01",
    items := [{ description := some "Design", quantity := 2, unit_price := 50 },
              { description := some "Hosting", quantity := 1, unit_price := 10 }],
    total_amount := some 999 }

/-- A request whose second item has no description: `invoice_items.description`
is `NOT NULL`, so the insert of that item fails. -/
def failingInvoice : InvoicePayload :=
  { business_id := some 1, client_id := some 7, invoice_number := some "INV-002",
    date := some "2024-03-01",
    items := [{ description := some "Design", quantity := 2, unit_price := 50 },
              { description := none, quantity := 1, unit_price := 10 }] }

/-- A request whose first item has no description, the second being in order. -/
def failingFirstInvoice : InvoicePayload :=
  { business_id := some 1, client_id := some 7, invoice_number := some "INV-003",
    date := some "2024-03-01",
    items := [{ description := none, quantity := 1, unit_price := 10 },
              { description := some "Design", quantity := 2, unit_price := 50 }] }

/-- Statement `UPDATE invoices SET status = 'Paid' WHERE id = n` on one row of the table. -/
def setPaid (n : Nat) (i : Invoice) : Invoice :=
  if i.id = n then { i with status := some "Paid" } else i

/-- A database with one Draft invoice, one paid invoice and a 'Sales' account. -/
def paidExampleDb : Db :=
  { invoices := [{ id := 1, business_id := 1, client_id := 7, invoice_number := "INV-001",
                   date := "2024-03-01", total_amount := 110 },
                 { id := 2, business_id := 1, client_id := 8, invoice_number := "INV-002",
                   date := "2024-03-02", status := some "Paid", total_amount := 40 }],
    accounts := [{ id := 1, business_id := 1, name := "Sales", type := "Income" }],
    seq_invoices := 2 }

/-- The Draft invoice of `paidExampleDb`. -/
def paidExampleInvoice : Invoice :=
  { id := 1, business_id := 1, client_id := 7, invoice_number := "INV-001",
    date := "2024-03-01", total_amount := 110 }

/-- The forecast as the specification words it: the sum of
`expected_value * probability / 100` over the leads of the business that are not
Converted (a missing number counting as 0). -/
def specForecast (leads : List Lead) (businessId : Nat) : ℚ :=
  ((leads.filter fun l => l.business_id = some businessId ∧ l.status ≠ some "Converted").map
    fun l => l.expected_value.getD 0 * l.probability.getD 0 / 100).sum

/-- A lead whose status is NULL (update-lead binds whatever `status` the payload
has, also none). -/
def nullStatusLead : Lead :=
  { id := 1, business_id := some 1, name := "Acme", status := none,
    expected_value := some 1000, probability := some 50 }

/-- The two leads of the example of the specification, for business 1. -/
def specExampleLeads : List Lead :=
  [{ id := 1, business_id := some 1, name := "A", status := some "New",
     expected_value := some 1000, probability := some 50 },
   { id := 2, business_id := some 1, name := "B", status := some "Converted",
     expected_value := some 2000, probability := some 100 }]

instance : IsTotal TaxRow totalDesc := ⟨fun x y => le_total y.total x.total⟩

instance : IsTrans TaxRow totalDesc := ⟨fun _ _ _ hxy hyz => le_trans hyz hxy⟩

/-- A ledger of business 1: three categorised expense accounts (two of them in
the same category), an income account and an expense account without category. -/
def taxExampleDb : Db :=
  { accounts :=
      [{ id := 1, business_id := 1, name := "Sales", type := "Income" },
       { id := 2, business_id := 1, name := "Rent", type := "Expense",
         tax_category := some "Rent or lease" },
       { id := 3, business_id := 1, name := "Software", type := "Expense",
         tax_category := some "Office expenses" },
       { id := 4, business_id := 1, name := "Office Supplies", type := "Expense",
         tax_category := some "Office expenses" },
       { id := 5, business_id := 1, name := "Misc", type := "Expense" }],
    transactions :=
      [{ id := 1, business_id := 1, date := "2024-03-01", description := "sale", amount := 500,
         type := "Income", account_id := some 1 },
       { id := 2, business_id := 1, date := "2024-03-02", description := "ide", amount := 30,
         type := "Expense", account_id := some 3 },
       { id := 3, business_id := 1, date := "2024-03-03", description := "rent", amount := 100,
         type := "Expense", account_id := some 2 },
       { id := 4, business_id := 1, date := "2024-03-04", description := "paper", amount := 95,
         type := "Expense", account_id := some 4 },
       { id := 5, business_id := 1, date := "2024-03-05", description := "misc", amount := 7,
         type := "Expense", account_id := some 5 },
       { id := 6, business_id := 1, date := "2024-03-06", description := "cash", amount := 9,
         type := "Expense" },
       { id := 7, business_id := 2, date := "2024-03-07", description := "other", amount := 11,
         type := "Expense", account_id := some 2 }] }

instance : IsTotal Document expiryAsc := ⟨fun x y => by
  unfold expiryAsc
  cases x.expiry_date <;> cases y.expiry_date <;> simp
  exact le_total _ _⟩

instance : IsTrans Document expiryAsc := ⟨fun x y z => by
  unfold expiryAsc
  cases x.expiry_date <;> cases y.expiry_date <;> cases z.expiry_date <;> simp
  exact fun h1 h2 => le_trans h1 h2⟩

/-- Documents of business 1 around 2024-03-01 (day 19783): expiring today + 31,
today + 29, never, today + 30, yesterday and today, and one of business 2. -/
def complianceExampleDb : Db :=
  { documents :=
      [{ id := 1, business_id := 1, name := "Lease", type := "Legal",
         expiry_date := some "2024-04-01" },
       { id := 2, business_id := 1, name := "Licence", type := "Compliance",
         expiry_date := some "2024-03-30" },
       { id := 3, business_id := 1, name := "Statutes", type := "Legal" },
       { id := 4, business_id := 1, name := "Insurance", type := "Compliance",
         expiry_date := some "2024-03-31" },
       { id := 5, business_id := 1, name := "Permit", type := "Compliance",
         expiry_date := some "2024-02-29" },
       { id := 6, business_id := 1, name := "Tax form", type := "Tax",
         expiry_date := some "2024-03-01" },
       { id := 7, business_id := 2, name := "Other", type := "Other",
         expiry_date := some "2024-03-10" }] }

/-- A clock at 10:00 UTC of 2024-03-01 (day 19783), in a zone without offset. -/
def marchClock : Clock := { now := 19783 * 1440 + 600 }

/-- The clock 2024-10-10T23:30Z (day 20006) in America/New_York: local time is
19:30 at UTC-4, and 30 days later (2024-11-09, after the end of daylight saving
time on 2024-11-03) the zone is at UTC-5. -/
def newYorkClock : Clock :=
  { now := 20006 * 1440 + 1410, offsetNow := -240, offsetThen := -300 }

/-- The clock 2024-02-20T00:30Z (day 19773) in America/New_York: local time is
19:30 of 2024-02-19 at UTC-5, and 30 days later (2024-03-20, after the start of
daylight saving time on 2024-03-10) the zone is at UTC-4. -/
def newYorkSpringClock : Clock :=
  { now := 19773 * 1440 + 30, offsetNow := -300, offsetThen := -240 }

/-- Documents of business 1 expiring on 2024-11-09 and on 2024-11-10. -/
def autumnDocuments : Db :=
  { documents :=
      [{ id := 1, business_id := 1, name := "Licence", type := "Compliance",
         expiry_date := some "2024-11-09" },
       { id := 2, business_id := 1, name := "Lease", type := "Legal",
         expiry_date := some "2024-11-10" }] }

/-- A document of business 1 expiring on 2024-03-21. -/
def springDocuments : Db :=
  { documents :=
      [{ id := 1, business_id := 1, name := "Permit", type := "Compliance",
         expiry_date := some "2024-03-21" }] }

/-- An installation from before the migrations: `leads` already has
`probability`, `accounts` has no `tax_category`, `content_items` has `cta_hook`. -/
def oldSchema : Schema :=
  { leads := [{ name := "id", type := "INTEGER" }, { name := "name", type := "TEXT" },
              { name := "probability", type := "INTEGER", dflt_value := some "0" }],
    accounts := [{ name := "id", type := "INTEGER" }, { name := "name", type := "TEXT" }],
    content_items := [{ name := "id", type := "INTEGER" }, { name := "cta_hook", type := "TEXT" }],
    accountRows := [("Sales", none), ("Rent", none)] }

/-- Transactions of business 1 around March 2024, and one of business 2. -/
def ledgerExampleDb : Db :=
  { transactions :=
      [{ id := 1, business_id := 1, date := "2024-02-29", description := "a", amount := 40,
         type := "Income" },
       { id := 2, business_id := 1, date := "2024-03-01", description := "b", amount := 500,
         type := "Income" },
       { id := 3, business_id := 1, date := "2024-03-31", description := "c", amount := 120,
         type := "Expense" },
       { id := 4, business_id := 1, date := "2024-04-01", description := "d", amount := 9,
         type := "Expense" },
       { id := 5, business_id := 2, date := "2024-03-15", description := "e", amount := 77,
         type := "Income" }] }

/-- A settings table with two keys. -/
def settingsExampleDb : Db :=
  { settings := [{ key := "currency", value := some "USD" },
                 { key := "phone", value := some "555-1234" }] }

/-- Whether a date text lies in the calendar month of `today`: the same
`YYYY-MM`. -/
def inCurrentMonth (today : Nat) (date : String) : Bool :=
  date.data.take 7 = (isoDate today).data.take 7

/-- The month total as the specification words it: the sum of the amounts of the
transactions of the business, of the given type, dated in the current calendar
month. -/
def specMonthTotal (today : Nat) (db : Db) (businessId : Nat) (type : String) : ℚ :=
  ((db.transactions.filter fun t =>
    t.business_id = businessId ∧ t.type = type ∧ inCurrentMonth today t.date).map
      (·.amount)).sum

/-- The transaction mark-invoice-paid derives from the invoice `inv`. -/
def paymentRow (today : Nat) (db : Db) (inv : Invoice) : Transaction :=
  { id := nextId db.seq_transactions (db.transactions.map (·.id)),
    business_id := inv.business_id, date := isoDate today,
    description := "Invoice Payment: " ++ inv.invoice_number,
    amount := inv.total_amount, type := "Income",
    account_id := (db.accounts.find? (fun (a : Account) =>
      a.name = "Sales" ∧ a.business_id = inv.business_id)).map (·.id),
    client_id := some inv.client_id }

/-- The database after a mark-invoice-paid that found the invoice `inv`. -/
def paidDb (today : Nat) (db : Db) (n : Nat) (inv : Invoice) : Db :=
  { db with
    invoices := db.invoices.map (setPaid n),
    transactions := db.transactions ++ [paymentRow today db inv],
    seq_transactions := nextId db.seq_transactions (db.transactions.map (·.id)) }

/-- The database after two requests mark-invoice-paid(n) in a row. -/
def markPaidTwice (today : Nat) (db : Db) (n : Nat) : Db :=
  (markInvoicePaid noFaults today (markInvoicePaid noFaults today db n).1 n).1

instance : IsTotal TransactionRow rowNewestFirst := ⟨fun x y => by
  unfold rowNewestFirst newestFirst textLt
  rcases lt_trichotomy x.t.date.data y.t.date.data with h | h | h
  · exact Or.inr (Or.inl h)
  · have hxy : x.t.date = y.t.date := String.ext h
    rcases le_total x.t.id y.t.id with hle | hle
    · exact Or.inr (Or.inr ⟨hxy.symm, hle⟩)
    · exact Or.inl (Or.inr ⟨hxy, hle⟩)
  · exact Or.inl (Or.inl h)⟩

instance : IsTrans TransactionRow rowNewestFirst := ⟨fun x y z hxy hyz => by
  unfold rowNewestFirst newestFirst textLt at *
  rcases hxy with h1 | ⟨e1, l1⟩
  · rcases hyz with h2 | ⟨e2, _⟩
    · exact Or.inl (lt_trans h2 h1)
    · rw [← e2]
      exact Or.inl h1
  · rcases hyz with h2 | ⟨e2, l2⟩
    · rw [e1]
      exact Or.inl h2
    · exact Or.inr ⟨e1.trans e2, le_trans l2 l1⟩⟩

/-- A ledger of 101 transactions of business 1, all dated 2024-03-01, with ids 1
to 101. -/
def longLedgerDb : Db :=
  { transactions := (List.range 101).map fun i =>
      ({ id := i + 1, business_id := 1, date := "2024-03-01", description := "sale",
         amount := 1, type := "Income" } : Transaction) }

/-- The get-tax-report handler: the rows, or the error message of a failed query
(statement 0), are replied as tax-report-data. -/
def getTaxReportReply (faults : Faults) (db : Db) (businessId : Nat) :
    Except String (List TaxRow) :=
  match faults 0 with
  | some msg => .error msg
  | none => .ok (getTaxReport db businessId)

/-- What save-product promises for one row when it updates the product `id`: the
row of that id keeps its id and business and carries the submitted values, any
other row is unchanged. -/
def updatedAs (id : Nat) (prod : ProductPayload) (old new : Product) : Prop :=
  if old.id = id then
    new.id = old.id ∧ new.business_id = old.business_id ∧ some new.name = prod.name ∧
    new.type = prod.type ∧ new.price = prod.price ∧ new.description = prod.description
  else new = old

/-- A save-client request without the required name. -/
def namelessClient : ClientPayload := { business_id := some 1, name := none }

/-- A save-product request for the id 5. -/
def staleProduct : ProductPayload :=
  { id := some 5, business_id := some 1, name := some "Logo", type := some "Service",
    price := some 300 }

/-- A products table with two rows. -/
def productsExampleDb : Db :=
  { products := [{ id := 1, business_id := 1, name := "Audit", price := some 100 },
                 { id := 2, business_id := 1, name := "Banner", type := some "Product",
                   price := some 20 }],
    seq_products := 2 }

/-- A save-lead request. -/
def exampleLead : LeadPayload :=
  { business_id := some 1, name := some "Acme", expected_value := some 1000,
    probability := some 50 }

/-- A save-client request. -/
def exampleClient : ClientPayload :=
  { business_id := some 1, name := some "Acme", email := some "info@acme.test" }

/-- Whether a reply carries an error: invoice-save-error, or product-saved with
an error field. -/
def carriesError (r : Reply) : Bool :=
  match r with
  | .invoiceSaveError _ => true
  | .productSaved (some _) => true
  | _ => false

/-- A save-invoice request without invoice number. -/
def numberlessInvoice : InvoicePayload :=
  { business_id := some 1, client_id := some 7, invoice_number := none,
    date := some "2024-03-01", items := [] }

/-- An engine in which the insert of mark-invoice-paid (statement 3) fails. -/
def fourthFails : Faults := fun k => if k = 3 then some "SQLITE_FULL: database or disk is full" else none

/-- An engine in which the first statement of a handler fails. -/
def firstFails : Faults := fun k => if k = 0 then some "SQLITE_IOERR: disk I/O error" else none

/-- An engine in which the second statement of a handler fails. -/
def secondFails : Faults := fun k => if k = 1 then some "SQLITE_FULL: database or disk is full" else none

/-! # Theorems -/

/-! ## Invoices -/

theorem total_amount_foldl (items : List ItemPayload) (acc : ℚ) :
    items.foldl (fun sum item => sum + item.quantity * item.unit_price) acc
      = acc + (items.map (fun it => it.quantity * it.unit_price)).sum := by
  induction items generalizing acc with
  | nil => simp
  | cons it rest ih => simp [ih, add_assoc]

theorem total_amount_eq_sum (items : List ItemPayload) :
    total_amount items = (items.map (fun it => it.quantity * it.unit_price)).sum := by
  simp [total_amount, total_amount_foldl]

theorem insertItem_invoices {fault : Option String} {db db1 : Db} {n : Nat} {item : ItemPayload}
    (h : insertItem fault db n item = some db1) : db1.invoices = db.invoices := by
  unfold insertItem at h
  split at h
  · simp at h; subst h; rfl
  · simp at h

theorem insertItems_invoices (faults : Faults) (n : Nat) (items : List ItemPayload) :
    ∀ (k : Nat) (db : Db), (insertItems faults n k db items).invoices = db.invoices := by
  induction items with
  | nil => intro k db; rfl
  | cons it rest ih =>
    intro k db
    unfold insertItems
    split
    · next db1 h => rw [ih, insertItem_invoices h]
    · rw [ih]

theorem insertInvoice_ok {fault : Option String} {db db1 : Db} {data : InvoicePayload}
    {total : ℚ} {id : Nat} (h : insertInvoice fault db data total = .ok (db1, id)) :
    id = newInvoiceId db ∧ ∃ row : Invoice, db1.invoices = db.invoices ++ [row] ∧
      row.id = newInvoiceId db ∧ row.total_amount = total ∧ row.status = some "Draft" ∧
      db1.invoice_items = db.invoice_items := by
  unfold insertInvoice at h
  split at h
  · simp at h
  · split at h
    · simp at h
      obtain ⟨h1, h2⟩ := h
      subst h1 h2
      exact ⟨rfl, _, rfl, rfl, rfl, rfl, rfl⟩
    all_goals simp at h

theorem insertInvoice_total_irrelevant (fault : Option String) (db : Db) (data : InvoicePayload)
    (total : ℚ) (t : Option ℚ) (s : Option String) :
    insertInvoice fault db { data with total_amount := t, status := s } total
      = insertInvoice fault db data total := rfl

/-- When `stmt.finalize` hands an error to its callback, the handler rolls back:
the database is the one before the request and the reply is invoice-save-error
(or the header insert had already failed, with the same outcome). -/
theorem saveInvoiceWith_error_rolls_back (msg : String) (faults : Faults) (db : Db)
    (data : InvoicePayload) :
    (saveInvoiceWith (.called (some msg)) faults db data).1 = db ∧
    ∃ m, (saveInvoiceWith (.called (some msg)) faults db data).2 = [.invoiceSaveError m] := by
  unfold saveInvoiceWith
  cases hh : insertInvoice (faults 0) db data (total_amount data.items) with
  | error e => simp [hh]
  | ok r => simp [hh]

theorem saveInvoice_saved {faults : Faults} {db : Db} {data : InvoicePayload}
    (h : (saveInvoice faults db data).2 = [.invoiceSaved]) :
    ∃ db1, insertInvoice (faults 0) db data (total_amount data.items)
        = .ok (db1, newInvoiceId db) ∧
      (saveInvoice faults db data).1 = insertItems faults (newInvoiceId db) 1 db1 data.items := by
  unfold saveInvoice saveInvoiceWith finalizeCallback at *
  cases hh : insertInvoice (faults 0) db data (total_amount data.items) with
  | error e => simp [hh] at h
  | ok r =>
    obtain ⟨db1, id⟩ := r
    have hid := (insertInvoice_ok hh).1
    subst hid
    cases hl : lastRunFails faults data.items with
    | true => simp [hh, hl] at h
    | false => exact ⟨db1, rfl, by simp [hh]⟩

theorem saveInvoice_saved_header (faults : Faults) (db : Db) (data : InvoicePayload)
    (h : (saveInvoice faults db data).2 = [.invoiceSaved]) :
    ∃ row : Invoice, (saveInvoice faults db data).1.invoices = db.invoices ++ [row] ∧
      row.id = newInvoiceId db ∧ row.total_amount = total_amount data.items := by
  obtain ⟨db1, h1, h2⟩ := saveInvoice_saved h
  obtain ⟨_, row, hrow, hid, htot, _, _⟩ := insertInvoice_ok h1
  exact ⟨row, by rw [h2, insertItems_invoices, hrow], hid, htot⟩

/-- C1. Whenever save-invoice stores an invoice (it replies invoice-saved), the
`invoices` table gains exactly one row, whose `total_amount` is the sum of
`quantity * unit_price` over the submitted items; and the outcome of the request
is the same whatever `total_amount` (or `status`) the payload carries. -/
theorem saveInvoice_total_amount (faults : Faults) (db : Db) (data : InvoicePayload)
    (h : (saveInvoice faults db data).2 = [.invoiceSaved]) :
    (∃ row : Invoice, (saveInvoice faults db data).1.invoices = db.invoices ++ [row] ∧
      row.id = newInvoiceId db ∧
      row.total_amount = (data.items.map (fun it => it.quantity * it.unit_price)).sum) ∧
    ∀ (t : Option ℚ) (s : Option String),
      saveInvoice faults db { data with total_amount := t, status := s }
        = saveInvoice faults db data := by
  constructor
  · obtain ⟨row, hrow, hid, htot⟩ := saveInvoice_saved_header faults db data h
    refine ⟨row, hrow, hid, ?_⟩
    rw [htot, total_amount_eq_sum]
  · intro t s
    unfold saveInvoice saveInvoiceWith
    simp only [insertInvoice_total_irrelevant]

theorem saveInvoice_total_amount_witness :
    (saveInvoice noFaults {} exampleInvoice).2 = [.invoiceSaved] ∧
    ((∃ row : Invoice,
        (saveInvoice noFaults {} exampleInvoice).1.invoices = ({} : Db).invoices ++ [row] ∧
        row.id = newInvoiceId {} ∧
        row.total_amount
          = (exampleInvoice.items.map (fun it => it.quantity * it.unit_price)).sum) ∧
      ∀ (t : Option ℚ) (s : Option String),
        saveInvoice noFaults {} { exampleInvoice with total_amount := t, status := s }
          = saveInvoice noFaults {} exampleInvoice) :=
  ⟨by decide, saveInvoice_total_amount noFaults {} exampleInvoice (by decide)⟩

/-- Once the header insert has succeeded the handler never rolls back: it
commits and replies invoice-saved, or, when the insert of the last item fails,
it stops with the transaction open and replies nothing. -/
theorem saveInvoice_header_ok (faults : Faults) (db db1 : Db) (data : InvoicePayload)
    (id : Nat)
    (h : insertInvoice (faults 0) db data (total_amount data.items) = .ok (db1, id)) :
    saveInvoice faults db data
      = (insertItems faults id 1 db1 data.items,
         if lastRunFails faults data.items then [] else [.invoiceSaved]) ∧
    saveInvoiceTransaction faults db data
      = (if lastRunFails faults data.items then .leftOpen else .committed) := by
  cases hl : lastRunFails faults data.items <;>
    simp [saveInvoice, saveInvoiceWith, saveInvoiceTransaction, finalizeCallback, h, hl]

/-- Whatever item insert fails after a successful header insert, the reply is
never invoice-save-error and the header row stays in `invoices`. -/
theorem saveInvoice_item_failure_not_reported (faults : Faults) (db db1 : Db)
    (data : InvoicePayload) (id : Nat)
    (h : insertInvoice (faults 0) db data (total_amount data.items) = .ok (db1, id)) :
    (∀ m, Reply.invoiceSaveError m ∉ (saveInvoice faults db data).2) ∧
    ∃ row : Invoice, (saveInvoice faults db data).1.invoices = db.invoices ++ [row] ∧
      row.id = newInvoiceId db := by
  obtain ⟨_, row, hrow, hid, _⟩ := insertInvoice_ok h
  rw [(saveInvoice_header_ok faults db db1 data id h).1]
  refine ⟨?_, row, by simp only [insertItems_invoices, hrow], hid⟩
  intro m
  cases lastRunFails faults data.items <;> simp

/-- C2 (the code at the failing input). On an empty database, save-invoice with
`failingInvoice`: the header insert succeeds and the insert of item 1, the last
one, fails.  Nothing is replied, the transaction is neither rolled back nor
committed, and the tables hold the header (total 110) and the one item that
could be inserted (amount 100). -/
theorem saveInvoice_failed_item_not_rolled_back :
    itemInsertFails noFaults failingInvoice 1 ∧
    (saveInvoice noFaults {} failingInvoice).2 = [] ∧
    saveInvoiceTransaction noFaults {} failingInvoice = .leftOpen ∧
    (saveInvoice noFaults {} failingInvoice).1.invoices =
      [{ id := 1, business_id := 1, client_id := 7, invoice_number := "INV-002",
         date := "2024-03-01", status := some "Draft", total_amount := 110 }] ∧
    (saveInvoice noFaults {} failingInvoice).1.invoice_items =
      [{ id := 1, invoice_id := 1, description := "Design", quantity := 2, unit_price := 50,
         amount := 100 }] := by
  refine ⟨⟨_, rfl, Or.inr rfl⟩, by decide, by decide, ?_, ?_⟩
  · simp [saveInvoice, saveInvoiceWith, finalizeCallback, lastRunFails, insertInvoice,
      insertItems, insertItem, failingInvoice, noFaults, newInvoiceId, nextId, maxId,
      total_amount]
    norm_num
  · simp [saveInvoice, saveInvoiceWith, finalizeCallback, lastRunFails, insertInvoice,
      insertItems, insertItem, failingInvoice, noFaults, newInvoiceId, nextId, maxId,
      total_amount]
    norm_num

/-- With `failingFirstInvoice` the insert of item 0 fails and the insert of the
last item succeeds: the callback of `finalize` runs without error, the
transaction is committed with the header (total 110) and the second item only,
and the reply is invoice-saved. -/
theorem saveInvoice_failed_first_item_is_committed :
    itemInsertFails noFaults failingFirstInvoice 0 ∧
    (saveInvoice noFaults {} failingFirstInvoice).2 = [.invoiceSaved] ∧
    saveInvoiceTransaction noFaults {} failingFirstInvoice = .committed ∧
    (saveInvoice noFaults {} failingFirstInvoice).1.invoices.map (·.total_amount) = [110] ∧
    (saveInvoice noFaults {} failingFirstInvoice).1.invoice_items =
      [{ id := 1, invoice_id := 1, description := "Design", quantity := 2, unit_price := 50,
         amount := 100 }] := by
  refine ⟨⟨_, rfl, Or.inr rfl⟩, by decide, by decide, ?_, ?_⟩
  · simp [saveInvoice, saveInvoiceWith, finalizeCallback, lastRunFails, insertInvoice,
      insertItems, insertItem, failingFirstInvoice, noFaults, newInvoiceId, nextId, maxId,
      total_amount]
    norm_num
  · simp [saveInvoice, saveInvoiceWith, finalizeCallback, lastRunFails, insertInvoice,
      insertItems, insertItem, failingFirstInvoice, noFaults, newInvoiceId, nextId, maxId,
      total_amount]
    norm_num

theorem deleteInvoice_deleted {faults : Faults} {db : Db} {n : Nat}
    (h : (deleteInvoice faults db n).2 = [.invoiceDeleted]) :
    (deleteInvoice faults db n).1 =
      { db with invoice_items := db.invoice_items.filter (fun it => it.invoice_id ≠ n),
                invoices := db.invoices.filter (fun inv => inv.id ≠ n) } := by
  unfold deleteInvoice at *
  cases h0 : faults 0 with
  | some m => simp [h0] at h
  | none =>
    cases h1 : faults 1 with
    | some m => simp [h0, h1] at h
    | none => simp

/-- C3. After a successful save-invoice (reply invoice-saved), the invoice with
the new id `n` is in the table; after a following successful delete-invoice(n)
(reply invoice-deleted) no `invoices` row has id `n` and no `invoice_items` row
has `invoice_id` `n`. -/
theorem save_then_delete_leaves_nothing (f1 f2 : Faults) (db : Db) (data : InvoicePayload)
    (hsave : (saveInvoice f1 db data).2 = [.invoiceSaved])
    (hdel : (deleteInvoice f2 (saveInvoice f1 db data).1 (newInvoiceId db)).2
      = [.invoiceDeleted]) :
    (∃ inv ∈ (saveInvoice f1 db data).1.invoices, inv.id = newInvoiceId db) ∧
    (∀ inv ∈ (deleteInvoice f2 (saveInvoice f1 db data).1 (newInvoiceId db)).1.invoices,
      inv.id ≠ newInvoiceId db) ∧
    (∀ it ∈ (deleteInvoice f2 (saveInvoice f1 db data).1 (newInvoiceId db)).1.invoice_items,
      it.invoice_id ≠ newInvoiceId db) := by
  obtain ⟨row, hrow, hid, _⟩ := saveInvoice_saved_header f1 db data hsave
  refine ⟨⟨row, by simp [hrow], hid⟩, ?_, ?_⟩
  · rw [deleteInvoice_deleted hdel]
    intro inv hinv
    simpa using (List.mem_filter.mp hinv).2
  · rw [deleteInvoice_deleted hdel]
    intro it hit
    simpa using (List.mem_filter.mp hit).2

theorem save_then_delete_leaves_nothing_witness :
    (saveInvoice noFaults {} exampleInvoice).2 = [.invoiceSaved] ∧
    (deleteInvoice noFaults (saveInvoice noFaults {} exampleInvoice).1 (newInvoiceId {})).2
      = [.invoiceDeleted] ∧
    ((∃ inv ∈ (saveInvoice noFaults {} exampleInvoice).1.invoices, inv.id = newInvoiceId {}) ∧
     (∀ inv ∈ (deleteInvoice noFaults (saveInvoice noFaults {} exampleInvoice).1
        (newInvoiceId {})).1.invoices, inv.id ≠ newInvoiceId {}) ∧
     (∀ it ∈ (deleteInvoice noFaults (saveInvoice noFaults {} exampleInvoice).1
        (newInvoiceId {})).1.invoice_items, it.invoice_id ≠ newInvoiceId {})) :=
  ⟨by decide, by decide,
   save_then_delete_leaves_nothing noFaults noFaults {} exampleInvoice (by decide) (by decide)⟩

theorem find_setPaid (n : Nat) (inv : Invoice) (hid : inv.id = n) :
    ∀ (l : List Invoice), inv ∈ l → (l.map (·.id)).Nodup →
      (l.map (setPaid n)).find? (fun i => i.id = n) = some { inv with status := some "Paid" } := by
  intro l
  induction l with
  | nil => intro h; simp at h
  | cons a rest ih =>
    intro hmem hnd
    simp only [List.map_cons, List.nodup_cons] at hnd
    rcases List.mem_cons.mp hmem with h | h
    · subst h
      simp [setPaid, hid]
    · have hne : a.id ≠ n := by
        intro ha
        apply hnd.1
        rw [ha, ← hid]
        exact List.mem_map_of_mem _ h
      have : (setPaid n a).id ≠ n := by simp [setPaid, hne]
      simp only [List.map_cons, List.find?_cons, this, decide_False]
      exact ih h hnd.2

/-- C4. With no engine failure, on a database whose `invoices` table (ids unique,
as the primary key guarantees) holds a Draft invoice `inv` with id `n`,
mark-invoice-paid(n) sets the status of that row to Paid and leaves every other
invoice as it was; it appends exactly one row to `transactions`, of type Income,
dated today, of amount `inv.total_amount`, with the business and client of the
invoice and with `account_id` the id of an account of that business named
'Sales' when there is one and null otherwise; and it replies
invoice-paid-success. -/
theorem markInvoicePaid_draft (today : Nat) (db : Db) (n : Nat) (inv : Invoice)
    (hmem : inv ∈ db.invoices) (hid : inv.id = n) (_hdraft : inv.status = some "Draft")
    (hpk : (db.invoices.map (·.id)).Nodup) :
    (markInvoicePaid noFaults today db n).1.invoices
      = db.invoices.map (fun i => if i.id = n then { i with status := some "Paid" } else i) ∧
    { inv with status := some "Paid" } ∈ (markInvoicePaid noFaults today db n).1.invoices ∧
    (∀ i ∈ db.invoices, i.id ≠ n → i ∈ (markInvoicePaid noFaults today db n).1.invoices) ∧
    (∃ row : Transaction,
      (markInvoicePaid noFaults today db n).1.transactions = db.transactions ++ [row] ∧
      row.type = "Income" ∧ row.date = isoDate today ∧ row.amount = inv.total_amount ∧
      row.business_id = inv.business_id ∧ row.client_id = some inv.client_id ∧
      ((∀ a ∈ db.accounts, ¬ (a.name = "Sales" ∧ a.business_id = inv.business_id)) →
        row.account_id = none) ∧
      ((∃ a ∈ db.accounts, a.name = "Sales" ∧ a.business_id = inv.business_id) →
        ∃ a ∈ db.accounts, a.name = "Sales" ∧ a.business_id = inv.business_id ∧
          row.account_id = some a.id)) ∧
    (markInvoicePaid noFaults today db n).2 = [.invoicePaidSuccess] := by
  have hfind := find_setPaid n inv hid db.invoices hmem hpk
  have hfind2 : (List.map (fun (i : Invoice) =>
      if i.id = n then { i with status := some "Paid" } else i) db.invoices).find?
        (fun i => i.id = n) = some { inv with status := some "Paid" } := hfind
  have hrun : markInvoicePaid noFaults today db n =
      ({ db with
          invoices := db.invoices.map (fun i =>
            if i.id = n then { i with status := some "Paid" } else i),
          transactions := db.transactions ++
            [{ id := nextId db.seq_transactions (db.transactions.map (·.id)),
               business_id := inv.business_id, date := isoDate today,
               description := "Invoice Payment: " ++ inv.invoice_number,
               amount := inv.total_amount, type := "Income",
               account_id := (db.accounts.find? (fun (a : Account) =>
                 a.name = "Sales" ∧ a.business_id = inv.business_id)).map (·.id),
               client_id := some inv.client_id }],
          seq_transactions := nextId db.seq_transactions (db.transactions.map (·.id)) },
       [.invoicePaidSuccess]) := by
    simp only [markInvoicePaid, noFaults, hfind2]
  rw [hrun]
  refine ⟨rfl, ?_, ?_, ⟨_, rfl, rfl, rfl, rfl, rfl, rfl, ?_, ?_⟩, rfl⟩
  · exact List.mem_map.mpr ⟨inv, hmem, by simp [hid]⟩
  · intro i hi hne
    exact List.mem_map.mpr ⟨i, hi, by simp [hne]⟩
  · intro hnone
    have : db.accounts.find? (fun (a : Account) =>
        a.name = "Sales" ∧ a.business_id = inv.business_id) = none := by
      rw [List.find?_eq_none]
      intro a ha
      simpa using hnone a ha
    show Option.map (·.id) (db.accounts.find? (fun (a : Account) =>
        a.name = "Sales" ∧ a.business_id = inv.business_id)) = none
    rw [this]
    rfl
  · rintro ⟨a, ha, hn, hb⟩
    cases hf : db.accounts.find? (fun (a : Account) =>
        a.name = "Sales" ∧ a.business_id = inv.business_id) with
    | none =>
      rw [List.find?_eq_none] at hf
      have := hf a ha
      simp [hn, hb] at this
    | some a1 =>
      have h1 := List.find?_some hf
      have h2 := List.mem_of_find?_eq_some hf
      simp only [decide_eq_true_eq] at h1
      exact ⟨a1, h2, h1.1, h1.2, rfl⟩

theorem markInvoicePaid_draft_witness :
    paidExampleInvoice ∈ paidExampleDb.invoices ∧ paidExampleInvoice.id = 1 ∧
    paidExampleInvoice.status = some "Draft" ∧ (paidExampleDb.invoices.map (·.id)).Nodup ∧
    ((markInvoicePaid noFaults 19783 paidExampleDb 1).1.invoices
      = paidExampleDb.invoices.map
          (fun i => if i.id = 1 then { i with status := some "Paid" } else i) ∧
    { paidExampleInvoice with status := some "Paid" }
      ∈ (markInvoicePaid noFaults 19783 paidExampleDb 1).1.invoices ∧
    (∀ i ∈ paidExampleDb.invoices, i.id ≠ 1 →
      i ∈ (markInvoicePaid noFaults 19783 paidExampleDb 1).1.invoices) ∧
    (∃ row : Transaction,
      (markInvoicePaid noFaults 19783 paidExampleDb 1).1.transactions
        = paidExampleDb.transactions ++ [row] ∧
      row.type = "Income" ∧ row.date = isoDate 19783 ∧
      row.amount = paidExampleInvoice.total_amount ∧
      row.business_id = paidExampleInvoice.business_id ∧
      row.client_id = some paidExampleInvoice.client_id ∧
      ((∀ a ∈ paidExampleDb.accounts,
          ¬ (a.name = "Sales" ∧ a.business_id = paidExampleInvoice.business_id)) →
        row.account_id = none) ∧
      ((∃ a ∈ paidExampleDb.accounts,
          a.name = "Sales" ∧ a.business_id = paidExampleInvoice.business_id) →
        ∃ a ∈ paidExampleDb.accounts,
          a.name = "Sales" ∧ a.business_id = paidExampleInvoice.business_id ∧
          row.account_id = some a.id)) ∧
    (markInvoicePaid noFaults 19783 paidExampleDb 1).2 = [.invoicePaidSuccess]) :=
  ⟨by simp [paidExampleInvoice, paidExampleDb], rfl, rfl, by decide,
   markInvoicePaid_draft 19783 paidExampleDb 1 paidExampleInvoice
     (by simp [paidExampleInvoice, paidExampleDb]) rfl rfl (by decide)⟩

/-! ## The dashboard forecast -/

theorem sum_reduceOption (vals : List (Option ℚ)) :
    vals.reduceOption.sum = (vals.map (fun v => v.getD 0)).sum := by
  induction vals with
  | nil => rfl
  | cons v rest ih =>
    cases v with
    | none => simp [List.reduceOption_cons_of_none, ih]
    | some x => simp [List.reduceOption_cons_of_some, ih]

theorem orZero_sqlSum (vals : List (Option ℚ)) :
    orZero (sqlSum vals) = (vals.map (fun v => v.getD 0)).sum := by
  rw [← sum_reduceOption]
  unfold sqlSum orZero
  cases h : vals.reduceOption with
  | nil => simp
  | cons x xs => simp

theorem weightedValue_getD (l : Lead) :
    (weightedValue l).getD 0 = l.expected_value.getD 0 * l.probability.getD 0 / 100 := by
  unfold weightedValue
  cases l.expected_value <;> cases l.probability <;> simp [mul_div_assoc]

/-- C5 (counterexample). A lead with a NULL status is not Converted, so the
forecast of the specification counts it (500); the query's `status != 'Converted'`
is NULL for it, the row is dropped and the handler returns 0. -/
theorem dashboardForecast_null_status :
    dashboardForecast { leads := [nullStatusLead] } 1 = 0 ∧
    specForecast [nullStatusLead] 1 = 500 ∧
    dashboardForecast { leads := [nullStatusLead] } 1 ≠ specForecast [nullStatusLead] 1 := by
  have h1 : dashboardForecast { leads := [nullStatusLead] } 1 = 0 := by
    simp [dashboardForecast, forecastQuery, forecastLeads, sqlNe, nullStatusLead, sqlSum]
  have h2 : specForecast [nullStatusLead] 1 = 500 := by
    simp [specForecast, nullStatusLead]
    norm_num
  refine ⟨h1, h2, ?_⟩
  rw [h1, h2]
  norm_num

/-- C5 (amended). The forecast of get-dashboard-stats(b) is the sum of
`expected_value * probability / 100` over the leads of `b` whose status is not
NULL and is not 'Converted', a lead with a NULL `expected_value` or `probability`
contributing 0 (so 0 when there is no such lead); for the two leads of the
example it is 500. -/
theorem dashboardForecast_eq (db : Db) (businessId : Nat) :
    dashboardForecast db businessId =
      ((db.leads.filter fun l => l.business_id = some businessId ∧ l.status ≠ none ∧
          l.status ≠ some "Converted").map
        fun l => l.expected_value.getD 0 * l.probability.getD 0 / 100).sum ∧
    dashboardForecast { leads := specExampleLeads } 1 = 500 := by
  have key : ∀ (db : Db) (b : Nat), dashboardForecast db b =
      ((db.leads.filter fun l => l.business_id = some b ∧ l.status ≠ none ∧
          l.status ≠ some "Converted").map
        fun l => l.expected_value.getD 0 * l.probability.getD 0 / 100).sum := by
    intro db b
    have h0 : dashboardForecast db b = orZero (forecastQuery db.leads b) := rfl
    rw [h0, forecastQuery, orZero_sqlSum, List.map_map]
    have hf : forecastLeads db.leads b = db.leads.filter fun l =>
        l.business_id = some b ∧ l.status ≠ none ∧ l.status ≠ some "Converted" := by
      unfold forecastLeads
      apply List.filter_congr
      intro l _
      cases hs : l.status <;> simp [sqlNe]
    rw [hf]
    congr 1
    apply List.map_congr_left
    intro l _
    exact weightedValue_getD l
  refine ⟨key db businessId, ?_⟩
  rw [key]
  simp [specExampleLeads]
  norm_num

/-! ## The tax report -/

theorem mem_taxJoin (db : Db) (b : Nat) (t : Transaction) (c : String) :
    (t, c) ∈ taxJoin db b ↔
      t ∈ db.transactions ∧ t.business_id = b ∧ t.type = "Expense" ∧
        ∃ a ∈ db.accounts, t.account_id = some a.id ∧ a.tax_category = some c := by
  unfold taxJoin
  simp only [List.mem_flatMap, List.mem_filterMap]
  constructor
  · rintro ⟨t1, ht1, a, ha, h⟩
    split at h
    · next hc =>
      obtain ⟨c1, hc1, heq⟩ := Option.map_eq_some'.mp h
      simp only [Prod.mk.injEq] at heq
      obtain ⟨rfl, rfl⟩ := heq
      exact ⟨ht1, hc.2.1, hc.2.2, a, ha, hc.1, hc1⟩
    · simp at h
  · rintro ⟨ht, hb, hty, a, ha, hacc, hcat⟩
    refine ⟨t, ht, a, ha, ?_⟩
    rw [if_pos ⟨hacc, hb, hty⟩, hcat]
    rfl

theorem filter_length_le_one {α : Type} (key : α → Nat) (Q : α → Bool) (k : Nat)
    (hQ : ∀ a, Q a = true → key a = k) :
    ∀ l : List α, (l.map key).Nodup → (l.filter Q).length ≤ 1 := by
  intro l
  induction l with
  | nil => intro _; simp
  | cons a rest ih =>
    intro hnd
    simp only [List.map_cons, List.nodup_cons] at hnd
    by_cases hqa : Q a = true
    · have hrest : rest.filter Q = [] := by
        rw [List.filter_eq_nil_iff]
        intro a1 ha1 hq1
        apply hnd.1
        rw [hQ a hqa, ← hQ a1 hq1]
        exact List.mem_map_of_mem key ha1
      simp [List.filter_cons, hqa, hrest]
    · simp only [List.filter_cons, hqa]
      exact ih hnd.2

theorem sum_filterMap_group {α : Type} (F : α → Option (Transaction × String)) (G : α → Bool)
    (c : String) (x : ℚ) (hG : ∀ a, G a = true ↔ ∃ t1, F a = some (t1, c))
    (hx : ∀ a r, F a = some r → r.1.amount = x) :
    ∀ l : List α,
      ((((l.filterMap F).filter (fun r => r.2 = c)).map (·.1.amount)).sum
        = ((l.filter G).length : ℚ) * x) := by
  intro l
  induction l with
  | nil => simp
  | cons a rest ih =>
    cases hF : F a with
    | none =>
      have hga : ¬ (G a = true) := by
        rw [hG]
        rintro ⟨t1, h⟩
        rw [hF] at h
        exact Option.noConfusion h
      rw [List.filterMap_cons_none hF, List.filter_cons_of_neg hga]
      exact ih
    | some r =>
      rw [List.filterMap_cons_some hF]
      by_cases hr : r.2 = c
      · have hga : G a = true := (hG a).mpr ⟨r.1, by rw [hF, ← hr]⟩
        rw [List.filter_cons_of_pos (by simpa using hr), List.filter_cons_of_pos hga,
          List.map_cons, List.sum_cons, ih, hx a r hF, List.length_cons]
        push_cast
        ring
      · have hga : ¬ (G a = true) := by
          rw [hG]
          rintro ⟨t1, h⟩
          rw [hF] at h
          apply hr
          have := Option.some.inj h
          rw [this]
        rw [List.filter_cons_of_neg (by simpa using hr), List.filter_cons_of_neg hga]
        exact ih

theorem taxJoin_one (b : Nat) (t : Transaction) (c : String) (accounts : List Account) :
    (((accounts.filterMap fun a =>
        if t.account_id = some a.id ∧ t.business_id = b ∧ t.type = "Expense" then
          a.tax_category.map fun c => (t, c)
        else none).filter (fun r => r.2 = c)).map (·.1.amount)).sum
      = ((accounts.filter fun a =>
          t.account_id = some a.id ∧ t.business_id = b ∧ t.type = "Expense" ∧
            a.tax_category = some c).length : ℚ) * t.amount := by
  apply sum_filterMap_group
  · intro a
    simp only [decide_eq_true_eq]
    constructor
    · rintro ⟨h1, h2, h3, h4⟩
      exact ⟨t, by rw [if_pos ⟨h1, h2, h3⟩, h4]; rfl⟩
    · rintro ⟨t1, h⟩
      split at h
      · next hc =>
        obtain ⟨c1, hc1, heq⟩ := Option.map_eq_some'.mp h
        simp only [Prod.mk.injEq] at heq
        rw [heq.2] at hc1
        exact ⟨hc.1, hc.2.1, hc.2.2, hc1⟩
      · exact Option.noConfusion h
  · intro a r h
    split at h
    · obtain ⟨c1, _, heq⟩ := Option.map_eq_some'.mp h
      rw [← heq]
    · exact Option.noConfusion h

theorem sum_flatMap_filter {α β : Type} (g : α → List β) (p : β → Bool) (f : β → ℚ) :
    ∀ ts : List α, (((ts.flatMap g).filter p).map f).sum
      = (ts.map fun t => (((g t).filter p).map f).sum).sum := by
  intro ts
  induction ts with
  | nil => simp
  | cons t rest ih =>
    rw [List.flatMap_cons, List.filter_append, List.map_append, List.sum_append, ih]
    simp

theorem sum_filter_eq_sum_ite (P : Transaction → Bool) :
    ∀ ts : List Transaction, ((ts.filter P).map (·.amount)).sum
      = (ts.map fun t => if P t = true then t.amount else 0).sum := by
  intro ts
  induction ts with
  | nil => simp
  | cons t rest ih =>
    by_cases h : P t = true
    · rw [List.filter_cons_of_pos h]
      simp [h, ih]
    · rw [List.filter_cons_of_neg h]
      simp [h, ih]

theorem joined_count (db : Db) (b : Nat) (c : String) (t : Transaction)
    (hpk : (db.accounts.map (·.id)).Nodup) :
    (((db.accounts.filter fun a =>
        t.account_id = some a.id ∧ t.business_id = b ∧ t.type = "Expense" ∧
          a.tax_category = some c).length : ℚ) * t.amount)
      = if (t.business_id = b ∧ t.type = "Expense" ∧
            ∃ a ∈ db.accounts, t.account_id = some a.id ∧ a.tax_category = some c)
        then t.amount else 0 := by
  have hle : (db.accounts.filter fun a =>
        t.account_id = some a.id ∧ t.business_id = b ∧ t.type = "Expense" ∧
          a.tax_category = some c).length ≤ 1 := by
    cases hacc : t.account_id with
    | none => simp
    | some k =>
      apply filter_length_le_one (·.id) _ k _ _ hpk
      intro a ha
      simp only [decide_eq_true_eq] at ha
      exact (Option.some.inj ha.1).symm
  by_cases hP : t.business_id = b ∧ t.type = "Expense" ∧
      ∃ a ∈ db.accounts, t.account_id = some a.id ∧ a.tax_category = some c
  · rw [if_pos hP]
    obtain ⟨hb, hty, a, ha, hacc, hcat⟩ := hP
    have hmem : a ∈ db.accounts.filter fun a =>
        t.account_id = some a.id ∧ t.business_id = b ∧ t.type = "Expense" ∧
          a.tax_category = some c := by
      rw [List.mem_filter]
      exact ⟨ha, by simpa using ⟨hacc, hb, hty, hcat⟩⟩
    have hpos := List.length_pos_of_mem hmem
    have h1 : (db.accounts.filter fun a =>
        t.account_id = some a.id ∧ t.business_id = b ∧ t.type = "Expense" ∧
          a.tax_category = some c).length = 1 := by omega
    rw [h1]
    simp
  · rw [if_neg hP]
    have h0 : (db.accounts.filter fun a =>
        t.account_id = some a.id ∧ t.business_id = b ∧ t.type = "Expense" ∧
          a.tax_category = some c) = [] := by
      rw [List.filter_eq_nil_iff]
      intro a ha hq
      simp only [decide_eq_true_eq] at hq
      exact hP ⟨hq.2.1, hq.2.2.1, a, ha, hq.1, hq.2.2.2⟩
    rw [h0]
    simp

theorem taxJoin_group_total (db : Db) (b : Nat) (c : String)
    (hpk : (db.accounts.map (·.id)).Nodup) :
    (((taxJoin db b).filter (fun r => r.2 = c)).map (·.1.amount)).sum
      = ((db.transactions.filter fun t => t.business_id = b ∧ t.type = "Expense" ∧
          ∃ a ∈ db.accounts, t.account_id = some a.id ∧ a.tax_category = some c).map
            (·.amount)).sum := by
  unfold taxJoin
  rw [sum_flatMap_filter, sum_filter_eq_sum_ite]
  congr 1
  apply List.map_congr_left
  intro t _
  rw [taxJoin_one, joined_count db b c t hpk]
  simp

/-- C6. With account ids unique (the primary key), get-tax-report(b) has no two
entries of the same category; a category `c` has an entry exactly when some
Expense transaction of `b` is linked to an account whose `tax_category` is `c`;
the total of an entry is the sum of the amounts of exactly those transactions;
and the entries are in non-increasing order of total. -/
theorem getTaxReport_spec (db : Db) (b : Nat) (hpk : (db.accounts.map (·.id)).Nodup) :
    ((getTaxReport db b).map (·.tax_category)).Nodup ∧
    (∀ c, c ∈ (getTaxReport db b).map (·.tax_category) ↔
      ∃ t ∈ db.transactions, t.business_id = b ∧ t.type = "Expense" ∧
        ∃ a ∈ db.accounts, t.account_id = some a.id ∧ a.tax_category = some c) ∧
    (∀ r ∈ getTaxReport db b, r.total =
      ((db.transactions.filter fun t => t.business_id = b ∧ t.type = "Expense" ∧
        ∃ a ∈ db.accounts, t.account_id = some a.id ∧
          a.tax_category = some r.tax_category).map (·.amount)).sum) ∧
    (getTaxReport db b).Pairwise (fun x y => y.total ≤ x.total) := by
  have hperm : (getTaxReport db b).Perm
      (((taxJoin db b).map (·.2)).dedup.map fun c =>
        ({ tax_category := c,
           total := (((taxJoin db b).filter (fun r => r.2 = c)).map (·.1.amount)).sum } :
          TaxRow)) := List.perm_insertionSort _ _
  have hcats : ((getTaxReport db b).map (·.tax_category)).Perm
      ((taxJoin db b).map (·.2)).dedup := by
    have := hperm.map (·.tax_category)
    rw [List.map_map] at this
    simpa [Function.comp_def] using this
  refine ⟨hcats.nodup_iff.mpr (List.nodup_dedup _), ?_, ?_, ?_⟩
  · intro c
    rw [hcats.mem_iff, List.mem_dedup, List.mem_map]
    constructor
    · rintro ⟨⟨t, c1⟩, hmem, rfl⟩
      obtain ⟨ht, hb, hty, hex⟩ := (mem_taxJoin db b t c1).mp hmem
      exact ⟨t, ht, hb, hty, hex⟩
    · rintro ⟨t, ht, hb, hty, hex⟩
      exact ⟨(t, c), (mem_taxJoin db b t c).mpr ⟨ht, hb, hty, hex⟩, rfl⟩
  · intro r hr
    obtain ⟨c, _, rfl⟩ := List.mem_map.mp (hperm.mem_iff.mp hr)
    exact taxJoin_group_total db b c hpk
  · exact List.sorted_insertionSort totalDesc _

theorem getTaxReport_example :
    getTaxReport taxExampleDb 1 =
      [{ tax_category := "Office expenses", total := 125 },
       { tax_category := "Rent or lease", total := 100 }] := by
  simp [getTaxReport, taxJoin, taxExampleDb, List.dedup, List.pwFilter, totalDesc]
  norm_num

theorem getTaxReport_spec_witness :
    (taxExampleDb.accounts.map (·.id)).Nodup ∧
    (((getTaxReport taxExampleDb 1).map (·.tax_category)).Nodup ∧
    (∀ c, c ∈ (getTaxReport taxExampleDb 1).map (·.tax_category) ↔
      ∃ t ∈ taxExampleDb.transactions, t.business_id = 1 ∧ t.type = "Expense" ∧
        ∃ a ∈ taxExampleDb.accounts, t.account_id = some a.id ∧ a.tax_category = some c) ∧
    (∀ r ∈ getTaxReport taxExampleDb 1, r.total =
      ((taxExampleDb.transactions.filter fun t => t.business_id = 1 ∧ t.type = "Expense" ∧
        ∃ a ∈ taxExampleDb.accounts, t.account_id = some a.id ∧
          a.tax_category = some r.tax_category).map (·.amount)).sum) ∧
    (getTaxReport taxExampleDb 1).Pairwise (fun x y => y.total ≤ x.total)) :=
  ⟨by decide, getTaxReport_spec taxExampleDb 1 (by decide)⟩

/-! ## Dates as text -/

theorem digitChar_lt_iff (a b : Nat) :
    Nat.digitChar (a % 10) < Nat.digitChar (b % 10) ↔ a % 10 < b % 10 := by
  have ha : a % 10 < 10 := Nat.mod_lt _ (by decide)
  have hb : b % 10 < 10 := Nat.mod_lt _ (by decide)
  generalize a % 10 = x at ha ⊢
  generalize b % 10 = y at hb ⊢
  interval_cases x <;> interval_cases y <;> decide

theorem digitChar_eq_iff (a b : Nat) :
    Nat.digitChar (a % 10) = Nat.digitChar (b % 10) ↔ a % 10 = b % 10 := by
  have ha : a % 10 < 10 := Nat.mod_lt _ (by decide)
  have hb : b % 10 < 10 := Nat.mod_lt _ (by decide)
  generalize a % 10 = x at ha ⊢
  generalize b % 10 = y at hb ⊢
  interval_cases x <;> interval_cases y <;> decide

theorem lex_cons_cons {α : Type} [LinearOrder α] (a b : α) (l l' : List α) :
    List.Lex (· < ·) (a :: l) (b :: l') ↔ a < b ∨ (a = b ∧ List.Lex (· < ·) l l') := by
  constructor
  · intro h
    cases h with
    | cons h => exact Or.inr ⟨rfl, h⟩
    | rel h => exact Or.inl h
  · rintro (h | ⟨rfl, h⟩)
    · exact List.Lex.rel h
    · exact List.Lex.cons h

theorem isoOfYMD_lt_iff (y1 m1 d1 y2 m2 d2 : Nat) (hy1 : y1 ≤ 9999) (hy2 : y2 ≤ 9999)
    (hm1 : m1 ≤ 99) (hm2 : m2 ≤ 99) (hd1 : d1 ≤ 99) (hd2 : d2 ≤ 99) :
    textLt (isoOfYMD y1 m1 d1) (isoOfYMD y2 m2 d2) ↔
      y1 < y2 ∨ (y1 = y2 ∧ (m1 < m2 ∨ (m1 = m2 ∧ d1 < d2))) := by
  unfold textLt isoOfYMD pad4 pad2
  show List.Lex (· < ·) _ _ ↔ _
  simp only [List.cons_append, List.nil_append, lex_cons_cons, digitChar_lt_iff,
    digitChar_eq_iff, List.Lex.not_nil_right, lt_self_iff_false, true_and, and_false,
    or_false, false_or]
  have hy1' : y1 = 1000 * (y1 / 1000 % 10) + 100 * (y1 / 100 % 10) + 10 * (y1 / 10 % 10)
      + y1 % 10 := by omega
  have hy2' : y2 = 1000 * (y2 / 1000 % 10) + 100 * (y2 / 100 % 10) + 10 * (y2 / 10 % 10)
      + y2 % 10 := by omega
  have hm1' : m1 = 10 * (m1 / 10 % 10) + m1 % 10 := by omega
  have hm2' : m2 = 10 * (m2 / 10 % 10) + m2 % 10 := by omega
  have hd1' : d1 = 10 * (d1 / 10 % 10) + d1 % 10 := by omega
  have hd2' : d2 = 10 * (d2 / 10 % 10) + d2 % 10 := by omega
  have k1 := Nat.mod_lt (y1 / 1000) (show 10 > 0 by decide)
  have k2 := Nat.mod_lt (y1 / 100) (show 10 > 0 by decide)
  have k3 := Nat.mod_lt (y1 / 10) (show 10 > 0 by decide)
  have k4 := Nat.mod_lt y1 (show 10 > 0 by decide)
  have k5 := Nat.mod_lt (y2 / 1000) (show 10 > 0 by decide)
  have k6 := Nat.mod_lt (y2 / 100) (show 10 > 0 by decide)
  have k7 := Nat.mod_lt (y2 / 10) (show 10 > 0 by decide)
  have k8 := Nat.mod_lt y2 (show 10 > 0 by decide)
  have k9 := Nat.mod_lt (m1 / 10) (show 10 > 0 by decide)
  have k10 := Nat.mod_lt m1 (show 10 > 0 by decide)
  have k11 := Nat.mod_lt (m2 / 10) (show 10 > 0 by decide)
  have k12 := Nat.mod_lt m2 (show 10 > 0 by decide)
  have k13 := Nat.mod_lt (d1 / 10) (show 10 > 0 by decide)
  have k14 := Nat.mod_lt d1 (show 10 > 0 by decide)
  have k15 := Nat.mod_lt (d2 / 10) (show 10 > 0 by decide)
  have k16 := Nat.mod_lt d2 (show 10 > 0 by decide)
  generalize y1 / 1000 % 10 = a3 at *
  generalize y1 / 100 % 10 = a2 at *
  generalize y1 / 10 % 10 = a1 at *
  generalize y1 % 10 = a0 at *
  generalize y2 / 1000 % 10 = b3 at *
  generalize y2 / 100 % 10 = b2 at *
  generalize y2 / 10 % 10 = b1 at *
  generalize y2 % 10 = b0 at *
  generalize m1 / 10 % 10 = p1 at *
  generalize m1 % 10 = p0 at *
  generalize m2 / 10 % 10 = q1 at *
  generalize m2 % 10 = q0 at *
  generalize d1 / 10 % 10 = r1 at *
  generalize d1 % 10 = r0 at *
  generalize d2 / 10 % 10 = s1 at *
  generalize d2 % 10 = s0 at *
  subst hy1' hy2' hm1' hm2' hd1' hd2'
  omega

theorem dayFromYear_succ (y : Nat) (hy : 1970 ≤ y) :
    dayFromYear (y + 1) = dayFromYear y + (if isLeap y = true then 366 else 365) := by
  unfold dayFromYear isLeap
  have e1 : y + 1 - 1969 = (y - 1969) + 1 := by omega
  have e2 : y + 1 - 1901 = (y - 1901) + 1 := by omega
  have e3 : y + 1 - 1601 = (y - 1601) + 1 := by omega
  rw [e1, e2, e3, Nat.succ_div, Nat.succ_div, Nat.succ_div]
  have d1 : (4 ∣ y - 1969 + 1) ↔ y % 4 = 0 := by omega
  have d2 : (100 ∣ y - 1901 + 1) ↔ y % 100 = 0 := by omega
  have d3 : (400 ∣ y - 1601 + 1) ↔ y % 400 = 0 := by omega
  simp only [d1, d2, d3]
  have b1 : 100 * ((y - 1901) / 100) ≤ y - 1901 := Nat.mul_div_le _ _
  have b2 : y - 1969 < 4 * ((y - 1969) / 4) + 4 := by omega
  generalize (y - 1969) / 4 = A at *
  generalize (y - 1901) / 100 = B at *
  generalize (y - 1601) / 400 = C at *
  have h400 : y % 400 = 0 → y % 100 = 0 := by omega
  have h100 : y % 100 = 0 → y % 4 = 0 := by omega
  clear d1 d2 d3 e1 e2 e3
  by_cases h4 : y % 4 = 0
  · by_cases h100' : y % 100 = 0
    · by_cases h400' : y % 400 = 0
      · simp only [h4, h100', h400', if_true, ne_eq, not_true_eq_false, or_true, and_self,
          decide_True]
        omega
      · simp only [h4, h100', h400', if_true, if_false, ne_eq, not_true_eq_false, or_self,
          and_false, decide_False, Bool.false_eq_true]
        omega
    · have h400' : ¬ y % 400 = 0 := fun h => h100' (h400 h)
      simp only [h4, h100', h400', if_true, if_false, ne_eq, not_false_eq_true, true_or,
        and_self, decide_True]
      omega
  · have h100' : ¬ y % 100 = 0 := fun h => h4 (h100 h)
    have h400' : ¬ y % 400 = 0 := fun h => h100' (h400 h)
    simp only [h4, h100', h400', if_false, false_and, decide_False, Bool.false_eq_true]
    omega

theorem dayFromYear_1970 : dayFromYear 1970 = 0 := by decide

theorem dayFromYear_lt_succ (y : Nat) (hy : 1970 ≤ y) :
    dayFromYear y + 365 ≤ dayFromYear (y + 1) := by
  rw [dayFromYear_succ y hy]
  split <;> omega

theorem dayFromYear_strict {y1 y2 : Nat} (h1 : 1970 ≤ y1) (h : y1 < y2) :
    dayFromYear y1 + 365 ≤ dayFromYear y2 := by
  induction y2 with
  | zero => omega
  | succ n ih =>
    by_cases hn : y1 = n
    · subst hn
      exact dayFromYear_lt_succ y1 h1
    · have h2 : y1 < n := by omega
      have := ih h2
      have := dayFromYear_lt_succ n (by omega)
      omega

theorem dayFromYear_ge (y : Nat) (hy : 1970 ≤ y) : 365 * (y - 1970) ≤ dayFromYear y := by
  induction y with
  | zero => omega
  | succ n ih =>
    by_cases hn : n + 1 = 1970
    · rw [hn]; simp
    · have := ih (by omega)
      have := dayFromYear_lt_succ n (by omega)
      omega

theorem yearFromDay_spec (d : Nat) :
    1970 ≤ yearFromDay d ∧ dayFromYear (yearFromDay d) ≤ d ∧
      d < dayFromYear (yearFromDay d + 1) := by
  have hb : 1970 ≤ 1970 + d / 365 := Nat.le_add_right _ _
  have h0 : dayFromYear 1970 ≤ d := by rw [dayFromYear_1970]; exact Nat.zero_le _
  have h1 : 1970 ≤ yearFromDay d :=
    Nat.le_findGreatest (P := fun y => dayFromYear y ≤ d) hb h0
  have h2 : dayFromYear (yearFromDay d) ≤ d :=
    Nat.findGreatest_spec (P := fun y => dayFromYear y ≤ d) hb h0
  refine ⟨h1, h2, ?_⟩
  by_contra hcon
  have hle : dayFromYear (yearFromDay d + 1) ≤ d := Nat.le_of_not_lt hcon
  by_cases hk : yearFromDay d + 1 ≤ 1970 + d / 365
  · exact Nat.findGreatest_is_greatest (P := fun y => dayFromYear y ≤ d)
      (Nat.lt_succ_self _) hk hle
  · have hge := dayFromYear_ge (yearFromDay d + 1) (by omega)
    have hdiv : d < 365 * (d / 365 + 1) := by
      have := Nat.div_add_mod d 365
      have := Nat.mod_lt d (show 365 > 0 by decide)
      omega
    omega

theorem yearFromDay_mono {d1 d2 : Nat} (h : d1 ≤ d2) : yearFromDay d1 ≤ yearFromDay d2 := by
  obtain ⟨a1, a2, a3⟩ := yearFromDay_spec d1
  obtain ⟨b1, b2, b3⟩ := yearFromDay_spec d2
  by_contra hcon
  have hlt : yearFromDay d2 < yearFromDay d1 := Nat.lt_of_not_le hcon
  have : dayFromYear (yearFromDay d2 + 1) ≤ dayFromYear (yearFromDay d1) := by
    by_cases he : yearFromDay d2 + 1 = yearFromDay d1
    · rw [he]
    · have := @dayFromYear_strict (yearFromDay d2 + 1) (yearFromDay d1)
        (by omega) (by omega)
      omega
  omega

theorem dayFromYear_10000 : dayFromYear 10000 = 2932897 := by decide

theorem yearFromDay_le (d : Nat) (hd : d ≤ maxDay) : yearFromDay d ≤ 9999 := by
  obtain ⟨a1, a2, _⟩ := yearFromDay_spec d
  by_contra hcon
  have h : 10000 ≤ yearFromDay d := by omega
  have : dayFromYear 10000 ≤ dayFromYear (yearFromDay d) := by
    by_cases he : 10000 = yearFromDay d
    · rw [← he]
    · have := @dayFromYear_strict 10000 (yearFromDay d) (by omega) (by omega)
      omega
  rw [dayFromYear_10000] at this
  unfold maxDay at hd
  omega

theorem dayFromYear_succ_leap (y : Nat) (hy : 1970 ≤ y) :
    dayFromYear (y + 1) = dayFromYear y + 365 + inLeapYear y := by
  rw [dayFromYear_succ y hy]
  unfold inLeapYear
  split <;> omega

theorem inLeapYear_le (y : Nat) : inLeapYear y ≤ 1 := by
  unfold inLeapYear
  split <;> omega

theorem dbm1 (l : Nat) : daysBeforeMonth l 1 = 0 := rfl

theorem dbm2 (l : Nat) : daysBeforeMonth l 2 = 31 := rfl

theorem dbm3 (l : Nat) : daysBeforeMonth l 3 = 59 + l := rfl

theorem dbm4 (l : Nat) : daysBeforeMonth l 4 = 90 + l := rfl

theorem dbm5 (l : Nat) : daysBeforeMonth l 5 = 120 + l := rfl

theorem dbm6 (l : Nat) : daysBeforeMonth l 6 = 151 + l := rfl

theorem dbm7 (l : Nat) : daysBeforeMonth l 7 = 181 + l := rfl

theorem dbm8 (l : Nat) : daysBeforeMonth l 8 = 212 + l := rfl

theorem dbm9 (l : Nat) : daysBeforeMonth l 9 = 243 + l := rfl

theorem dbm10 (l : Nat) : daysBeforeMonth l 10 = 273 + l := rfl

theorem dbm11 (l : Nat) : daysBeforeMonth l 11 = 304 + l := rfl

theorem dbm12 (l : Nat) : daysBeforeMonth l 12 = 334 + l := rfl

theorem dbm13 (l : Nat) : daysBeforeMonth l 13 = 365 + l := rfl

theorem monthDay_eq (l n m d : Nat) (hl : l ≤ 1) (hn : n < 365 + l)
    (h : monthDay l n = (m, d)) :
    1 ≤ m ∧ m ≤ 12 ∧ 1 ≤ d ∧ d ≤ 31 ∧ n + 1 = daysBeforeMonth l m + d ∧
      daysBeforeMonth l m + d ≤ daysBeforeMonth l (m + 1) := by
  unfold monthDay at h
  by_cases c1 : n < 31
  · rw [if_pos c1] at h
    obtain ⟨rfl, rfl⟩ := Prod.mk.inj h
    rw [dbm1, dbm2]
    omega
  rw [if_neg c1] at h
  by_cases c2 : n < 59 + l
  · rw [if_pos c2] at h
    obtain ⟨rfl, rfl⟩ := Prod.mk.inj h
    rw [dbm2, dbm3]
    omega
  rw [if_neg c2] at h
  by_cases c3 : n < 90 + l
  · rw [if_pos c3] at h
    obtain ⟨rfl, rfl⟩ := Prod.mk.inj h
    rw [dbm3, dbm4]
    omega
  rw [if_neg c3] at h
  by_cases c4 : n < 120 + l
  · rw [if_pos c4] at h
    obtain ⟨rfl, rfl⟩ := Prod.mk.inj h
    rw [dbm4, dbm5]
    omega
  rw [if_neg c4] at h
  by_cases c5 : n < 151 + l
  · rw [if_pos c5] at h
    obtain ⟨rfl, rfl⟩ := Prod.mk.inj h
    rw [dbm5, dbm6]
    omega
  rw [if_neg c5] at h
  by_cases c6 : n < 181 + l
  · rw [if_pos c6] at h
    obtain ⟨rfl, rfl⟩ := Prod.mk.inj h
    rw [dbm6, dbm7]
    omega
  rw [if_neg c6] at h
  by_cases c7 : n < 212 + l
  · rw [if_pos c7] at h
    obtain ⟨rfl, rfl⟩ := Prod.mk.inj h
    rw [dbm7, dbm8]
    omega
  rw [if_neg c7] at h
  by_cases c8 : n < 243 + l
  · rw [if_pos c8] at h
    obtain ⟨rfl, rfl⟩ := Prod.mk.inj h
    rw [dbm8, dbm9]
    omega
  rw [if_neg c8] at h
  by_cases c9 : n < 273 + l
  · rw [if_pos c9] at h
    obtain ⟨rfl, rfl⟩ := Prod.mk.inj h
    rw [dbm9, dbm10]
    omega
  rw [if_neg c9] at h
  by_cases c10 : n < 304 + l
  · rw [if_pos c10] at h
    obtain ⟨rfl, rfl⟩ := Prod.mk.inj h
    rw [dbm10, dbm11]
    omega
  rw [if_neg c10] at h
  by_cases c11 : n < 334 + l
  · rw [if_pos c11] at h
    obtain ⟨rfl, rfl⟩ := Prod.mk.inj h
    rw [dbm11, dbm12]
    omega
  rw [if_neg c11] at h
  obtain ⟨rfl, rfl⟩ := Prod.mk.inj h
  rw [dbm12, dbm13]
  omega

theorem monthDay_spec (l n : Nat) (hl : l ≤ 1) (hn : n < 365 + l) :
    1 ≤ (monthDay l n).1 ∧ (monthDay l n).1 ≤ 12 ∧ 1 ≤ (monthDay l n).2 ∧
    (monthDay l n).2 ≤ 31 ∧
    n + 1 = daysBeforeMonth l (monthDay l n).1 + (monthDay l n).2 ∧
    daysBeforeMonth l (monthDay l n).1 + (monthDay l n).2
      ≤ daysBeforeMonth l ((monthDay l n).1 + 1) :=
  monthDay_eq l n _ _ hl hn rfl

theorem daysBeforeMonth_mono (l m1 m2 : Nat) (h1 : 1 ≤ m1) (h : m1 < m2)
    (h2 : m2 ≤ 12) : daysBeforeMonth l (m1 + 1) ≤ daysBeforeMonth l m2 := by
  interval_cases m2 <;> interval_cases m1 <;>
    simp only [Nat.reduceAdd, dbm1, dbm2, dbm3, dbm4, dbm5, dbm6, dbm7, dbm8, dbm9, dbm10,
      dbm11, dbm12, dbm13] <;> omega

theorem monthDay_lt (l n1 n2 : Nat) (hl : l ≤ 1) (h : n1 < n2) (hn : n2 < 365 + l) :
    (monthDay l n1).1 < (monthDay l n2).1 ∨
      ((monthDay l n1).1 = (monthDay l n2).1 ∧ (monthDay l n1).2 < (monthDay l n2).2) := by
  cases h1 : monthDay l n1 with
  | mk m1 d1 =>
    cases h2 : monthDay l n2 with
    | mk m2 d2 =>
      obtain ⟨_, a2, _, _, a4, _⟩ := monthDay_eq l n1 m1 d1 hl (by omega) h1
      obtain ⟨b1, _, _, _, b4, b5⟩ := monthDay_eq l n2 m2 d2 hl hn h2
      show m1 < m2 ∨ (m1 = m2 ∧ d1 < d2)
      rcases Nat.lt_trichotomy m1 m2 with hlt | heq | hgt
      · exact Or.inl hlt
      · right
        subst heq
        refine ⟨rfl, ?_⟩
        generalize daysBeforeMonth l m1 = A at *
        omega
      · exfalso
        have hm := daysBeforeMonth_mono l m2 m1 b1 hgt a2
        generalize daysBeforeMonth l m1 = A1 at *
        generalize daysBeforeMonth l m2 = A2 at *
        generalize daysBeforeMonth l (m2 + 1) = B2 at *
        omega

theorem civil_lt {d1 d2 : Nat} (h : d1 < d2) :
    (civil d1).1 < (civil d2).1 ∨ ((civil d1).1 = (civil d2).1 ∧
      ((civil d1).2.1 < (civil d2).2.1 ∨
        ((civil d1).2.1 = (civil d2).2.1 ∧ (civil d1).2.2 < (civil d2).2.2))) := by
  obtain ⟨a1, a2, a3⟩ := yearFromDay_spec d1
  obtain ⟨b1, b2, b3⟩ := yearFromDay_spec d2
  rcases Nat.lt_or_ge (yearFromDay d1) (yearFromDay d2) with hlt | hge
  · exact Or.inl hlt
  · right
    have heq : yearFromDay d1 = yearFromDay d2 := le_antisymm (yearFromDay_mono h.le) hge
    refine ⟨heq, ?_⟩
    simp only [civil]
    rw [heq]
    rw [heq] at a2
    rw [dayFromYear_succ_leap _ b1] at b3
    exact monthDay_lt _ _ _ (inLeapYear_le _) (by omega) (by omega)

theorem civil_bounds (d : Nat) (hd : d ≤ maxDay) :
    (civil d).1 ≤ 9999 ∧ (civil d).2.1 ≤ 99 ∧ (civil d).2.2 ≤ 99 := by
  obtain ⟨b1, b2, b3⟩ := yearFromDay_spec d
  rw [dayFromYear_succ_leap _ b1] at b3
  obtain ⟨_, c2, _, c4, _, _⟩ :=
    monthDay_spec (inLeapYear (yearFromDay d)) (d - dayFromYear (yearFromDay d))
      (inLeapYear_le _) (by omega)
  simp only [civil]
  exact ⟨yearFromDay_le d hd, by omega, by omega⟩

theorem isoDate_lt_of_lt {d1 d2 : Nat} (h : d1 < d2) (h2 : d2 ≤ maxDay) :
    textLt (isoDate d1) (isoDate d2) := by
  obtain ⟨a1, a2, a3⟩ := civil_bounds d1 (by omega)
  obtain ⟨b1, b2, b3⟩ := civil_bounds d2 h2
  unfold isoDate
  rw [isoOfYMD_lt_iff _ _ _ _ _ _ a1 b1 a2 b2 a3 b3]
  exact civil_lt h

theorem isoDate_lt_iff {d1 d2 : Nat} (h1 : d1 ≤ maxDay) (h2 : d2 ≤ maxDay) :
    textLt (isoDate d1) (isoDate d2) ↔ d1 < d2 := by
  constructor
  · intro h
    by_contra hcon
    have hle : d2 ≤ d1 := Nat.le_of_not_lt hcon
    rcases Nat.eq_or_lt_of_le hle with heq | hlt
    · rw [heq] at h
      exact lt_irrefl (isoDate d1).data h
    · exact lt_asymm (a := (isoDate d1).data) h (isoDate_lt_of_lt hlt h1)
  · intro h
    exact isoDate_lt_of_lt h h2

theorem isoDate_le_iff {d1 d2 : Nat} (h1 : d1 ≤ maxDay) (h2 : d2 ≤ maxDay) :
    textLe (isoDate d1) (isoDate d2) ↔ d1 ≤ d2 := by
  have : textLe (isoDate d1) (isoDate d2) ↔ ¬ textLt (isoDate d2) (isoDate d1) :=
    not_lt.symm
  rw [this, isoDate_lt_iff h2 h1]
  omega

/-! ## Compliance alerts -/

theorem mem_getComplianceAlerts (c : Clock) (db : Db) (b : Nat) (d : Document) :
    d ∈ getComplianceAlerts c db b ↔
      d ∈ db.documents ∧ d.business_id = b ∧
        expiryBetween d.expiry_date (dateStr c) (todayStr c) = true := by
  unfold getComplianceAlerts
  rw [(List.perm_insertionSort _ _).mem_iff, List.mem_filter]
  simp

theorem dateStr_same_offset (c : Clock) (hoff : c.offsetNow = c.offsetThen) :
    dateStr c = isoDate (c.now / 1440 + 30) := by
  have h : ((c.now : Int) + c.offsetThen + 30 * 1440 - c.offsetThen) / 1440
      = ((c.now / 1440 + 30 : Nat) : Int) := by
    push_cast
    omega
  unfold dateStr thirtyDaysFromNow utcDay
  rw [hoff, h, Int.toNat_ofNat]

theorem todayStr_at_once (c : Clock) (hel : c.elapsed = 0) :
    todayStr c = isoDate (c.now / 1440) := by
  have h : ((c.now : Int) + ((0 : Nat) : Int)) / 1440 = ((c.now / 1440 : Nat) : Int) := by
    push_cast
    simp
  unfold todayStr utcDay
  rw [hel, h, Int.toNat_ofNat]

/-- When the offset of the zone is the same now and 30 days later (no change of
daylight saving time in between, or a machine on UTC) and both clock reads fall
in the same minute, get-compliance-alerts(b) does what C7 says, `today` being
the UTC day of now: it never returns a document whose `expiry_date` is NULL; it
returns a document of `b` whose `expiry_date` is the ISO text of day `e` exactly
when `today ≤ e ≤ today + 30`; it returns only documents of `b`; and the result
is in ascending order of `expiry_date`. -/
theorem getComplianceAlerts_same_offset (c : Clock) (db : Db) (b : Nat)
    (hoff : c.offsetNow = c.offsetThen) (hel : c.elapsed = 0)
    (ht : c.now / 1440 + 30 ≤ maxDay) :
    (∀ d ∈ db.documents, d.expiry_date = none → d ∉ getComplianceAlerts c db b) ∧
    (∀ d ∈ db.documents, d.business_id = b → ∀ e, e ≤ maxDay →
      d.expiry_date = some (isoDate e) →
        (d ∈ getComplianceAlerts c db b ↔ c.now / 1440 ≤ e ∧ e ≤ c.now / 1440 + 30)) ∧
    (∀ d ∈ getComplianceAlerts c db b, d ∈ db.documents ∧ d.business_id = b) ∧
    (getComplianceAlerts c db b).Pairwise (fun x y =>
      ∃ ex ey, x.expiry_date = some ex ∧ y.expiry_date = some ey ∧ textLe ex ey) := by
  refine ⟨?_, ?_, ?_, ?_⟩
  · intro d _ hnone hmem
    have := ((mem_getComplianceAlerts c db b d).mp hmem).2.2
    rw [hnone] at this
    exact Bool.noConfusion this
  · intro d hd hb e he hexp
    rw [mem_getComplianceAlerts, hexp, dateStr_same_offset c hoff, todayStr_at_once c hel]
    simp only [expiryBetween, hd, hb, true_and, decide_eq_true_eq, Bool.decide_and,
      Bool.and_eq_true]
    rw [isoDate_le_iff he ht, isoDate_le_iff (by omega) he]
    omega
  · intro d hmem
    have := (mem_getComplianceAlerts c db b d).mp hmem
    exact ⟨this.1, this.2.1⟩
  · have hsorted : (getComplianceAlerts c db b).Pairwise expiryAsc :=
      List.sorted_insertionSort expiryAsc _
    refine hsorted.imp_of_mem ?_
    intro x y hx hy hxy
    have h1 := ((mem_getComplianceAlerts c db b x).mp hx).2.2
    have h2 := ((mem_getComplianceAlerts c db b y).mp hy).2.2
    unfold expiryAsc at hxy
    cases hex : x.expiry_date with
    | none => rw [hex] at h1; exact Bool.noConfusion h1
    | some ex =>
      cases hey : y.expiry_date with
      | none => rw [hey] at h2; exact Bool.noConfusion h2
      | some ey =>
        rw [hex, hey] at hxy
        exact ⟨ex, ey, rfl, rfl, hxy⟩

theorem getComplianceAlerts_example :
    todayStr marchClock = "2024-03-01" ∧ dateStr marchClock = "2024-03-31" ∧
    isoDate (19783 + 29) = "2024-03-30" ∧ isoDate (19783 + 31) = "2024-04-01" ∧
    (getComplianceAlerts marchClock complianceExampleDb 1).map (·.id) = [6, 2, 4] := by
  decide

theorem getComplianceAlerts_same_offset_witness :
    marchClock.offsetNow = marchClock.offsetThen ∧ marchClock.elapsed = 0 ∧
    marchClock.now / 1440 + 30 ≤ maxDay ∧
    (∀ d ∈ getComplianceAlerts marchClock complianceExampleDb 1,
      d ∈ complianceExampleDb.documents ∧ d.business_id = 1) :=
  ⟨rfl, rfl, by decide,
   (getComplianceAlerts_same_offset marchClock complianceExampleDb 1 rfl rfl (by decide)).2.2.1⟩

/-- C7 (the code at the failing input). In America/New_York at 2024-10-10T23:30Z,
`todayStr` is 2024-10-10 (day 20006) and `dateStr` is 2024-11-10, the day
20006 + 31: 30 local days on, the local time 19:30 is 00:30 UTC of the next day,
the zone having gone from UTC-4 to UTC-5.  The document expiring on 2024-11-10,
31 days after today, is returned. -/
theorem getComplianceAlerts_returns_day_31 :
    todayStr newYorkClock = isoDate 20006 ∧ isoDate 20006 = "2024-10-10" ∧
    dateStr newYorkClock = isoDate (20006 + 31) ∧ isoDate (20006 + 31) = "2024-11-10" ∧
    getComplianceAlerts newYorkClock autumnDocuments 1 = autumnDocuments.documents ∧
    ({ id := 2, business_id := 1, name := "Lease", type := "Legal",
       expiry_date := some (isoDate (20006 + 31)) } : Document)
      ∈ getComplianceAlerts newYorkClock autumnDocuments 1 := by
  decide

/-- In America/New_York at 2024-02-20T00:30Z, before the start of daylight saving
time, `todayStr` is 2024-02-20 (day 19773) and `dateStr` is 2024-03-20, the day
19773 + 29: the document expiring on 2024-03-21, 30 days after today, is not
returned. -/
theorem getComplianceAlerts_drops_day_30 :
    todayStr newYorkSpringClock = isoDate 19773 ∧ isoDate 19773 = "2024-02-20" ∧
    dateStr newYorkSpringClock = isoDate (19773 + 29) ∧
    isoDate (19773 + 30) = "2024-03-21" ∧
    getComplianceAlerts newYorkSpringClock springDocuments 1 = [] := by
  decide

/-! ## Settings -/

theorem buildSettings_append (table : List Setting) (r : Setting) (obj : SettingsObject) :
    buildSettings (table ++ [r]) obj = assignProperty (buildSettings table obj) r.key r.value := by
  unfold buildSettings
  rw [List.foldl_append]
  rfl

theorem buildSettings_without_proto (table : List Setting)
    (h : ∀ r ∈ table, r.key ≠ "__proto__") :
    ∀ obj : SettingsObject,
      (buildSettings table obj).nullPrototype = obj.nullPrototype ∧
      (buildSettings table obj).own "__proto__" = obj.own "__proto__" := by
  induction table with
  | nil => intro obj; exact ⟨rfl, rfl⟩
  | cons a rest ih =>
    intro obj
    have ha : a.key ≠ "__proto__" := h a (List.mem_cons_self _ _)
    have hrest := ih (fun r hr => h r (List.mem_cons_of_mem _ hr))
      (assignProperty obj a.key a.value)
    unfold buildSettings at hrest ⊢
    rw [List.foldl_cons, hrest.1, hrest.2]
    unfold assignProperty
    simp [ha, Function.update_noteq (Ne.symm ha)]

/-- C8 (counterexample). Saving the key `__proto__` twice, with the values "a"
and then "b", leaves exactly one row of that key, of value "b"; the object of
get-settings has no property `__proto__` then: the assignment
`settings['__proto__'] = 'b'` goes to the setter of `Object.prototype`, which
ignores a string. -/
theorem getSettings_proto_key :
    (saveSettings (saveSettings settingsExampleDb [("__proto__", some "a")]).1
        [("__proto__", some "b")]).1.settings.filter (fun r => r.key = "__proto__")
      = [{ key := "__proto__", value := some "b" }] ∧
    getSettings (saveSettings (saveSettings settingsExampleDb [("__proto__", some "a")]).1
        [("__proto__", some "b")]).1 "__proto__" = none ∧
    getSettings (saveSettings (saveSettings settingsExampleDb [("__proto__", some "a")]).1
        [("__proto__", some "b")]).1 "__proto__" ≠ some (some "b") := by
  decide

/-- C8 (amended). On every settings table, save-settings({k: v1}) followed by
save-settings({k: v2}) leaves exactly one row with key `k`, of value `v2`; the rows
with another key are the ones there were, in the same order; both requests
reply settings-saved; and get-settings then maps `k` to `v2` for every key `k`
other than `__proto__`, while for `__proto__` its object has no such
property. -/
theorem saveSettings_twice (db : Db) (k : String) (v1 v2 : Option String) :
    (saveSettings (saveSettings db [(k, v1)]).1 [(k, v2)]).1.settings.filter
        (fun r => r.key = k) = [{ key := k, value := v2 }] ∧
    (saveSettings (saveSettings db [(k, v1)]).1 [(k, v2)]).1.settings.filter
        (fun r => r.key ≠ k) = db.settings.filter (fun r => r.key ≠ k) ∧
    (k ≠ "__proto__" →
      getSettings (saveSettings (saveSettings db [(k, v1)]).1 [(k, v2)]).1 k = some v2) ∧
    (k = "__proto__" →
      getSettings (saveSettings (saveSettings db [(k, v1)]).1 [(k, v2)]).1 k = none) ∧
    (saveSettings db [(k, v1)]).2 = [.settingsSaved] ∧
    (saveSettings (saveSettings db [(k, v1)]).1 [(k, v2)]).2 = [.settingsSaved] := by
  have hset : (saveSettings (saveSettings db [(k, v1)]).1 [(k, v2)]).1.settings
      = db.settings.filter (fun r => r.key ≠ k) ++ [{ key := k, value := v2 }] := by
    simp [saveSettings, insertOrReplace, List.filter_append, List.filter_filter]
  refine ⟨?_, ?_, ?_, ?_, rfl, rfl⟩
  · rw [hset, List.filter_append, List.filter_filter]
    simp
  · rw [hset, List.filter_append, List.filter_filter]
    simp
  · intro hk
    unfold getSettings
    rw [hset, buildSettings_append]
    unfold assignProperty
    simp [hk]
  · intro hk
    subst hk
    unfold getSettings
    rw [hset, buildSettings_append]
    have hno : ∀ r ∈ db.settings.filter (fun r => r.key ≠ "__proto__"),
        r.key ≠ "__proto__" := by
      intro r hr
      simpa using (List.mem_filter.mp hr).2
    obtain ⟨h1, h2⟩ := buildSettings_without_proto _ hno {}
    generalize buildSettings (db.settings.filter (fun r => r.key ≠ "__proto__")) {} = o
      at h1 h2 ⊢
    have h1f : o.nullPrototype = false := h1
    have h2n : o.own "__proto__" = none := h2
    unfold assignProperty
    cases v2 with
    | none => simp [h1f, h2n]
    | some v => simp [h1f, h2n]

theorem saveSettings_twice_witness :
    ("currency" : String) ≠ "__proto__" ∧
    getSettings (saveSettings (saveSettings settingsExampleDb [("currency", some "EUR")]).1
        [("currency", some "GBP")]).1 "currency" = some (some "GBP") :=
  ⟨by decide,
   (saveSettings_twice settingsExampleDb "currency" (some "EUR") (some "GBP")).2.2.1
     (by decide)⟩

theorem saveSettings_example :
    (saveSettings (saveSettings settingsExampleDb [("currency", some "EUR")]).1
        [("currency", some "GBP")]).1.settings
      = [{ key := "phone", value := some "555-1234" }, { key := "currency", value := some "GBP" }] ∧
    getSettings (saveSettings (saveSettings settingsExampleDb [("currency", some "EUR")]).1
        [("currency", some "GBP")]).1 "currency" = some (some "GBP") ∧
    getSettings (saveSettings (saveSettings settingsExampleDb [("currency", some "EUR")]).1
        [("currency", some "GBP")]).1 "phone" = some (some "555-1234") := by
  decide

/-! ## Financial reports -/

theorem sum_ite_type (ty : String) (rows : List Transaction) :
    (rows.map fun t => if t.type = ty then t.amount else 0).sum
      = ((rows.filter fun t => t.type = ty).map (·.amount)).sum := by
  rw [sum_filter_eq_sum_ite]
  simp

theorem orZero_sum_case (ty : String) (rows : List Transaction) :
    orZero (sqlSum (rows.map fun t => some (if t.type = ty then t.amount else 0)))
      = ((rows.filter fun t => t.type = ty).map (·.amount)).sum := by
  rw [orZero_sqlSum, List.map_map, ← sum_ite_type]
  rfl

/-- C10. When the query does not fail, get-financial-reports replies an object
whose `income` is the sum of the amounts of the selected Income transactions,
whose `expenses` is the sum of the amounts of the selected Expense transactions
(0 for an empty selection), with `netProfit = income - expenses`,
`assets = equity = netProfit` and `liabilities = 0`; the selected transactions
are those of the business that lie in the month window, and all the transactions
of the business when the month or the year is missing. -/
theorem getFinancialReports_spec (db : Db) (data : ReportRequest) :
    (∃ r, getFinancialReports noFaults db data = .ok r ∧
      r.income = (((reportRows db data).filter fun t => t.type = "Income").map
        (·.amount)).sum ∧
      r.expenses = (((reportRows db data).filter fun t => t.type = "Expense").map
        (·.amount)).sum ∧
      r.netProfit = r.income - r.expenses ∧ r.assets = r.netProfit ∧
      r.equity = r.netProfit ∧ r.liabilities = 0) ∧
    (∀ t, t ∈ reportRows db data ↔ t ∈ db.transactions ∧ t.business_id = data.businessId ∧
      ∀ lo hi, monthWindow data.month data.year = some (lo, hi) →
        textLe lo t.date ∧ textLt t.date hi) ∧
    ((data.month = none ∨ data.year = none) →
      reportRows db data = db.transactions.filter fun t => t.business_id = data.businessId) := by
  refine ⟨⟨_, rfl, ?_, ?_, rfl, rfl, rfl, rfl⟩, ?_, ?_⟩
  · exact orZero_sum_case "Income" _
  · exact orZero_sum_case "Expense" _
  · intro t
    unfold reportRows
    rw [List.mem_filter]
    cases hw : monthWindow data.month data.year with
    | none => simp [inWindow]
    | some w =>
      obtain ⟨lo, hi⟩ := w
      simp [inWindow]
  · intro h
    have hw : monthWindow data.month data.year = none := by
      unfold monthWindow
      rcases h with h | h
      · rw [h]
      · rw [h]
        cases data.month <;> rfl
    unfold reportRows
    rw [hw]
    simp [inWindow]

theorem getFinancialReports_example :
    monthWindow (some 3) (some 2024) = some ("2024-03-01", "2024-04-01") ∧
    (reportRows ledgerExampleDb { businessId := 1, month := some 3, year := some 2024 }).map
      (·.id) = [2, 3] ∧
    (reportRows ledgerExampleDb { businessId := 1 }).map (·.id) = [1, 2, 3, 4] ∧
    getFinancialReports noFaults ledgerExampleDb
        { businessId := 1, month := some 3, year := some 2024 }
      = .ok { income := 500, expenses := 120, netProfit := 380, assets := 380,
              liabilities := 0, equity := 380 } := by
  refine ⟨by decide, by decide, by decide, ?_⟩
  have hrows : reportRows ledgerExampleDb { businessId := 1, month := some 3, year := some 2024 }
      = [{ id := 2, business_id := 1, date := "2024-03-01", description := "b", amount := 500,
           type := "Income" },
         { id := 3, business_id := 1, date := "2024-03-31", description := "c", amount := 120,
           type := "Expense" }] := by decide
  simp only [getFinancialReports, noFaults, hrows]
  simp [sqlSum, orZero]
  norm_num

/-! ## Migrations -/

theorem sameColumnName_refl (a : String) : sameColumnName a a = true := by
  simp [sameColumnName]

theorem hasColumn_imp_present (cols : List Column) (c : Column)
    (h : hasColumn cols c.name = true) : columnPresent cols c = true := by
  unfold hasColumn at h
  unfold columnPresent
  rw [List.any_eq_true] at h ⊢
  obtain ⟨r, hr, hname⟩ := h
  refine ⟨r, hr, ?_⟩
  have : r.name = c.name := by simpa using hname
  rw [this]
  exact sameColumnName_refl _

theorem columnPresent_append (cols : List Column) (c1 c : Column) :
    columnPresent (cols ++ [c1]) c = (columnPresent cols c || sameColumnName c1.name c.name) := by
  simp [columnPresent, List.any_append]

/-- One `if (!has) ALTER TABLE ... ADD COLUMN`: `has` was read on `cols`, the
statement runs on `cols1`, a table with the same columns as far as `c` goes. -/
theorem addIfMissing (cols cols1 : List Column) (c : Column)
    (h : columnPresent cols1 c = columnPresent cols c) :
    (if (!hasColumn cols c.name) = true then (addColumn cols1 c).getD cols1 else cols1)
      = cols1 ++ [c].filter (fun c => !columnPresent cols c) := by
  have haddc : addColumn cols1 c = if columnPresent cols c = true then none
      else some (cols1 ++ [c]) := by
    rw [← h]
    rfl
  cases hp : columnPresent cols c with
  | true =>
    rw [haddc]
    simp [hp]
  | false =>
    have hh : hasColumn cols c.name = false := by
      cases hhc : hasColumn cols c.name with
      | false => rfl
      | true => rw [hasColumn_imp_present cols c hhc] at hp; exact Bool.noConfusion hp
    rw [haddc]
    simp [hp, hh]

theorem migrateLeads_eq (rows : List Column) :
    migrateLeads rows = rows ++ [colExpectedValue, colProbability].filter
      (fun c => !columnPresent rows c) := by
  have h1 := addIfMissing rows rows colExpectedValue rfl
  have hname1 : colExpectedValue.name = "expected_value" := rfl
  have hname2 : colProbability.name = "probability" := rfl
  rw [hname1] at h1
  have hsame : columnPresent (rows ++ [colExpectedValue].filter
      (fun c => !columnPresent rows c)) colProbability = columnPresent rows colProbability := by
    cases hp : columnPresent rows colExpectedValue with
    | true => simp [hp]
    | false =>
      simp only [List.filter_cons, hp, Bool.not_false, if_true, List.filter_nil]
      rw [columnPresent_append]
      have : sameColumnName colExpectedValue.name colProbability.name = false := by decide
      rw [this, Bool.or_false]
  have h2 := addIfMissing rows _ colProbability hsame
  rw [hname2] at h2
  unfold migrateLeads
  simp only []
  rw [h1, h2, List.append_assoc, ← List.filter_append]
  rfl

theorem migrateContentItems_eq (columns : List Column) :
    migrateContentItems columns = columns ++ [colCtaHook, colMediaPath].filter
      (fun c => !columnPresent columns c) := by
  have h1 := addIfMissing columns columns colCtaHook rfl
  have hname1 : colCtaHook.name = "cta_hook" := rfl
  have hname2 : colMediaPath.name = "media_path" := rfl
  rw [hname1] at h1
  have hsame : columnPresent (columns ++ [colCtaHook].filter
      (fun c => !columnPresent columns c)) colMediaPath
        = columnPresent columns colMediaPath := by
    cases hp : columnPresent columns colCtaHook with
    | true => simp [hp]
    | false =>
      simp only [List.filter_cons, hp, Bool.not_false, if_true, List.filter_nil]
      rw [columnPresent_append]
      have : sameColumnName colCtaHook.name colMediaPath.name = false := by decide
      rw [this, Bool.or_false]
  have h2 := addIfMissing columns _ colMediaPath hsame
  rw [hname2] at h2
  unfold migrateContentItems
  simp only []
  rw [h1, h2, List.append_assoc, ← List.filter_append]
  rfl

theorem migrateAccounts_eq (rows : List Column) (accountRows : List (String × Option String)) :
    migrateAccounts rows accountRows =
      if columnPresent rows colTaxCategory = true then (rows, accountRows)
      else (rows ++ [colTaxCategory],
        taxCategoryUpdates.foldl setTaxCategory (accountRows.map fun r => (r.1, none))) := by
  have hadd : addColumn rows colTaxCategory = if columnPresent rows colTaxCategory = true
      then none else some (rows ++ [colTaxCategory]) := rfl
  unfold migrateAccounts
  simp only []
  cases hp : columnPresent rows colTaxCategory with
  | true =>
    rw [hadd, hp]
    simp
  | false =>
    have hh : hasColumn rows "tax_category" = false := by
      cases hhc : hasColumn rows "tax_category" with
      | false => rfl
      | true =>
        rw [hasColumn_imp_present rows colTaxCategory hhc] at hp
        exact Bool.noConfusion hp
    rw [hadd, hp, hh]
    simp

theorem present_after (cols : List Column) (cs : List Column) (c : Column) (hc : c ∈ cs) :
    columnPresent (cols ++ cs.filter (fun c => !columnPresent cols c)) c = true := by
  cases hp : columnPresent cols c with
  | true =>
    unfold columnPresent at hp ⊢
    rw [List.any_append, hp]
    rfl
  | false =>
    have hmem : c ∈ cs.filter (fun c => !columnPresent cols c) := by
      rw [List.mem_filter]
      exact ⟨hc, by simp [hp]⟩
    have hany : (cs.filter (fun c => !columnPresent cols c)).any
        (fun r => sameColumnName r.name c.name) = true :=
      List.any_eq_true.mpr ⟨c, hmem, sameColumnName_refl _⟩
    show (cols ++ cs.filter (fun c => !columnPresent cols c)).any
        (fun r => sameColumnName r.name c.name) = true
    rw [List.any_append, hany, Bool.or_true]

theorem filter_absent_nil (cols : List Column) (cs : List Column)
    (h : ∀ c ∈ cs, columnPresent cols c = true) :
    cs.filter (fun c => !columnPresent cols c) = [] := by
  rw [List.filter_eq_nil_iff]
  intro c hc
  simp [h c hc]

/-- C9. On every column list of `leads`, `accounts` and `content_items`, the
migration step appends to each table exactly those of its columns
(`expected_value`, `probability`; `tax_category`; `cta_hook`, `media_path`) that
the table does not have yet (a column is the same column whatever the case of
its name), after the existing columns, which are kept as they are; and running
the step on its own result changes nothing. -/
theorem migrate_spec (s : Schema) :
    (migrate s).leads = s.leads ++ [colExpectedValue, colProbability].filter
      (fun c => !columnPresent s.leads c) ∧
    (migrate s).accounts = s.accounts ++ [colTaxCategory].filter
      (fun c => !columnPresent s.accounts c) ∧
    (migrate s).content_items = s.content_items ++ [colCtaHook, colMediaPath].filter
      (fun c => !columnPresent s.content_items c) ∧
    migrate (migrate s) = migrate s := by
  have hacc : (migrateAccounts s.accounts s.accountRows).1
      = s.accounts ++ [colTaxCategory].filter (fun c => !columnPresent s.accounts c) := by
    rw [migrateAccounts_eq]
    cases hp : columnPresent s.accounts colTaxCategory <;> simp [hp]
  refine ⟨migrateLeads_eq _, hacc, migrateContentItems_eq _, ?_⟩
  have h1 : migrateLeads (migrateLeads s.leads) = migrateLeads s.leads := by
    rw [migrateLeads_eq (migrateLeads s.leads), filter_absent_nil, List.append_nil]
    intro c hc
    rw [migrateLeads_eq]
    exact present_after _ _ c hc
  have h3 : migrateContentItems (migrateContentItems s.content_items)
      = migrateContentItems s.content_items := by
    rw [migrateContentItems_eq (migrateContentItems s.content_items), filter_absent_nil,
      List.append_nil]
    intro c hc
    rw [migrateContentItems_eq]
    exact present_after _ _ c hc
  have h2 : migrateAccounts (migrateAccounts s.accounts s.accountRows).1
      (migrateAccounts s.accounts s.accountRows).2 = migrateAccounts s.accounts s.accountRows := by
    rw [migrateAccounts_eq (migrateAccounts s.accounts s.accountRows).1]
    have hpres : columnPresent (migrateAccounts s.accounts s.accountRows).1 colTaxCategory
        = true := by
      rw [hacc]
      exact present_after _ _ _ (List.mem_singleton.mpr rfl)
    rw [if_pos hpres]
  unfold migrate
  simp only [h1, h2, h3]

theorem migrate_example :
    migrate oldSchema =
      { leads := [{ name := "id", type := "INTEGER" }, { name := "name", type := "TEXT" },
                  { name := "probability", type := "INTEGER", dflt_value := some "0" },
                  { name := "expected_value", type := "REAL", dflt_value := some "0" }],
        accounts := [{ name := "id", type := "INTEGER" }, { name := "name", type := "TEXT" },
                     { name := "tax_category", type := "TEXT" }],
        content_items := [{ name := "id", type := "INTEGER" },
                          { name := "cta_hook", type := "TEXT" },
                          { name := "media_path", type := "TEXT" }],
        accountRows := [("Sales", none), ("Rent", some "Rent or lease")] } := by
  decide

/-! ## The month window -/

theorem toDigitsCore_step (fuel n : Nat) (ds : List Char) :
    Nat.toDigitsCore 10 (fuel + 1) n ds =
      if n / 10 = 0 then Nat.digitChar (n % 10) :: ds
      else Nat.toDigitsCore 10 fuel (n / 10) (Nat.digitChar (n % 10) :: ds) := rfl

theorem jsString_four (y : Nat) (h1 : 1000 ≤ y) (h2 : y ≤ 9999) : jsString y = pad4 y := by
  obtain ⟨k, rfl⟩ : ∃ k, y = k + 3 := ⟨y - 3, by omega⟩
  have a1 : ¬ ((k + 3) / 10 = 0) := by omega
  have a2 : ¬ ((k + 3) / 10 / 10 = 0) := by omega
  have a3 : ¬ ((k + 3) / 10 / 10 / 10 = 0) := by omega
  have a4 : (k + 3) / 10 / 10 / 10 / 10 = 0 := by omega
  have e2 : (k + 3) / 10 / 10 = (k + 3) / 100 := Nat.div_div_eq_div_mul _ _ _
  have e3 : (k + 3) / 10 / 10 / 10 = (k + 3) / 1000 := by
    rw [e2]
    exact Nat.div_div_eq_div_mul _ _ _
  unfold jsString pad4
  show Nat.toDigitsCore 10 (k + 3 + 1) (k + 3) [] = _
  rw [toDigitsCore_step, if_neg a1]
  show Nat.toDigitsCore 10 (k + 2 + 1) _ _ = _
  rw [toDigitsCore_step, if_neg a2]
  show Nat.toDigitsCore 10 (k + 1 + 1) _ _ = _
  rw [toDigitsCore_step, if_neg a3]
  show Nat.toDigitsCore 10 (k + 1) _ _ = _
  rw [toDigitsCore_step, if_pos a4, e3, e2]

theorem padStart2_month (m : Nat) (h1 : 1 ≤ m) (h2 : m ≤ 12) :
    padStart2 (jsString m) = pad2 m := by
  interval_cases m <;> decide

theorem firstOfMonth_eq (y m : Nat) (hy1 : 1000 ≤ y) (hy2 : y ≤ 9999) (hm1 : 1 ≤ m)
    (hm2 : m ≤ 12) : firstOfMonth y m = isoOfYMD y m 1 := by
  unfold firstOfMonth isoOfYMD
  rw [jsString_four y hy1 hy2, padStart2_month m hm1 hm2]
  rfl

theorem isoOfYMD_le_iff (y1 m1 d1 y2 m2 d2 : Nat) (hy1 : y1 ≤ 9999) (hy2 : y2 ≤ 9999)
    (hm1 : m1 ≤ 99) (hm2 : m2 ≤ 99) (hd1 : d1 ≤ 99) (hd2 : d2 ≤ 99) :
    textLe (isoOfYMD y1 m1 d1) (isoOfYMD y2 m2 d2) ↔
      y1 < y2 ∨ (y1 = y2 ∧ (m1 < m2 ∨ (m1 = m2 ∧ d1 ≤ d2))) := by
  have h : textLe (isoOfYMD y1 m1 d1) (isoOfYMD y2 m2 d2) ↔
      ¬ textLt (isoOfYMD y2 m2 d2) (isoOfYMD y1 m1 d1) := not_lt.symm
  rw [h, isoOfYMD_lt_iff _ _ _ _ _ _ hy2 hy1 hm2 hm1 hd2 hd1]
  omega

theorem monthWindow_eq (m y : Nat) (hm1 : 1 ≤ m) (hm2 : m ≤ 12) (hy1 : 1000 ≤ y)
    (hy2 : y ≤ 9999) (hne : ¬ (m = 12 ∧ y = 9999)) :
    monthWindow (some m) (some y) =
      some (isoOfYMD y m 1,
        isoOfYMD (if m = 12 then y + 1 else y) (if m = 12 then 1 else m + 1) 1) := by
  have h0 : m ≠ 0 ∧ y ≠ 0 := ⟨by omega, by omega⟩
  unfold monthWindow
  simp only [h0, ne_eq, not_false_eq_true, and_self, if_true]
  rw [firstOfMonth_eq y m hy1 hy2 hm1 hm2]
  by_cases h12 : m = 12
  · have hy3 : y + 1 ≤ 9999 := by omega
    simp only [h12, if_true]
    rw [firstOfMonth_eq (y + 1) 1 (by omega) hy3 (by omega) (by omega)]
  · simp only [h12, if_false]
    rw [firstOfMonth_eq y (m + 1) hy1 hy2 (by omega) (by omega)]

theorem inWindow_month_iff (m y Y M D : Nat) (hm1 : 1 ≤ m) (hm2 : m ≤ 12) (hy1 : 1000 ≤ y)
    (hy2 : y ≤ 9999) (hne : ¬ (m = 12 ∧ y = 9999)) (hY : Y ≤ 9999) (hM1 : 1 ≤ M)
    (hM : M ≤ 12) (hD1 : 1 ≤ D) (hD2 : D ≤ 31) :
    inWindow (monthWindow (some m) (some y)) (isoOfYMD Y M D) = true ↔ Y = y ∧ M = m := by
  rw [monthWindow_eq m y hm1 hm2 hy1 hy2 hne]
  simp only [inWindow, Bool.decide_and, Bool.and_eq_true, decide_eq_true_eq]
  by_cases h12 : m = 12
  · simp only [h12, if_true]
    rw [isoOfYMD_le_iff _ _ _ _ _ _ hy2 hY (by omega) (by omega) (by omega) (by omega),
      isoOfYMD_lt_iff _ _ _ _ _ _ hY (by omega) (by omega) (by omega) (by omega) (by omega)]
    omega
  · simp only [h12, if_false]
    rw [isoOfYMD_le_iff _ _ _ _ _ _ hy2 hY (by omega) (by omega) (by omega) (by omega),
      isoOfYMD_lt_iff _ _ _ _ _ _ hY hy2 (by omega) (by omega) (by omega) (by omega)]
    omega

theorem inWindow_absent (month year : Option Nat) (date : String)
    (h : month = none ∨ year = none) : inWindow (monthWindow month year) date = true := by
  have hw : monthWindow month year = none := by
    unfold monthWindow
    rcases h with h | h
    · rw [h]
    · rw [h]
      cases month <;> rfl
  rw [hw]
  rfl

theorem mem_transactionsSorted (db : Db) (data : ReportRequest) (r : TransactionRow) :
    r ∈ transactionsSorted db data ↔ r ∈ transactionsJoin db ∧ matchesRequest data r.t = true := by
  unfold transactionsSorted
  rw [(List.perm_insertionSort _ _).mem_iff, List.mem_filter]

/-- C17 (counterexample). For December of the four-digit year 9999 the upper
bound of the window is the text `10000-01-01`, which sorts before every date of
the year 9999: the transaction dated 9999-12-15 is not selected, although its
year is 9999 and its month 12. -/
theorem monthWindow_december_9999 :
    monthWindow (some 12) (some 9999) = some ("9999-12-01", "10000-01-01") ∧
    isoOfYMD 9999 12 15 = "9999-12-15" ∧
    inWindow (monthWindow (some 12) (some 9999)) (isoOfYMD 9999 12 15) = false ∧
    ¬ (inWindow (monthWindow (some 12) (some 9999)) (isoOfYMD 9999 12 15) = true ↔
        (9999 = 9999 ∧ 12 = 12)) := by
  decide

/-- C17 (amended). For every month `m` in 1..12 and every four-digit year `y`
other than December 9999, the window of get-transactions and of
get-financial-reports is `y-mm-01` (inclusive) to the first day of the following
month (exclusive, December rolling over to January of `y + 1`), and it selects a
transaction dated `Y-M-D` (a date in `YYYY-MM-DD` form) exactly when `Y = y` and
`M = m`, in both handlers; when the month or the year is absent every date is
selected. -/
theorem monthWindow_selects (m y Y M D : Nat) (hm1 : 1 ≤ m) (hm2 : m ≤ 12) (hy1 : 1000 ≤ y)
    (hy2 : y ≤ 9999) (hne : ¬ (m = 12 ∧ y = 9999)) (hY : Y ≤ 9999) (hM1 : 1 ≤ M)
    (hM2 : M ≤ 12) (hD1 : 1 ≤ D) (hD2 : D ≤ 31) :
    monthWindow (some m) (some y) =
      some (isoOfYMD y m 1,
        isoOfYMD (if m = 12 then y + 1 else y) (if m = 12 then 1 else m + 1) 1) ∧
    (inWindow (monthWindow (some m) (some y)) (isoOfYMD Y M D) = true ↔ Y = y ∧ M = m) ∧
    (∀ (db : Db) (b : Nat) (t : Transaction), t.date = isoOfYMD Y M D →
      (t ∈ reportRows db { businessId := b, month := some m, year := some y } ↔
        t ∈ db.transactions ∧ t.business_id = b ∧ Y = y ∧ M = m)) ∧
    (∀ (db : Db) (b : Nat) (r : TransactionRow), r.t.date = isoOfYMD Y M D →
      (r ∈ transactionsSorted db { businessId := b, month := some m, year := some y } ↔
        r ∈ transactionsJoin db ∧ r.t.business_id = b ∧ Y = y ∧ M = m)) ∧
    (∀ (month year : Option Nat) (date : String), month = none ∨ year = none →
      inWindow (monthWindow month year) date = true) := by
  have hiff := inWindow_month_iff m y Y M D hm1 hm2 hy1 hy2 hne hY hM1 hM2 hD1 hD2
  refine ⟨monthWindow_eq m y hm1 hm2 hy1 hy2 hne, hiff, ?_, ?_, inWindow_absent⟩
  · intro db b t hdate
    unfold reportRows
    rw [List.mem_filter]
    simp only [Bool.decide_and, Bool.and_eq_true, decide_eq_true_eq, hdate, hiff]
  · intro db b r hdate
    rw [mem_transactionsSorted]
    unfold matchesRequest
    simp only [Bool.decide_and, Bool.and_eq_true, decide_eq_true_eq, hdate, hiff]

theorem monthWindow_selects_witness :
    (1 ≤ 12 ∧ 12 ≤ 12 ∧ 1000 ≤ 2024 ∧ 2024 ≤ 9999 ∧ ¬ (12 = 12 ∧ 2024 = 9999) ∧
      2024 ≤ 9999 ∧ 1 ≤ 12 ∧ 12 ≤ 12 ∧ 1 ≤ 31 ∧ 31 ≤ 31) ∧
    (monthWindow (some 12) (some 2024) =
      some (isoOfYMD 2024 12 1,
        isoOfYMD (if 12 = 12 then 2024 + 1 else 2024) (if 12 = 12 then 1 else 12 + 1) 1) ∧
    (inWindow (monthWindow (some 12) (some 2024)) (isoOfYMD 2024 12 31) = true ↔
      2024 = 2024 ∧ 12 = 12) ∧
    (∀ (db : Db) (b : Nat) (t : Transaction), t.date = isoOfYMD 2024 12 31 →
      (t ∈ reportRows db { businessId := b, month := some 12, year := some 2024 } ↔
        t ∈ db.transactions ∧ t.business_id = b ∧ 2024 = 2024 ∧ 12 = 12)) ∧
    (∀ (db : Db) (b : Nat) (r : TransactionRow), r.t.date = isoOfYMD 2024 12 31 →
      (r ∈ transactionsSorted db { businessId := b, month := some 12, year := some 2024 } ↔
        r ∈ transactionsJoin db ∧ r.t.business_id = b ∧ 2024 = 2024 ∧ 12 = 12)) ∧
    (∀ (month year : Option Nat) (date : String), month = none ∨ year = none →
      inWindow (monthWindow month year) date = true)) :=
  ⟨by decide,
   monthWindow_selects 12 2024 2024 12 31 (by decide) (by decide) (by decide) (by decide)
     (by decide) (by decide) (by decide) (by decide) (by decide) (by decide)⟩

theorem monthWindow_example :
    monthWindow (some 12) (some 2024) = some ("2024-12-01", "2025-01-01") ∧
    monthWindow (some 2) (some 2024) = some ("2024-02-01", "2024-03-01") ∧
    inWindow (monthWindow (some 12) (some 2024)) "2024-12-31" = true ∧
    inWindow (monthWindow (some 12) (some 2024)) "2025-01-01" = false ∧
    inWindow (monthWindow (some 12) (some 2024)) "2024-11-30" = false ∧
    inWindow (monthWindow none (some 2024)) "1999-01-01" = true := by
  decide

/-! ## Dashboard revenue and expenses -/

theorem civil_valid (d : Nat) (hd : d ≤ maxDay) :
    1970 ≤ (civil d).1 ∧ (civil d).1 ≤ 9999 ∧ 1 ≤ (civil d).2.1 ∧ (civil d).2.1 ≤ 12 ∧
    1 ≤ (civil d).2.2 ∧ (civil d).2.2 ≤ 31 := by
  obtain ⟨b1, b2, b3⟩ := yearFromDay_spec d
  rw [dayFromYear_succ_leap _ b1] at b3
  obtain ⟨c1, c2, c3, c4, _, _⟩ :=
    monthDay_spec (inLeapYear (yearFromDay d)) (d - dayFromYear (yearFromDay d))
      (inLeapYear_le _) (by omega)
  simp only [civil]
  exact ⟨b1, yearFromDay_le d hd, c1, c2, c3, c4⟩

theorem firstDayOfMonth_eq (today : Nat) (ht : today ≤ maxDay) :
    firstDayOfMonth today = isoOfYMD (civil today).1 (civil today).2.1 1 := by
  obtain ⟨a1, a2, a3, a4, _, _⟩ := civil_valid today ht
  unfold firstDayOfMonth
  exact firstOfMonth_eq _ _ (by omega) a2 a3 a4

theorem orZero_monthTotalQuery (db : Db) (b : Nat) (ty : String) (firstDay : String) :
    orZero (monthTotalQuery db b ty firstDay) =
      ((db.transactions.filter fun t =>
        t.business_id = b ∧ t.type = ty ∧ textLe firstDay t.date).map (·.amount)).sum := by
  unfold monthTotalQuery
  rw [orZero_sqlSum, List.map_map]
  rfl

/-- C11 (counterexample). On 2024-03-01 (day 19783), with an Expense of 120 dated
2024-03-31 and an Expense of 9 dated 2024-04-01, the expenses of the dashboard
are 129: the transaction of the following month is counted, while the sum over
the current calendar month is 120. -/
theorem dashboardExpenses_counts_later_months :
    firstDayOfMonth 19783 = "2024-03-01" ∧
    dashboardExpenses 19783 ledgerExampleDb 1 = 129 ∧
    specMonthTotal 19783 ledgerExampleDb 1 "Expense" = 120 ∧
    dashboardExpenses 19783 ledgerExampleDb 1 ≠ specMonthTotal 19783 ledgerExampleDb 1 "Expense" := by
  have h1 : dashboardExpenses 19783 ledgerExampleDb 1 = 129 := by
    unfold dashboardExpenses
    rw [orZero_monthTotalQuery]
    have hrows : (ledgerExampleDb.transactions.filter fun t =>
        t.business_id = 1 ∧ t.type = "Expense" ∧ textLe (firstDayOfMonth 19783) t.date)
        = [{ id := 3, business_id := 1, date := "2024-03-31", description := "c", amount := 120,
             type := "Expense" },
           { id := 4, business_id := 1, date := "2024-04-01", description := "d", amount := 9,
             type := "Expense" }] := by decide
    rw [hrows]
    norm_num
  have h2 : specMonthTotal 19783 ledgerExampleDb 1 "Expense" = 120 := by
    unfold specMonthTotal
    have hrows : (ledgerExampleDb.transactions.filter fun t =>
        t.business_id = 1 ∧ t.type = "Expense" ∧ inCurrentMonth 19783 t.date)
        = [{ id := 3, business_id := 1, date := "2024-03-31", description := "c", amount := 120,
             type := "Expense" }] := by decide
    rw [hrows]
    norm_num
  refine ⟨by decide, h1, h2, ?_⟩
  rw [h1, h2]
  norm_num

/-- C11 (amended). With `y` and `m` the year and the month of the current date,
the revenue (respectively the expenses) of get-dashboard-stats(b) is the sum of
the amounts of the Income (respectively Expense) transactions of `b` whose date
text is at least `y-mm-01`; a transaction dated `Y-M-D` is counted exactly when
`Y-M` is the current month or a later one: the transactions of earlier months do
not contribute, those of later months do. -/
theorem dashboard_month_totals (today : Nat) (db : Db) (b : Nat) (ht : today ≤ maxDay) :
    dashboardRevenue today db b =
      ((db.transactions.filter fun t => t.business_id = b ∧ t.type = "Income" ∧
        textLe (isoOfYMD (civil today).1 (civil today).2.1 1) t.date).map (·.amount)).sum ∧
    dashboardExpenses today db b =
      ((db.transactions.filter fun t => t.business_id = b ∧ t.type = "Expense" ∧
        textLe (isoOfYMD (civil today).1 (civil today).2.1 1) t.date).map (·.amount)).sum ∧
    (∀ Y M D : Nat, Y ≤ 9999 → M ≤ 12 → 1 ≤ D → D ≤ 31 →
      (textLe (isoOfYMD (civil today).1 (civil today).2.1 1) (isoOfYMD Y M D) ↔
        (civil today).1 < Y ∨ ((civil today).1 = Y ∧ (civil today).2.1 ≤ M))) := by
  obtain ⟨a1, a2, a3, a4, _, _⟩ := civil_valid today ht
  refine ⟨?_, ?_, ?_⟩
  · unfold dashboardRevenue
    rw [orZero_monthTotalQuery, firstDayOfMonth_eq today ht]
  · unfold dashboardExpenses
    rw [orZero_monthTotalQuery, firstDayOfMonth_eq today ht]
  · intro Y M D hY hM hD1 hD2
    rw [isoOfYMD_le_iff _ _ _ _ _ _ a2 hY (by omega) (by omega) (by omega) (by omega)]
    generalize (civil today).1 = y at *
    generalize (civil today).2.1 = m at *
    omega

theorem dashboard_month_totals_witness :
    19783 ≤ maxDay ∧
    (dashboardRevenue 19783 ledgerExampleDb 1 =
      ((ledgerExampleDb.transactions.filter fun t => t.business_id = 1 ∧ t.type = "Income" ∧
        textLe (isoOfYMD (civil 19783).1 (civil 19783).2.1 1) t.date).map (·.amount)).sum ∧
    dashboardExpenses 19783 ledgerExampleDb 1 =
      ((ledgerExampleDb.transactions.filter fun t => t.business_id = 1 ∧ t.type = "Expense" ∧
        textLe (isoOfYMD (civil 19783).1 (civil 19783).2.1 1) t.date).map (·.amount)).sum ∧
    (∀ Y M D : Nat, Y ≤ 9999 → M ≤ 12 → 1 ≤ D → D ≤ 31 →
      (textLe (isoOfYMD (civil 19783).1 (civil 19783).2.1 1) (isoOfYMD Y M D) ↔
        (civil 19783).1 < Y ∨ ((civil 19783).1 = Y ∧ (civil 19783).2.1 ≤ M)))) :=
  ⟨by decide, dashboard_month_totals 19783 ledgerExampleDb 1 (by decide)⟩

/-! ## delete-invoice and mark-invoice-paid, once more -/

/-- C13. The request delete-invoice(n) either runs both deletes (no failure):
it replies invoice-deleted, `invoice_items` is left with exactly the rows of
other invoices and `invoices` with exactly the rows of another id; or one of the
two deletes fails: nothing is replied and the database is the one before the
request.  In both cases the rows of other invoices are the ones there were. -/
theorem deleteInvoice_all_or_nothing (faults : Faults) (db : Db) (n : Nat) :
    ((faults 0 = none ∧ faults 1 = none) →
      (deleteInvoice faults db n).2 = [.invoiceDeleted] ∧
      (deleteInvoice faults db n).1.invoice_items
        = db.invoice_items.filter (fun it => it.invoice_id ≠ n) ∧
      (deleteInvoice faults db n).1.invoices = db.invoices.filter (fun inv => inv.id ≠ n)) ∧
    (¬ (faults 0 = none ∧ faults 1 = none) →
      (deleteInvoice faults db n).2 = [] ∧ (deleteInvoice faults db n).1 = db) ∧
    (deleteInvoice faults db n).1.invoice_items.filter (fun it => it.invoice_id ≠ n)
      = db.invoice_items.filter (fun it => it.invoice_id ≠ n) ∧
    (deleteInvoice faults db n).1.invoices.filter (fun inv => inv.id ≠ n)
      = db.invoices.filter (fun inv => inv.id ≠ n) := by
  unfold deleteInvoice
  cases h0 : faults 0 with
  | some m0 => simp
  | none =>
    cases h1 : faults 1 with
    | some m1 => simp
    | none => simp [List.filter_filter]

theorem deleteInvoice_example :
    (deleteInvoice noFaults (saveInvoice noFaults {} exampleInvoice).1 1).2 = [.invoiceDeleted] ∧
    (deleteInvoice noFaults (saveInvoice noFaults {} exampleInvoice).1 1).1.invoices = [] ∧
    (deleteInvoice noFaults (saveInvoice noFaults {} exampleInvoice).1 1).1.invoice_items = [] ∧
    (saveInvoice noFaults {} exampleInvoice).1.invoice_items.length = 2 ∧
    (deleteInvoice (fun k => if k = 1 then some "disk I/O error" else none)
        (saveInvoice noFaults {} exampleInvoice).1 1).2 = [] ∧
    (deleteInvoice (fun k => if k = 1 then some "disk I/O error" else none)
        (saveInvoice noFaults {} exampleInvoice).1 1).1.invoice_items.length = 2 ∧
    (deleteInvoice (fun k => if k = 1 then some "disk I/O error" else none)
        (saveInvoice noFaults {} exampleInvoice).1 1).1.invoices.length = 1 := by
  decide

theorem map_setPaid_of_absent (n : Nat) :
    ∀ l : List Invoice, (∀ i ∈ l, i.id ≠ n) →
      l.map (fun (i : Invoice) => if i.id = n then { i with status := some "Paid" } else i) = l := by
  intro l h
  induction l with
  | nil => rfl
  | cons a rest ih =>
    have ha : a.id ≠ n := h a (List.mem_cons_self _ _)
    rw [List.map_cons, if_neg ha, ih (fun i hi => h i (List.mem_cons_of_mem _ hi))]

/-- C18. When no row of `invoices` has id `n`, the request mark-invoice-paid(n)
leaves the whole database as it was (so `invoices` and `transactions` too: no
transaction is inserted) and replies nothing, whether or not a statement fails. -/
theorem markInvoicePaid_not_found (faults : Faults) (today : Nat) (db : Db) (n : Nat)
    (h : ∀ i ∈ db.invoices, i.id ≠ n) :
    markInvoicePaid faults today db n = (db, []) := by
  have hmap := map_setPaid_of_absent n db.invoices h
  have hfind : db.invoices.find? (fun (i : Invoice) => i.id = n) = none := by
    rw [List.find?_eq_none]
    intro i hi
    simpa using h i hi
  unfold markInvoicePaid
  cases h0 : faults 0 with
  | some m0 => rfl
  | none =>
    simp only [hmap, hfind]
    cases h1 : faults 1 <;> rfl

theorem markInvoicePaid_not_found_witness :
    (∀ i ∈ paidExampleDb.invoices, i.id ≠ 99) ∧
    markInvoicePaid noFaults 19783 paidExampleDb 99 = (paidExampleDb, []) :=
  ⟨by decide, markInvoicePaid_not_found noFaults 19783 paidExampleDb 99 (by decide)⟩

theorem markInvoicePaid_found (today : Nat) (db : Db) (n : Nat) (inv : Invoice)
    (hmem : inv ∈ db.invoices) (hid : inv.id = n) (hpk : (db.invoices.map (·.id)).Nodup) :
    markInvoicePaid noFaults today db n = (paidDb today db n inv, [.invoicePaidSuccess]) := by
  have hfind : (List.map (fun (i : Invoice) =>
      if i.id = n then { i with status := some "Paid" } else i) db.invoices).find?
        (fun i => i.id = n) = some { inv with status := some "Paid" } :=
    find_setPaid n inv hid db.invoices hmem hpk
  simp only [markInvoicePaid, noFaults, hfind]
  rfl

theorem map_setPaid_ids (n : Nat) (l : List Invoice) :
    (l.map (setPaid n)).map (·.id) = l.map (·.id) := by
  rw [List.map_map]
  apply List.map_congr_left
  intro i _
  unfold setPaid
  simp only [Function.comp]
  split <;> rfl

theorem setPaid_setPaid (n : Nat) (i : Invoice) : setPaid n (setPaid n i) = setPaid n i := by
  unfold setPaid
  by_cases h : i.id = n
  · simp [h]
  · simp [h]

theorem markPaidTwice_eq (today : Nat) (db : Db) (n : Nat) (inv : Invoice)
    (hmem : inv ∈ db.invoices) (hid : inv.id = n) (hpk : (db.invoices.map (·.id)).Nodup) :
    (markInvoicePaid noFaults today (paidDb today db n inv) n).2 = [.invoicePaidSuccess] ∧
    markPaidTwice today db n =
      paidDb today (paidDb today db n inv) n { inv with status := some "Paid" } := by
  have hmem2 : ({ inv with status := some "Paid" } : Invoice) ∈ (paidDb today db n inv).invoices :=
    List.mem_map.mpr ⟨inv, hmem, by simp [setPaid, hid]⟩
  have hpk2 : ((paidDb today db n inv).invoices.map (·.id)).Nodup := by
    show ((db.invoices.map (setPaid n)).map (·.id)).Nodup
    rw [map_setPaid_ids]
    exact hpk
  have h2 := markInvoicePaid_found today (paidDb today db n inv) n
    { inv with status := some "Paid" } hmem2 hid hpk2
  unfold markPaidTwice
  rw [markInvoicePaid_found today db n inv hmem hid hpk]
  rw [h2]
  exact ⟨rfl, rfl⟩

theorem sum_filter_append_two (P : Transaction → Bool) (ts : List Transaction)
    (r1 r2 : Transaction) (h1 : P r1 = true) (h2 : P r2 = true) :
    (((ts ++ [r1, r2]).filter P).map (·.amount)).sum
      = ((ts.filter P).map (·.amount)).sum + r1.amount + r2.amount := by
  rw [List.filter_append, List.map_append, List.sum_append]
  simp [List.filter_cons, h1, h2, add_assoc]

theorem nextId_gt (seq : Nat) (ids : List Nat) : seq < nextId seq ids := by
  unfold nextId
  have := Nat.le_max_left seq (maxId ids)
  omega

theorem firstDayOfMonth_le_today (today : Nat) (ht : today ≤ maxDay) :
    textLe (firstDayOfMonth today) (isoDate today) := by
  obtain ⟨a1, a2, a3, a4, a5, a6⟩ := civil_valid today ht
  rw [firstDayOfMonth_eq today ht]
  unfold isoDate
  rw [isoOfYMD_le_iff _ _ _ _ _ _ a2 a2 (by omega) (by omega) (by omega) (by omega)]
  right
  exact ⟨rfl, Or.inr ⟨rfl, a5⟩⟩

theorem sum_filter_append_two_out (P : Transaction → Bool) (ts : List Transaction)
    (r1 r2 : Transaction) (h1 : P r1 = false) (h2 : P r2 = false) :
    (((ts ++ [r1, r2]).filter P).map (·.amount)).sum = ((ts.filter P).map (·.amount)).sum := by
  rw [List.filter_append, List.map_append, List.sum_append]
  simp [List.filter_cons, h1, h2]

theorem firstDayOfMonth_le_of_le (localDay today : Nat) (h : localDay ≤ today)
    (ht : today ≤ maxDay) : textLe (firstDayOfMonth localDay) (isoDate today) := by
  have h1 := firstDayOfMonth_le_today localDay (le_trans h ht)
  have h2 := (isoDate_le_iff (le_trans h ht) ht).mpr h
  unfold textLe at *
  exact le_trans h1 h2

theorem markPaidTwice_transactions (today : Nat) (db : Db) (n : Nat) (inv : Invoice)
    (hmem : inv ∈ db.invoices) (hid : inv.id = n) (hpk : (db.invoices.map (·.id)).Nodup) :
    (markPaidTwice today db n).transactions = db.transactions ++
      [paymentRow today db inv,
       paymentRow today (paidDb today db n inv) { inv with status := some "Paid" }] := by
  obtain ⟨_, h3⟩ := markPaidTwice_eq today db n inv hmem hid hpk
  rw [h3]
  show (db.transactions ++ [paymentRow today db inv]) ++ [_] = _
  rw [List.append_assoc]
  rfl

/-- The revenue of the dashboard after two payments made on the UTC day `today`,
read on the local day `localDay`: it has grown by twice the total when the date
of the payments is not before the first day of the local month, and not at all
otherwise. -/
theorem dashboardRevenue_markPaidTwice (today localDay : Nat) (db : Db) (n : Nat)
    (inv : Invoice) (hmem : inv ∈ db.invoices) (hid : inv.id = n)
    (hpk : (db.invoices.map (·.id)).Nodup) :
    (textLe (firstDayOfMonth localDay) (isoDate today) →
      dashboardRevenue localDay (markPaidTwice today db n) inv.business_id
        = dashboardRevenue localDay db inv.business_id + 2 * inv.total_amount) ∧
    (¬ textLe (firstDayOfMonth localDay) (isoDate today) →
      dashboardRevenue localDay (markPaidTwice today db n) inv.business_id
        = dashboardRevenue localDay db inv.business_id) := by
  have htx := markPaidTwice_transactions today db n inv hmem hid hpk
  constructor
  · intro hle
    unfold dashboardRevenue
    rw [orZero_monthTotalQuery, orZero_monthTotalQuery, htx,
      sum_filter_append_two _ _ _ _ (by simp [paymentRow, hle]) (by simp [paymentRow, hle])]
    simp only [paymentRow]
    ring
  · intro hle
    unfold dashboardRevenue
    rw [orZero_monthTotalQuery, orZero_monthTotalQuery, htx,
      sum_filter_append_two_out _ _ _ _ (by simp [paymentRow, hle])
        (by simp [paymentRow, hle])]

/-- C19 (counterexample). Two payments of the invoice 1 (total 110) made at a
moment when the UTC date is 2024-02-29 (day 19782) and the local date is
2024-03-01 (day 19783), as in a zone ahead of UTC shortly after local midnight:
both transactions are dated 2024-02-29, the first day of the month of the
dashboard is 2024-03-01, and the revenue of the dashboard is what it was
before, 0: the total is not counted in it. -/
theorem paid_twice_outside_revenue :
    isoDate 19782 = "2024-02-29" ∧ firstDayOfMonth 19783 = "2024-03-01" ∧
    (markPaidTwice 19782 paidExampleDb 1).transactions.map (fun t => (t.date, t.type))
      = [("2024-02-29", "Income"), ("2024-02-29", "Income")] ∧
    dashboardRevenue 19783 paidExampleDb 1 = 0 ∧
    dashboardRevenue 19783 (markPaidTwice 19782 paidExampleDb 1) 1 = 0 ∧
    dashboardRevenue 19783 (markPaidTwice 19782 paidExampleDb 1) 1
      ≠ dashboardRevenue 19783 paidExampleDb 1 + 2 * paidExampleInvoice.total_amount := by
  have h0 : dashboardRevenue 19783 paidExampleDb 1 = 0 := by
    simp [dashboardRevenue, monthTotalQuery, paidExampleDb, sqlSum, orZero]
  have h2 : dashboardRevenue 19783 (markPaidTwice 19782 paidExampleDb 1) 1
      = dashboardRevenue 19783 paidExampleDb 1 :=
    (dashboardRevenue_markPaidTwice 19782 19783 paidExampleDb 1 paidExampleInvoice
      (by simp [paidExampleInvoice, paidExampleDb]) rfl (by decide)).2 (by decide)
  refine ⟨by decide, by decide, by decide, h0, by rw [h2, h0], ?_⟩
  rw [h2, h0]
  simp [paidExampleInvoice]

/-- C19 (amended). On a database whose `invoices` table (ids unique) holds an
invoice `inv` with id `n`, whatever its status, two requests mark-invoice-paid(n)
in a row both reply invoice-paid-success; afterwards the invoice is Paid and
`transactions` has gained two rows, with different ids, both of type Income, of
amount `inv.total_amount`, of the business of the invoice and dated with the
UTC date `today` of the requests; the income of the financial report of that
business has grown by twice the total of the invoice.  The revenue of the
dashboard, read on the local date `localDay`, has grown by twice the total when
the date of the payments is not before the first day of the local month, which
is the case whenever the local date is not ahead of the UTC date; otherwise it
has not changed. -/
theorem markInvoicePaid_twice (today localDay : Nat) (db : Db) (n : Nat) (inv : Invoice)
    (hmem : inv ∈ db.invoices) (hid : inv.id = n) (hpk : (db.invoices.map (·.id)).Nodup) :
    (markInvoicePaid noFaults today db n).2 = [.invoicePaidSuccess] ∧
    (markInvoicePaid noFaults today (markInvoicePaid noFaults today db n).1 n).2
      = [.invoicePaidSuccess] ∧
    { inv with status := some "Paid" } ∈ (markPaidTwice today db n).invoices ∧
    (∀ i ∈ (markPaidTwice today db n).invoices, i.id = n → i.status = some "Paid") ∧
    (∃ row1 row2 : Transaction,
      (markPaidTwice today db n).transactions = db.transactions ++ [row1, row2] ∧
      row1.id ≠ row2.id ∧ row1.type = "Income" ∧ row2.type = "Income" ∧
      row1.amount = inv.total_amount ∧ row2.amount = inv.total_amount ∧
      row1.business_id = inv.business_id ∧ row2.business_id = inv.business_id ∧
      row1.date = isoDate today ∧ row2.date = isoDate today) ∧
    (∃ r0 r2 : FinancialReport,
      getFinancialReports noFaults db { businessId := inv.business_id } = .ok r0 ∧
      getFinancialReports noFaults (markPaidTwice today db n) { businessId := inv.business_id }
        = .ok r2 ∧
      r2.income = r0.income + 2 * inv.total_amount) ∧
    (textLe (firstDayOfMonth localDay) (isoDate today) →
      dashboardRevenue localDay (markPaidTwice today db n) inv.business_id
        = dashboardRevenue localDay db inv.business_id + 2 * inv.total_amount) ∧
    (¬ textLe (firstDayOfMonth localDay) (isoDate today) →
      dashboardRevenue localDay (markPaidTwice today db n) inv.business_id
        = dashboardRevenue localDay db inv.business_id) ∧
    (localDay ≤ today → today ≤ maxDay →
      textLe (firstDayOfMonth localDay) (isoDate today)) := by
  have h1 := markInvoicePaid_found today db n inv hmem hid hpk
  obtain ⟨h2, h3⟩ := markPaidTwice_eq today db n inv hmem hid hpk
  have htx := markPaidTwice_transactions today db n inv hmem hid hpk
  have hrev := dashboardRevenue_markPaidTwice today localDay db n inv hmem hid hpk
  have hinv : (markPaidTwice today db n).invoices = db.invoices.map (setPaid n) := by
    rw [h3]
    show (db.invoices.map (setPaid n)).map (setPaid n) = _
    rw [List.map_map]
    apply List.map_congr_left
    intro i _
    exact setPaid_setPaid n i
  refine ⟨by rw [h1], by rw [h1]; exact h2, ?_, ?_,
    ⟨_, _, htx, ?_, rfl, rfl, rfl, rfl, rfl, rfl, rfl, rfl⟩,
    ⟨_, _, rfl, rfl, ?_⟩, hrev.1, hrev.2, firstDayOfMonth_le_of_le localDay today⟩
  · rw [hinv]
    exact List.mem_map.mpr ⟨inv, hmem, by simp [setPaid, hid]⟩
  · intro i hi hin
    rw [hinv] at hi
    obtain ⟨j, _, rfl⟩ := List.mem_map.mp hi
    unfold setPaid at hin ⊢
    by_cases hj : j.id = n
    · simp [hj]
    · simp [hj] at hin
  · have := nextId_gt (nextId db.seq_transactions (db.transactions.map (·.id)))
      ((db.transactions ++ [paymentRow today db inv]).map (·.id))
    show nextId db.seq_transactions (db.transactions.map (·.id))
      ≠ nextId (nextId db.seq_transactions (db.transactions.map (·.id)))
          ((db.transactions ++ [paymentRow today db inv]).map (·.id))
    omega
  · show orZero _ = orZero _ + 2 * inv.total_amount
    rw [orZero_sum_case, orZero_sum_case]
    have hrows : reportRows (markPaidTwice today db n) { businessId := inv.business_id }
        = reportRows db { businessId := inv.business_id } ++
          [paymentRow today db inv,
           paymentRow today (paidDb today db n inv) { inv with status := some "Paid" }] := by
      unfold reportRows
      rw [htx, List.filter_append]
      simp [paymentRow, monthWindow, inWindow]
    rw [hrows, sum_filter_append_two _ _ _ _ (by simp [paymentRow]) (by simp [paymentRow])]
    simp only [paymentRow]
    ring

theorem markInvoicePaid_twice_witness :
    paidExampleInvoice ∈ paidExampleDb.invoices ∧ paidExampleInvoice.id = 1 ∧
    (paidExampleDb.invoices.map (·.id)).Nodup ∧
    (markInvoicePaid noFaults 19783 paidExampleDb 1).2 = [.invoicePaidSuccess] ∧
    (markInvoicePaid noFaults 19783 (markInvoicePaid noFaults 19783 paidExampleDb 1).1 1).2
      = [.invoicePaidSuccess] ∧
    dashboardRevenue 19783 (markPaidTwice 19783 paidExampleDb 1) paidExampleInvoice.business_id
      = dashboardRevenue 19783 paidExampleDb paidExampleInvoice.business_id
        + 2 * paidExampleInvoice.total_amount :=
  ⟨by simp [paidExampleInvoice, paidExampleDb], rfl, by decide,
   (markInvoicePaid_twice 19783 19783 paidExampleDb 1 paidExampleInvoice
     (by simp [paidExampleInvoice, paidExampleDb]) rfl (by decide)).1,
   (markInvoicePaid_twice 19783 19783 paidExampleDb 1 paidExampleInvoice
     (by simp [paidExampleInvoice, paidExampleDb]) rfl (by decide)).2.1,
   (markInvoicePaid_twice 19783 19783 paidExampleDb 1 paidExampleInvoice
     (by simp [paidExampleInvoice, paidExampleDb]) rfl (by decide)).2.2.2.2.2.2.1
     (by decide)⟩

theorem markPaidTwice_example :
    (markPaidTwice 19783 paidExampleDb 1).transactions.map
        (fun t => (t.id, t.date, t.type, t.account_id))
      = [(1, "2024-03-01", "Income", some 1), (2, "2024-03-01", "Income", some 1)] ∧
    (markPaidTwice 19783 paidExampleDb 1).invoices.map (fun i => (i.id, i.status))
      = [(1, some "Paid"), (2, some "Paid")] := by
  decide

/-! ## get-transactions -/

theorem leftJoinNames_singleton {α : Type} (rows : List α) (isMatch : α → Bool)
    (name : α → String) (h : (rows.filter isMatch).length ≤ 1) :
    ∃ x, leftJoinNames rows isMatch name = [x] := by
  unfold leftJoinNames
  cases hf : rows.filter isMatch with
  | nil => exact ⟨none, rfl⟩
  | cons a rest =>
    rw [hf] at h
    have hrest : rest = [] := by
      cases rest with
      | nil => rfl
      | cons b more => simp at h
    subst hrest
    exact ⟨some (name a), rfl⟩

theorem match_by_id_le_one {α : Type} (key : α → Nat) (rows : List α) (ref : Option Nat)
    (hpk : (rows.map key).Nodup) :
    (rows.filter fun r => decide (ref = some (key r))).length ≤ 1 := by
  cases ref with
  | none => simp
  | some k =>
    apply filter_length_le_one key _ k _ _ hpk
    intro a ha
    simp only [decide_eq_true_eq] at ha
    exact (Option.some.inj ha).symm

theorem flatMap_map_singleton {α β : Type} (f : α → List β) (g : β → α)
    (h : ∀ a, (f a).map g = [a]) : ∀ l : List α, (l.flatMap f).map g = l := by
  intro l
  induction l with
  | nil => rfl
  | cons a rest ih => rw [List.flatMap_cons, List.map_append, h a, ih]; rfl

theorem transactionsJoin_map_t (db : Db) (hacc : (db.accounts.map (·.id)).Nodup)
    (hcli : (db.clients.map (·.id)).Nodup) :
    (transactionsJoin db).map (·.t) = db.transactions := by
  unfold transactionsJoin
  apply flatMap_map_singleton
  intro t
  obtain ⟨an, han⟩ := leftJoinNames_singleton db.accounts
    (fun a => decide (t.account_id = some a.id)) (·.name)
    (match_by_id_le_one (·.id) db.accounts t.account_id hacc)
  obtain ⟨cn, hcn⟩ := leftJoinNames_singleton db.clients
    (fun c => decide (t.client_id = some c.id)) (·.name)
    (match_by_id_le_one (·.id) db.clients t.client_id hcli)
  rw [han, hcn]
  rfl

theorem mem_transactionsJoin (db : Db) (r : TransactionRow) (h : r ∈ transactionsJoin db) :
    r.t ∈ db.transactions := by
  unfold transactionsJoin at h
  simp only [List.mem_flatMap, List.mem_map] at h
  obtain ⟨t, ht, _, _, _, _, rfl⟩ := h
  exact ht

/-- C12. With account and client ids unique (the primary keys), get-transactions
replies at most 100 rows, all of them transactions of business `b` (inside the
window, when there is one), ordered by date descending and then by id
descending; and these rows are the first 100 (or all, if there are fewer) of a
list that holds exactly the matching transactions, in that order. -/
theorem getTransactions_spec (db : Db) (data : ReportRequest)
    (hacc : (db.accounts.map (·.id)).Nodup) (hcli : (db.clients.map (·.id)).Nodup) :
    getTransactions noFaults db data = [.transactionsData (transactionsQuery db data)] ∧
    (transactionsQuery db data).length ≤ 100 ∧
    (∀ r ∈ transactionsQuery db data, r.t ∈ db.transactions ∧
      r.t.business_id = data.businessId ∧
      inWindow (monthWindow data.month data.year) r.t.date = true) ∧
    (transactionsQuery db data).Pairwise (fun x y => newestFirst x.t y.t) ∧
    ∃ full : List Transaction,
      full.Perm (db.transactions.filter (matchesRequest data)) ∧
      full.Pairwise newestFirst ∧
      (transactionsQuery db data).map (·.t) = full.take 100 := by
  have hsorted : (transactionsSorted db data).Pairwise rowNewestFirst :=
    List.sorted_insertionSort rowNewestFirst _
  refine ⟨rfl, ?_, ?_, ?_, ⟨(transactionsSorted db data).map (·.t), ?_, ?_, ?_⟩⟩
  · unfold transactionsQuery
    rw [List.length_take]
    exact Nat.min_le_left _ _
  · intro r hr
    have hr2 : r ∈ transactionsSorted db data := List.mem_of_mem_take hr
    obtain ⟨hj, hm⟩ := (mem_transactionsSorted db data r).mp hr2
    unfold matchesRequest at hm
    simp only [Bool.decide_and, Bool.and_eq_true, decide_eq_true_eq] at hm
    exact ⟨mem_transactionsJoin db r hj, hm.1, hm.2⟩
  · exact List.Pairwise.sublist (List.take_sublist _ _) hsorted
  · have hperm : (transactionsSorted db data).Perm
        ((transactionsJoin db).filter fun r => matchesRequest data r.t) :=
      List.perm_insertionSort _ _
    have h1 := hperm.map (·.t)
    have h2 : ((transactionsJoin db).filter fun r => matchesRequest data r.t).map (·.t)
        = db.transactions.filter (matchesRequest data) := by
      rw [← transactionsJoin_map_t db hacc hcli, List.filter_map]
      rfl
    rw [h2] at h1
    exact h1
  · rw [List.pairwise_map]
    exact hsorted
  · unfold transactionsQuery
    rw [List.map_take]

theorem getTransactions_spec_witness :
    (taxExampleDb.accounts.map (·.id)).Nodup ∧ (taxExampleDb.clients.map (·.id)).Nodup ∧
    (getTransactions noFaults taxExampleDb { businessId := 1 }
      = [.transactionsData (transactionsQuery taxExampleDb { businessId := 1 })] ∧
    (transactionsQuery taxExampleDb { businessId := 1 }).length ≤ 100 ∧
    (∀ r ∈ transactionsQuery taxExampleDb { businessId := 1 }, r.t ∈ taxExampleDb.transactions ∧
      r.t.business_id = ({ businessId := 1 } : ReportRequest).businessId ∧
      inWindow (monthWindow ({ businessId := 1 } : ReportRequest).month
        ({ businessId := 1 } : ReportRequest).year) r.t.date = true) ∧
    (transactionsQuery taxExampleDb { businessId := 1 }).Pairwise
      (fun x y => newestFirst x.t y.t) ∧
    ∃ full : List Transaction,
      full.Perm (taxExampleDb.transactions.filter (matchesRequest { businessId := 1 })) ∧
      full.Pairwise newestFirst ∧
      (transactionsQuery taxExampleDb { businessId := 1 }).map (·.t) = full.take 100) :=
  ⟨by decide, by decide,
   getTransactions_spec taxExampleDb { businessId := 1 } (by decide) (by decide)⟩

theorem getTransactions_example :
    (transactionsQuery taxExampleDb { businessId := 1 }).map
        (fun r => (r.t.id, r.t.date, r.account_name))
      = [(6, "2024-03-06", none), (5, "2024-03-05", some "Misc"),
         (4, "2024-03-04", some "Office Supplies"), (3, "2024-03-03", some "Rent"),
         (2, "2024-03-02", some "Software"), (1, "2024-03-01", some "Sales")] ∧
    (transactionsQuery longLedgerDb { businessId := 1 }).length = 100 ∧
    ((transactionsQuery longLedgerDb { businessId := 1 }).map (·.t.id)).head? = some 101 ∧
    ((transactionsQuery longLedgerDb { businessId := 1 }).map (·.t.id)).getLast? = some 2 := by
  decide

/-! ## save-product -/

theorem le_maxId (ids : List Nat) : ∀ i ∈ ids, i ≤ maxId ids := by
  induction ids with
  | nil => intro i hi; simp at hi
  | cons a rest ih =>
    intro i hi
    unfold maxId
    rw [List.foldr_cons]
    rcases List.mem_cons.mp hi with h | h
    · rw [h]
      exact Nat.le_max_left _ _
    · exact le_trans (ih i h) (Nat.le_max_right _ _)

theorem nextId_not_mem (seq : Nat) (ids : List Nat) : nextId seq ids ∉ ids := by
  intro h
  have h1 := le_maxId ids _ h
  unfold nextId at h1
  have := Nat.le_max_right seq (maxId ids)
  omega

/-- C15 (counterexample). On an empty `products` table, save-product with the id
5 replies `{ success: true }`: the `UPDATE` matches no row and succeeds, and the
table holds no row carrying the submitted name afterwards. -/
theorem saveProduct_unknown_id :
    (saveProduct noFaults {} staleProduct).2 = [.productSaved none] ∧
    (saveProduct noFaults {} staleProduct).1.products = [] ∧
    ¬ ∃ p ∈ (saveProduct noFaults {} staleProduct).1.products, some p.name = staleProduct.name := by
  refine ⟨by decide, by decide, ?_⟩
  rintro ⟨p, hp, _⟩
  have h : (saveProduct noFaults {} staleProduct).1.products = [] := by decide
  rw [h] at hp
  exact List.not_mem_nil p hp

/-- C15 (amended). For every save-product request that replies
`{ success: true }`: when a non-zero id is supplied the table keeps its rows one
for one, the row of that id (if there is one) keeping its id and `business_id`
and carrying the submitted name, type, price and description, every other row
unchanged; when no id (or the id 0) is supplied the table gains exactly one row,
with a new id and the submitted `business_id`, name, type, price and
description. -/
theorem saveProduct_success (faults : Faults) (db : Db) (prod : ProductPayload)
    (h : (saveProduct faults db prod).2 = [.productSaved none]) :
    (∀ id, truthyId prod.id = some id →
      List.Forall₂ (updatedAs id prod) db.products (saveProduct faults db prod).1.products) ∧
    (truthyId prod.id = none →
      ∃ row : Product, (saveProduct faults db prod).1.products = db.products ++ [row] ∧
        row.id ∉ db.products.map (·.id) ∧ some row.business_id = prod.business_id ∧
        some row.name = prod.name ∧ row.type = prod.type ∧ row.price = prod.price ∧
        row.description = prod.description) := by
  constructor
  · intro id hid
    unfold saveProduct at h ⊢
    simp only [hid] at h ⊢
    unfold updateProduct at h ⊢
    cases hf : faults 0 with
    | some msg => simp [hf] at h
    | none =>
      cases hn : prod.name with
      | some name =>
        simp only [hf, hn]
        rw [List.forall₂_map_right_iff, List.forall₂_same]
        intro p _
        unfold updatedAs
        by_cases hp : p.id = id
        · simp [hp, hn]
        · simp [hp]
      | none =>
        simp only [hf, hn] at h ⊢
        by_cases hany : db.products.any (fun p => p.id = id) = true
        · simp [hany] at h
        · simp only [hany, Bool.false_eq_true, if_false]
          rw [List.forall₂_same]
          intro p hp
          unfold updatedAs
          have hne : p.id ≠ id := by
            intro he
            apply hany
            exact List.any_eq_true.mpr ⟨p, hp, by simp [he]⟩
          simp [hne]
  · intro hid
    unfold saveProduct at h ⊢
    simp only [hid] at h ⊢
    unfold insertProduct at h ⊢
    cases hf : faults 0 with
    | some msg => simp [hf] at h
    | none =>
      cases hb : prod.business_id with
      | none => simp [hf, hb] at h
      | some b =>
        cases hn : prod.name with
        | none => simp [hf, hb, hn] at h
        | some name =>
          simp only [hf, hb, hn]
          exact ⟨_, rfl, nextId_not_mem _ _, rfl, rfl, rfl, rfl, rfl⟩

theorem saveProduct_success_witness :
    (saveProduct noFaults productsExampleDb
        { staleProduct with id := some 2 }).2 = [.productSaved none] ∧
    ((∀ id, truthyId ({ staleProduct with id := some 2 } : ProductPayload).id = some id →
      List.Forall₂ (updatedAs id { staleProduct with id := some 2 }) productsExampleDb.products
        (saveProduct noFaults productsExampleDb { staleProduct with id := some 2 }).1.products) ∧
    (truthyId ({ staleProduct with id := some 2 } : ProductPayload).id = none →
      ∃ row : Product,
        (saveProduct noFaults productsExampleDb { staleProduct with id := some 2 }).1.products
          = productsExampleDb.products ++ [row] ∧
        row.id ∉ productsExampleDb.products.map (·.id) ∧
        some row.business_id = ({ staleProduct with id := some 2 } : ProductPayload).business_id ∧
        some row.name = ({ staleProduct with id := some 2 } : ProductPayload).name ∧
        row.type = ({ staleProduct with id := some 2 } : ProductPayload).type ∧
        row.price = ({ staleProduct with id := some 2 } : ProductPayload).price ∧
        row.description = ({ staleProduct with id := some 2 } : ProductPayload).description)) :=
  ⟨by decide,
   saveProduct_success noFaults productsExampleDb { staleProduct with id := some 2 }
     (by decide)⟩

theorem saveProduct_example :
    (saveProduct noFaults productsExampleDb { staleProduct with id := some 2 }).1.products
      = [{ id := 1, business_id := 1, name := "Audit", price := some 100 },
         { id := 2, business_id := 1, name := "Logo", type := some "Service",
           price := some 300 }] ∧
    (saveProduct noFaults productsExampleDb { staleProduct with id := none }).1.products
      = [{ id := 1, business_id := 1, name := "Audit", price := some 100 },
         { id := 2, business_id := 1, name := "Banner", type := some "Product",
           price := some 20 },
         { id := 3, business_id := 1, name := "Logo", type := some "Service",
           price := some 300 }] ∧
    (saveProduct noFaults productsExampleDb { staleProduct with id := some 0 }).1.products.length
      = 3 ∧
    (saveProduct noFaults productsExampleDb { staleProduct with name := none, id := some 2 }).2
      = [.productSaved (some "SQLITE_CONSTRAINT: NOT NULL constraint failed: products.name")] := by
  decide

/-! ## The activity log on create -/

/-- C16 (counterexample). A successful save-lead on an empty database replies
lead-saved and stores the lead, and the activity log has no row afterwards: no
row referring to the lead was appended. -/
theorem saveLead_writes_no_log :
    (saveLead noFaults {} exampleLead).2 = [.leadSaved] ∧
    (saveLead noFaults {} exampleLead).1.leads.length = 1 ∧
    (saveLead noFaults {} exampleLead).1.client_activities = [] ∧
    ¬ ∃ row : ClientActivity, (saveLead noFaults {} exampleLead).1.client_activities
        = ({} : Db).client_activities ++ [row] := by
  refine ⟨by decide, by decide, by decide, ?_⟩
  rintro ⟨row, h⟩
  have h0 : (saveLead noFaults {} exampleLead).1.client_activities = [] := by decide
  rw [h0] at h
  simp at h

/-- C16 (amended). A save-client that replies client-saved appends exactly one
client row, with a new id, and, provided the insert into the log does not fail,
appends exactly one row to `client_activities`, carrying that id and the action
'Client created', every earlier log row kept in place; when the insert into the
log fails the reply is the same and the log is unchanged.  A save-lead writes
the `leads` table only: it appends no log row. -/
theorem create_log_rows (faults : Faults) (db : Db) :
    (∀ client, (saveClient faults db client).2 = [.clientSaved] →
      newClientId db ∉ db.clients.map (·.id) ∧
      (∃ row : Client, (saveClient faults db client).1.clients = db.clients ++ [row] ∧
        row.id = newClientId db ∧ some row.name = client.name) ∧
      (faults 1 = none →
        (saveClient faults db client).1.client_activities = db.client_activities ++
          [{ id := nextId db.seq_client_activities (db.client_activities.map (·.id)),
             client_id := newClientId db, action := "Client created" }]) ∧
      (faults 1 ≠ none →
        (saveClient faults db client).1.client_activities = db.client_activities)) ∧
    (∀ lead, ∃ leads seq,
      (saveLead faults db lead).1 = { db with leads := leads, seq_leads := seq }) := by
  constructor
  · intro client h
    refine ⟨nextId_not_mem _ _, ?_⟩
    unfold saveClient at h ⊢
    cases h0 : faults 0 with
    | some msg => simp [h0] at h
    | none =>
      cases hb : client.business_id with
      | none => simp [h0, hb] at h
      | some b =>
        cases hn : client.name with
        | none => simp [h0, hb, hn] at h
        | some name =>
          simp only [h0, hb, hn]
          refine ⟨?_, ?_, ?_⟩
          · cases h1 : faults 1 with
            | none => exact ⟨_, rfl, rfl, rfl⟩
            | some m => exact ⟨_, rfl, rfl, rfl⟩
          · intro h1
            rw [h1]
            rfl
          · intro h1
            cases h1' : faults 1 with
            | none => exact absurd h1' h1
            | some m => rfl
  · intro lead
    unfold saveLead
    cases h0 : faults 0 with
    | some msg => exact ⟨db.leads, db.seq_leads, rfl⟩
    | none =>
      cases hn : lead.name with
      | none => exact ⟨db.leads, db.seq_leads, rfl⟩
      | some name => exact ⟨_, _, rfl⟩

theorem create_log_rows_witness :
    (saveClient noFaults {} exampleClient).2 = [.clientSaved] ∧ noFaults 1 = none ∧
    (saveClient noFaults {} exampleClient).1.client_activities
      = [{ id := 1, client_id := 1, action := "Client created" }] ∧
    (saveClient secondFails {} exampleClient).2 = [.clientSaved] ∧
    (saveClient secondFails {} exampleClient).1.client_activities = [] :=
  ⟨by decide, rfl,
   ((create_log_rows noFaults {}).1 exampleClient (by decide)).2.2.1 rfl, by decide, by decide⟩

/-! ## Failing statements and what the caller receives -/

/-- C14 (counterexample). save-client with a missing name: the `INSERT` fails on
the `NOT NULL` constraint, nothing is stored, and the caller receives no
response at all. -/
theorem saveClient_failure_no_reply :
    namelessClient.name = none ∧
    saveClient noFaults {} namelessClient = ({}, []) ∧
    ¬ ∃ r, r ∈ (saveClient noFaults {} namelessClient).2 := by
  refine ⟨rfl, by decide, ?_⟩
  rintro ⟨r, hr⟩
  have h : (saveClient noFaults {} namelessClient).2 = [] := by decide
  rw [h] at hr
  exact List.not_mem_nil r hr

theorem saveClient_replies (faults : Faults) (db : Db) (client : ClientPayload) :
    (saveClient faults db client).2 = [] ∨ (saveClient faults db client).2 = [.clientSaved] := by
  unfold saveClient
  cases faults 0 <;> cases client.business_id <;> cases client.name <;> simp

theorem saveLead_replies (faults : Faults) (db : Db) (lead : LeadPayload) :
    (saveLead faults db lead).2 = [] ∨ (saveLead faults db lead).2 = [.leadSaved] := by
  unfold saveLead
  cases faults 0 <;> cases lead.name <;> simp

theorem deleteInvoice_replies (faults : Faults) (db : Db) (n : Nat) :
    (deleteInvoice faults db n).2 = [] ∨ (deleteInvoice faults db n).2 = [.invoiceDeleted] := by
  unfold deleteInvoice
  cases faults 0 <;> cases faults 1 <;> simp

theorem markInvoicePaid_replies (faults : Faults) (today : Nat) (db : Db) (n : Nat) :
    ((markInvoicePaid faults today db n).2 = [] ∨
      (markInvoicePaid faults today db n).2 = [.invoicePaidSuccess]) ∧
    ((faults 0 ≠ none ∨ faults 1 ≠ none ∨ faults 3 ≠ none) →
      (markInvoicePaid faults today db n).2 = []) := by
  unfold markInvoicePaid
  cases h0 : faults 0 with
  | some m => simp
  | none =>
    cases h1 : faults 1 with
    | some m => simp
    | none =>
      cases hf : (db.invoices.map fun (i : Invoice) =>
          if i.id = n then { i with status := some "Paid" } else i).find?
          (fun (i : Invoice) => i.id = n) with
      | none => simp [hf]
      | some inv =>
        cases h3 : faults 3 with
        | some m => simp [hf]
        | none => simp [hf]

/-- C14 (amended). Among the handlers of this development a failing statement
is answered with a response carrying the error by save-product (product-saved
with the error), by save-invoice when the header insert fails
(invoice-save-error, the database being rolled back), and by
get-financial-reports and get-tax-report (the error field).  No reply of
save-client, save-lead, get-transactions, delete-invoice or mark-invoice-paid
ever carries an error, and none of save-invoice after a successful header
insert.  When the insert of save-client or of save-lead fails (an engine
failure or a missing required value), when the query of get-transactions fails,
when a delete of delete-invoice fails, or when the update, the invoice query or
the insert of mark-invoice-paid fails, nothing is replied; a save-client whose
insert succeeds replies client-saved also when its log insert fails. -/
theorem failure_replies (faults : Faults) (db : Db) :
    (∀ prod id msg, truthyId prod.id = some id →
      updateProduct (faults 0) db.products id prod = .error msg →
        saveProduct faults db prod = (db, [.productSaved (some msg)])) ∧
    (∀ prod msg, truthyId prod.id = none → insertProduct (faults 0) db prod = .error msg →
      saveProduct faults db prod = (db, [.productSaved (some msg)])) ∧
    (∀ data msg, insertInvoice (faults 0) db data (total_amount data.items) = .error msg →
      saveInvoice faults db data = (db, [.invoiceSaveError msg])) ∧
    (∀ data msg, faults 0 = some msg → getFinancialReports faults db data = .error msg) ∧
    (∀ b msg, faults 0 = some msg → getTaxReportReply faults db b = .error msg) ∧
    (∀ data db1 id, insertInvoice (faults 0) db data (total_amount data.items) = .ok (db1, id) →
      ∀ r ∈ (saveInvoice faults db data).2, carriesError r = false) ∧
    (∀ client, ∀ r ∈ (saveClient faults db client).2, carriesError r = false) ∧
    (∀ lead, ∀ r ∈ (saveLead faults db lead).2, carriesError r = false) ∧
    (∀ data, ∀ r ∈ getTransactions faults db data, carriesError r = false) ∧
    (∀ n, ∀ r ∈ (deleteInvoice faults db n).2, carriesError r = false) ∧
    (∀ today n, ∀ r ∈ (markInvoicePaid faults today db n).2, carriesError r = false) ∧
    (∀ client, faults 0 ≠ none ∨ client.business_id = none ∨ client.name = none →
      saveClient faults db client = (db, [])) ∧
    (∀ client, faults 0 = none → client.business_id ≠ none → client.name ≠ none →
      (saveClient faults db client).2 = [.clientSaved]) ∧
    (∀ lead, faults 0 ≠ none ∨ lead.name = none → saveLead faults db lead = (db, [])) ∧
    (∀ data, faults 0 ≠ none → getTransactions faults db data = []) ∧
    (∀ n, faults 0 ≠ none ∨ faults 1 ≠ none → deleteInvoice faults db n = (db, [])) ∧
    (∀ today n, faults 0 ≠ none ∨ faults 1 ≠ none ∨ faults 3 ≠ none →
      (markInvoicePaid faults today db n).2 = []) := by
  refine ⟨?_, ?_, ?_, ?_, ?_, ?_, ?_, ?_, ?_, ?_, ?_, ?_, ?_, ?_, ?_, ?_, ?_⟩
  · intro prod id msg hid h
    unfold saveProduct
    simp only [hid, h]
  · intro prod msg hid h
    unfold saveProduct
    simp only [hid, h]
  · intro data msg h
    unfold saveInvoice saveInvoiceWith
    simp only [h]
  · intro data msg h
    unfold getFinancialReports
    simp [h]
  · intro b msg h
    unfold getTaxReportReply
    simp [h]
  · intro data db1 id h r hr
    rw [(saveInvoice_header_ok faults db db1 data id h).1] at hr
    cases hl : lastRunFails faults data.items <;> simp [hl] at hr
    subst hr
    rfl
  · intro client r hr
    rcases saveClient_replies faults db client with h | h <;> rw [h] at hr <;> simp at hr
    subst hr
    rfl
  · intro lead r hr
    rcases saveLead_replies faults db lead with h | h <;> rw [h] at hr <;> simp at hr
    subst hr
    rfl
  · intro data r hr
    unfold getTransactions at hr
    cases h0 : faults 0 <;> simp [h0] at hr
    subst hr
    rfl
  · intro n r hr
    rcases deleteInvoice_replies faults db n with h | h <;> rw [h] at hr <;> simp at hr
    subst hr
    rfl
  · intro today n r hr
    rcases (markInvoicePaid_replies faults today db n).1 with h | h <;> rw [h] at hr <;>
      simp at hr
    subst hr
    rfl
  · intro client h
    unfold saveClient
    cases h0 : faults 0 <;> cases hb : client.business_id <;> cases hn : client.name <;>
      simp [h0, hb, hn] at h ⊢
  · intro client h0 hb hn
    unfold saveClient
    cases hb1 : client.business_id with
    | none => exact absurd hb1 hb
    | some b =>
      cases hn1 : client.name with
      | none => exact absurd hn1 hn
      | some name => simp [h0]
  · intro lead h
    unfold saveLead
    cases h0 : faults 0 <;> cases hn : lead.name <;> simp [h0, hn] at h ⊢
  · intro data h
    unfold getTransactions
    cases h0 : faults 0 with
    | none => exact absurd h0 h
    | some m => rfl
  · intro n h
    unfold deleteInvoice
    cases h0 : faults 0 <;> cases h1 : faults 1 <;> simp [h0, h1] at h ⊢
  · intro today n h
    exact (markInvoicePaid_replies faults today db n).2 h

theorem failure_replies_witness :
    insertProduct (firstFails 0) productsExampleDb { staleProduct with id := none }
      = .error "SQLITE_IOERR: disk I/O error" ∧
    saveProduct firstFails productsExampleDb { staleProduct with id := none }
      = (productsExampleDb, [.productSaved (some "SQLITE_IOERR: disk I/O error")]) ∧
    insertInvoice (noFaults 0) {} numberlessInvoice (total_amount numberlessInvoice.items)
      = .error "SQLITE_CONSTRAINT: NOT NULL constraint failed: invoices.invoice_number" ∧
    saveInvoice noFaults {} numberlessInvoice
      = ({}, [.invoiceSaveError
          "SQLITE_CONSTRAINT: NOT NULL constraint failed: invoices.invoice_number"]) ∧
    saveClient firstFails productsExampleDb exampleClient = (productsExampleDb, []) ∧
    fourthFails 3 ≠ none ∧
    (markInvoicePaid fourthFails 19783 paidExampleDb 1).2 = [] :=
  ⟨rfl,
   (failure_replies firstFails productsExampleDb).2.1 _ _ rfl rfl,
   rfl,
   (failure_replies noFaults {}).2.2.1 numberlessInvoice _ rfl,
   (failure_replies firstFails productsExampleDb).2.2.2.2.2.2.2.2.2.2.2.1 exampleClient
     (Or.inl (by decide)),
   by decide,
   (failure_replies fourthFails paidExampleDb).2.2.2.2.2.2.2.2.2.2.2.2.2.2.2.2 19783 1
     (Or.inr (Or.inr (by decide)))⟩

/-- With a failing insert (statement 3), mark-invoice-paid of a Draft invoice
replies nothing and leaves the invoice Paid, with no transaction: the database
is not the one before the request. -/
theorem markInvoicePaid_failed_insert_keeps_paid :
    (markInvoicePaid fourthFails 19783 paidExampleDb 1).2 = [] ∧
    (markInvoicePaid fourthFails 19783 paidExampleDb 1).1.invoices.map
        (fun i => (i.id, i.status)) = [(1, some "Paid"), (2, some "Paid")] ∧
    (markInvoicePaid fourthFails 19783 paidExampleDb 1).1.transactions = [] ∧
    paidExampleDb.invoices.map (fun i => (i.id, i.status))
      = [(1, some "Draft"), (2, some "Paid")] := by
  decide

end DPBusiness
